import Mathlib

/-!
# create-local-cert: certificate issuance and its file-layout contract

A shallow embedding of `main.go`.  The program is a straight-line sequence of
calls into the Go standard library plus file I/O, so the embedding threads an
explicit `World` (file system, event trace, randomness and clock counters)
through every function.  Everything the standard library or the operating
system decides (key generation, signing, PEM encoding, path joining, I/O
failures, the clock) is a field of `Env`, and the theorems hold for every
`Env`.

The file system is a table of regular files by path and a list of directories;
`os.Stat` succeeds on either, unless the call itself fails.

Go's `error` is `Option String` (`none` is `nil`).  A Go function can end in
three ways, which `Outcome` keeps apart: it returns, the process exits
(`log.Fatal`, which calls `os.Exit(1)`), or it panics (an index out of range).
-/

namespace CreateLocalCert

/-! ## Data model -/

/-- A byte string (`[]byte`). -/
abbrev Bytes := List Nat

/-- An instant as Go's `time.Time` shows it in UTC: civil date, clock and nanoseconds. -/
structure Time where
  year : Int
  month : Nat
  day : Nat
  hour : Nat
  minute : Nat
  second : Nat
  nsec : Nat
deriving DecidableEq, Repr

/-- The zero `time.Time`. -/
def Time.zero : Time := ⟨1, 1, 1, 0, 0, 0, 0⟩

/-- The fields of `pkix.Name` the program sets; all others keep their zero value. -/
structure Name where
  CommonName : String
  Organization : List String
deriving DecidableEq, Repr

/-- The zero `pkix.Name`. -/
def Name.zero : Name := ⟨"", []⟩

/-- The type `rsa.PublicKey`. -/
structure PublicKey where
  N : Nat
  E : Nat
deriving DecidableEq, Repr

/-- The type `rsa.PrivateKey` (also what `tls.Certificate.PrivateKey` holds). -/
structure PrivateKey where
  pub : PublicKey
  D : Nat
deriving DecidableEq, Repr

/-- The fields of `x509.Certificate` that the two templates touch, and `IPAddresses`,
which neither touches. -/
structure Certificate where
  SerialNumber : Int
  Issuer : Name
  Subject : Name
  NotBefore : Time
  NotAfter : Time
  KeyUsage : Nat
  ExtKeyUsage : List Nat
  IsCA : Bool
  BasicConstraintsValid : Bool
  DNSNames : List String
  IPAddresses : List Bytes
  PermittedDNSDomains : List String
  PermittedDNSDomainsCritical : Bool
deriving DecidableEq, Repr

/-- The zero `x509.Certificate`: what a composite literal leaves in the fields it does not name. -/
def Certificate.zero : Certificate :=
  { SerialNumber := 0, Issuer := Name.zero, Subject := Name.zero,
    NotBefore := Time.zero, NotAfter := Time.zero, KeyUsage := 0, ExtKeyUsage := [],
    IsCA := false, BasicConstraintsValid := false, DNSNames := [], IPAddresses := [],
    PermittedDNSDomains := [], PermittedDNSDomainsCritical := false }

/-- The type `pem.Block` (without headers, which the program never sets). -/
structure Block where
  type : String
  bytes : Bytes
deriving DecidableEq, Repr

/-- The type `tls.Certificate`: the DER chain and the private key. -/
structure TLSCertificate where
  Certificate : List Bytes
  PrivateKey : PrivateKey
deriving DecidableEq, Repr

/-- A regular file: permission bits and content. -/
structure File where
  mode : Nat
  data : Bytes
deriving DecidableEq, Repr

/-- The file system: regular files by path, and the directories `MkdirAll` made. -/
structure FS where
  files : List (String × File)
  dirs : List String
deriving DecidableEq, Repr

/-- Look a path up in the file table. -/
def lookupFile : List (String × File) → String → Option File
  | [], _ => none
  | (p, f) :: rest, path => if p = path then some f else lookupFile rest path

/-- Bind a path in the file table, replacing an earlier binding. -/
def storeFile : List (String × File) → String → File → List (String × File)
  | [], path, f => [(path, f)]
  | (p, g) :: rest, path, f =>
    if p = path then (p, f) :: rest else (p, g) :: storeFile rest path f

/-- The file at a path, if there is one. -/
def FS.get (fs : FS) (path : String) : Option File := lookupFile fs.files path

/-- The file system with the file at `path` set to `f`. -/
def FS.set (fs : FS) (path : String) (f : File) : FS :=
  { fs with files := storeFile fs.files path f }

/-- Whether something is at a path: a regular file or a directory. -/
def FS.has (fs : FS) (path : String) : Bool :=
  (fs.get path).isSome || decide (path ∈ fs.dirs)

/-- The calls of the program's own functions that the trace records. -/
inductive Call where
  | createCA (outPath : String) (sans : List String) (isUsingNameConstraints : Bool)
  | createServerCert (outPath : String) (sans : List String)
  | writePEM (path : String) (block : Block) (mode : Nat)
deriving DecidableEq, Repr

/-- What a run does, in order.  `enter` and `leave` mark the calls and returns of the
program's own functions; the other events are the library and system calls it makes. -/
inductive Event where
  | enter (c : Call)
  | leave (c : Call) (err : Option String)
  | log (msg : String)
  | exit (code : Nat)
  | flagParse (args : List String)
  | abs (path : String) (ok : Bool)
  | mkdirAll (path : String) (perm : Nat) (ok : Bool)
  | stat (path : String) (found : Bool)
  | generateKey (bits : Nat) (ok : Bool)
  | now (t : Time)
  | createCertificate (template parent : Certificate) (pub : PublicKey) (priv : PrivateKey)
      (ok : Bool)
  | loadX509KeyPair (certFile keyFile : String) (ok : Bool)
  | parseCertificate (der : Bytes) (ok : Bool)
  | create (path : String) (ok : Bool)
  | chmod (path : String) (mode : Nat) (ok : Bool)
  | write (path : String) (data : Bytes) (ok : Bool)
  | close (path : String)
deriving DecidableEq, Repr

/-- The state a run threads: the file system, the trace so far, and how many times
`rand.Reader` and the clock have been consulted. -/
structure World where
  fs : FS
  trace : List Event
  rand : Nat
  clock : Nat
deriving DecidableEq, Repr

/-- How a Go function ends: it returns a value, the process exits with a status, or it
panics; `site` is the index expression that is out of range. -/
inductive Outcome (α : Type) where
  | ret (a : α) (w : World)
  | exit (code : Nat) (w : World)
  | panic (site : String) (w : World)
deriving Repr

/-- The world an outcome leaves behind. -/
def Outcome.world {α : Type} : Outcome α → World
  | .ret _ w => w
  | .exit _ w => w
  | .panic _ w => w

/-- What `flag.Parse` does with a command line: it exits (bad flag, `-h`), or it
returns with the two flag values and the positional arguments. -/
inductive ParseResult where
  | exit (code : Nat)
  | parsed (outPath : String) (isUsingNameConstraints : Bool) (args : List String)
deriving DecidableEq, Repr

/-- The standard library and the operating system, as far as the program consults them. -/
structure Env where
  /-- The function `filepath.Join` of two elements. -/
  Join : String → String → String
  /-- The function `filepath.Abs`. -/
  Abs : String → Except String String
  /-- The function `flag.Parse`, given the defaults of `-out` and `-name-constraints`. -/
  flagParse : String → Bool → List String → ParseResult
  /-- Whether `os.Stat` fails on a path at which something is (permission, I/O error). -/
  statErr : FS → String → Option String
  /-- The text `%v` prints for an `os.FileMode`. -/
  fileModeString : Nat → String
  /-- Whether `os.MkdirAll` fails on a path that is not a regular file. -/
  mkdirAllErr : FS → String → Nat → Option String
  /-- Whether `os.Create` fails on a path that is not a directory. -/
  createErr : FS → String → Option String
  /-- The mode of a file `os.Create` makes anew: 0666 less the umask. -/
  createMode : Nat
  /-- Whether `os.Chmod` fails. -/
  chmodErr : FS → String → Nat → Option String
  /-- Whether writing the encoded block fails. -/
  writeErr : FS → String → Bytes → Option String
  /-- How many bytes reach the file when the write fails. -/
  shortWrite : FS → String → Bytes → Nat
  /-- Whether `os.ReadFile` fails on a file that exists. -/
  readErr : FS → String → Option String
  /-- The clock: the reading `time.Now` returns the k-th time it is asked. -/
  now : Nat → Time
  /-- The method `Time.AddDate`. -/
  AddDate : Time → Int → Int → Int → Time
  /-- The function `rsa.GenerateKey`, given the state of `rand.Reader` and the size. -/
  GenerateKey : Nat → Nat → Except String PrivateKey
  /-- The function `x509.CreateCertificate`, given the state of `rand.Reader`. -/
  CreateCertificate :
    Nat → Certificate → Certificate → PublicKey → PrivateKey → Except String Bytes
  /-- The function `x509.MarshalPKCS1PrivateKey`. -/
  MarshalPKCS1PrivateKey : PrivateKey → Bytes
  /-- The function `tls.X509KeyPair` on the two PEM files' contents. -/
  X509KeyPair : Bytes → Bytes → Except String TLSCertificate
  /-- The function `x509.ParseCertificate`. -/
  ParseCertificate : Bytes → Except String Certificate
  /-- The bytes `pem.Encode` writes for a block. -/
  EncodeToMemory : Block → Bytes

/-! ## Constants of `main.go` and of `crypto/x509` -/

/-- The size of every RSA key, in bits. -/
def KEY_SIZE : Nat := 4096

/-- The name of the CA key file. -/
def CA_KEY_FILE : String := "ca.key"
/-- The name of the CA certificate file. -/
def CA_CERT_FILE : String := "ca.crt"
/-- The name of the server key file. -/
def SERVER_KEY_FILE : String := "server.key"
/-- The name of the server certificate file. -/
def SERVER_CERT_FILE : String := "server.crt"

/-- The mode of a key file: 0400 in Go's octal. -/
def KEY_FILE_MODE : Nat := 0o400
/-- The mode of a certificate file: 0444 in Go's octal. -/
def CERT_FILE_MODE : Nat := 0o444

/-- The version in the banner; the value of the source, which a build may replace. -/
def build_version : String := "dev"
/-- The commit in the banner; the value of the source, which a build may replace. -/
def build_commit : String := "none"
/-- The date in the banner; the value of the source, which a build may replace. -/
def build_date : String := "na"

/-- The bit `x509.KeyUsageDigitalSignature` (1 << 0). -/
def KeyUsageDigitalSignature : Nat := 1
/-- The bit `x509.KeyUsageKeyEncipherment` (1 << 2). -/
def KeyUsageKeyEncipherment : Nat := 4
/-- The bit `x509.KeyUsageCertSign` (1 << 5). -/
def KeyUsageCertSign : Nat := 32
/-- The bit `x509.KeyUsageCRLSign` (1 << 6). -/
def KeyUsageCRLSign : Nat := 64
/-- The value `x509.ExtKeyUsageServerAuth` (the second of the enumeration, after `Any`). -/
def ExtKeyUsageServerAuth : Nat := 1

/-! ## Library and system calls -/

/-- Append an event to the trace. -/
def emit (e : Event) (w : World) : World := { w with trace := w.trace ++ [e] }

/-- The functions `log.Println` and `log.Printf`: one line on the log (recorded without
its timestamp and final newline). -/
def Println (msg : String) (w : World) : World := emit (.log msg) w

/-- The functions `log.Fatal` and `log.Fatalf`: log the line, then `os.Exit(1)`.  Deferred
calls do not run. -/
def Fatal {α : Type} (msg : String) (w : World) : Outcome α :=
  .exit 1 (emit (.exit 1) (emit (.log msg) w))

/-- A return of one of the program's functions, recorded in the trace. -/
def Return (c : Call) (err : Option String) (w : World) : Outcome (Option String) :=
  .ret err (emit (.leave c err) w)

/-- Whether `os.Stat` returns a nil error: something is at the path, a file or a directory,
and the call does not fail on it. -/
def statOk (env : Env) (fs : FS) (path : String) : Bool :=
  fs.has path && (env.statErr fs path).isNone

/-- The function `os.Stat`, as far as the program looks at it: whether its error is nil. -/
def Stat (env : Env) (path : String) (w : World) : Bool × World :=
  (statOk env w.fs path, emit (.stat path (statOk env w.fs path)) w)

/-- The function `time.Now`: the next reading of the clock. -/
def Now (env : Env) (w : World) : Time × World :=
  (env.now w.clock, emit (.now (env.now w.clock)) { w with clock := w.clock + 1 })

/-- The function `rsa.GenerateKey(rand.Reader, bits)`. -/
def GenerateKey (env : Env) (bits : Nat) (w : World) : Except String PrivateKey × World :=
  match env.GenerateKey w.rand bits with
  | .error err => (.error err, emit (.generateKey bits false) { w with rand := w.rand + 1 })
  | .ok key => (.ok key, emit (.generateKey bits true) { w with rand := w.rand + 1 })

/-- The function `x509.CreateCertificate(rand.Reader, template, parent, pub, priv)`. -/
def CreateCertificate (env : Env) (template parent : Certificate) (pub : PublicKey)
    (priv : PrivateKey) (w : World) : Except String Bytes × World :=
  match env.CreateCertificate w.rand template parent pub priv with
  | .error err =>
    (.error err, emit (.createCertificate template parent pub priv false)
      { w with rand := w.rand + 1 })
  | .ok der =>
    (.ok der, emit (.createCertificate template parent pub priv true)
      { w with rand := w.rand + 1 })

/-- The function `os.ReadFile`: the content of a regular file; a directory and a missing file
give an error. -/
def ReadFile (env : Env) (fs : FS) (path : String) : Except String Bytes :=
  match fs.get path with
  | none =>
    .error (if path ∈ fs.dirs then "read " ++ path ++ ": is a directory"
            else "open " ++ path ++ ": no such file or directory")
  | some f =>
    match env.readErr fs path with
    | some err => .error err
    | none => .ok f.data

/-- The function `tls.LoadX509KeyPair`, as a function of the file system: read the
certificate file, read the key file, pair them. -/
def loadX509KeyPair (env : Env) (fs : FS) (certFile keyFile : String) :
    Except String TLSCertificate :=
  match ReadFile env fs certFile with
  | .error err => .error err
  | .ok certPEMBlock =>
    match ReadFile env fs keyFile with
    | .error err => .error err
    | .ok keyPEMBlock => env.X509KeyPair certPEMBlock keyPEMBlock

/-- The function `tls.LoadX509KeyPair`, recorded in the trace. -/
def LoadX509KeyPair (env : Env) (certFile keyFile : String) (w : World) :
    Except String TLSCertificate × World :=
  match loadX509KeyPair env w.fs certFile keyFile with
  | .error err => (.error err, emit (.loadX509KeyPair certFile keyFile false) w)
  | .ok pair => (.ok pair, emit (.loadX509KeyPair certFile keyFile true) w)

/-- The function `x509.ParseCertificate`. -/
def ParseCertificate (env : Env) (der : Bytes) (w : World) :
    Except String Certificate × World :=
  match env.ParseCertificate der with
  | .error err => (.error err, emit (.parseCertificate der false) w)
  | .ok cert => (.ok cert, emit (.parseCertificate der true) w)

/-- The file `os.Create` leaves at a path: an existing file truncated (its mode stays), or
a new empty file. -/
def createdFile (env : Env) (fs : FS) (path : String) : File :=
  match fs.get path with
  | some old => { old with data := [] }
  | none => { mode := env.createMode, data := [] }

/-- Whether `os.Create` fails: always on a directory, otherwise as the environment has it. -/
def createFails (env : Env) (fs : FS) (path : String) : Option String :=
  if path ∈ fs.dirs then some ("open " ++ path ++ ": is a directory") else env.createErr fs path

/-- The function `os.Create`: make the file, or truncate it when it exists. -/
def Create (env : Env) (path : String) (w : World) : Option String × World :=
  match createFails env w.fs path with
  | some err => (some err, emit (.create path false) w)
  | none =>
    (none, emit (.create path true) { w with fs := w.fs.set path (createdFile env w.fs path) })

/-- The function `os.Chmod`: set the permission bits of the file at `path`.  The modes of
directories are not kept, so on a directory a successful call changes nothing. -/
def Chmod (env : Env) (path : String) (mode : Nat) (w : World) : Option String × World :=
  match w.fs.get path with
  | none =>
    if path ∈ w.fs.dirs then
      match env.chmodErr w.fs path mode with
      | some err => (some err, emit (.chmod path mode false) w)
      | none => (none, emit (.chmod path mode true) w)
    else
      (some ("chmod " ++ path ++ ": no such file or directory"),
        emit (.chmod path mode false) w)
  | some f =>
    match env.chmodErr w.fs path mode with
    | some err => (some err, emit (.chmod path mode false) w)
    | none =>
      (none, emit (.chmod path mode true) { w with fs := w.fs.set path { f with mode := mode } })

/-- Append bytes to the file at `path`; a file that is gone takes nothing. -/
def FS.append (fs : FS) (path : String) (data : Bytes) : FS :=
  match fs.get path with
  | none => fs
  | some f => fs.set path { f with data := f.data ++ data }

/-- The function `pem.Encode(out, block)` on the file opened at `path`: the encoded block is
appended; when the write fails, only a part of it has reached the file. -/
def Encode (env : Env) (path : String) (block : Block) (w : World) : Option String × World :=
  let encoded := env.EncodeToMemory block
  match env.writeErr w.fs path encoded with
  | some err =>
    let written := encoded.take (env.shortWrite w.fs path encoded)
    (some err, emit (.write path written false) { w with fs := w.fs.append path written })
  | none =>
    (none, emit (.write path encoded true) { w with fs := w.fs.append path encoded })

/-- The method `out.Close()`. -/
def Close (path : String) (w : World) : World := emit (.close path) w

/-- The function `filepath.Abs`. -/
def Abs (env : Env) (path : String) (w : World) : Except String String × World :=
  match env.Abs path with
  | .error err => (.error err, emit (.abs path false) w)
  | .ok p => (.ok p, emit (.abs path true) w)

/-- Whether `os.MkdirAll` fails: always where a regular file is at the path, otherwise as the
environment has it. -/
def mkdirAllFails (env : Env) (fs : FS) (path : String) (perm : Nat) : Option String :=
  if (fs.get path).isSome then some ("mkdir " ++ path ++ ": not a directory")
  else env.mkdirAllErr fs path perm

/-- The function `os.MkdirAll`. -/
def MkdirAll (env : Env) (path : String) (perm : Nat) (w : World) : Option String × World :=
  match mkdirAllFails env w.fs path perm with
  | some err => (some err, emit (.mkdirAll path perm false) w)
  | none =>
    (none, emit (.mkdirAll path perm true)
      { w with fs := { w.fs with dirs := if path ∈ w.fs.dirs then w.fs.dirs
                                          else w.fs.dirs ++ [path] } })

/-! ## The program -/

/-- The function `writePEM` of `main.go`. -/
def writePEM (env : Env) (path : String) (block : Block) (mode : Nat) (w : World) :
    Outcome (Option String) :=
  let w := emit (.enter (.writePEM path block mode)) w
  let w := Println ("Writing " ++ path ++ " with mode " ++ env.fileModeString mode) w
  match Create env path w with
  | (some err, w) => Fatal ("file creation failed: " ++ err) w
  | (none, w) =>
    match Chmod env path mode w with
    | (some err, w) => Fatal ("failed to set file permissions: " ++ err) w
    | (none, w) =>
      match Encode env path block w with
      | (some err, w) => Fatal ("failed to write PEM block: " ++ err) w
      | (none, w) => Return (.writePEM path block mode) none (Close path w)

/-- The template `spec` that `createCA` builds, from the first SAN and the two clock readings. -/
def caTemplate (env : Env) (san0 : String) (sans : List String)
    (isUsingNameConstraints : Bool) (t1 t2 : Time) : Certificate :=
  let spec : Certificate :=
    { Certificate.zero with
      SerialNumber := 1
      Subject := { CommonName := "create-local-cert CA for " ++ san0,
                   Organization := ["create-local-cert CA"] }
      NotBefore := t1
      NotAfter := env.AddDate t2 10 0 0
      KeyUsage := KeyUsageCertSign ||| KeyUsageCRLSign
      ExtKeyUsage := []
      IsCA := true
      BasicConstraintsValid := true }
  if isUsingNameConstraints then
    { spec with PermittedDNSDomains := sans, PermittedDNSDomainsCritical := true }
  else spec

/-- The function `createCA` of `main.go`. -/
def createCA (env : Env) (outPath : String) (sans : List String)
    (isUsingNameConstraints : Bool) (w : World) : Outcome (Option String) :=
  let c := Call.createCA outPath sans isUsingNameConstraints
  let w := emit (.enter c) w
  let keyPath := env.Join outPath CA_KEY_FILE
  match Stat env keyPath w with
  | (true, w) => Return c none (Println (keyPath ++ " already exists, skipping creation") w)
  | (false, w) =>
    match GenerateKey env KEY_SIZE w with
    | (.error err, w) => Return c (some ("failed to generate CA key: " ++ err)) w
    | (.ok key, w) =>
      match sans with
      | [] => .panic "sans[0]" w
      | san0 :: _ =>
        match Now env w with
        | (t1, w) =>
          match Now env w with
          | (t2, w) =>
            let spec := caTemplate env san0 sans isUsingNameConstraints t1 t2
            match CreateCertificate env spec spec key.pub key w with
            | (.error err, w) => Return c (some ("failed to create CA certificate: " ++ err)) w
            | (.ok cert, w) =>
              match writePEM env (env.Join outPath CA_CERT_FILE) ⟨"CERTIFICATE", cert⟩
                  CERT_FILE_MODE w with
              | .exit code w => .exit code w
              | .panic site w => .panic site w
              | .ret (some err) w =>
                Return c (some ("failed to write CA certificate: " ++ err)) w
              | .ret none w =>
                match writePEM env keyPath
                    ⟨"RSA PRIVATE KEY", env.MarshalPKCS1PrivateKey key⟩ KEY_FILE_MODE w with
                | .exit code w => .exit code w
                | .panic site w => .panic site w
                | .ret (some err) w =>
                  Return c (some ("failed to write CA private key: " ++ err)) w
                | .ret none w => Return c none w

/-- The template `spec` that `createServerCert` builds. -/
def serverTemplate (env : Env) (ca : Certificate) (san0 : String) (sans : List String)
    (t1 t2 : Time) : Certificate :=
  { Certificate.zero with
    SerialNumber := 2
    Issuer := ca.Subject
    Subject := { CommonName := san0, Organization := ["create-local-cert"] }
    NotBefore := t1
    NotAfter := env.AddDate t2 10 0 0
    ExtKeyUsage := [ExtKeyUsageServerAuth]
    KeyUsage := KeyUsageDigitalSignature ||| KeyUsageKeyEncipherment
    DNSNames := sans }

/-- The function `createServerCert` of `main.go`. -/
def createServerCert (env : Env) (outPath : String) (sans : List String) (w : World) :
    Outcome (Option String) :=
  let c := Call.createServerCert outPath sans
  let w := emit (.enter c) w
  let keyPath := env.Join outPath SERVER_KEY_FILE
  match Stat env keyPath w with
  | (true, w) => Return c none (Println (keyPath ++ " already exists, skipping creation") w)
  | (false, w) =>
    match LoadX509KeyPair env (env.Join outPath CA_CERT_FILE) (env.Join outPath CA_KEY_FILE) w with
    | (.error err, w) => Return c (some ("failed to load CA keypair: " ++ err)) w
    | (.ok caKeyPair, w) =>
      match caKeyPair.Certificate with
      | [] => .panic "caKeyPair.Certificate[0]" w
      | der :: _ =>
        match ParseCertificate env der w with
        | (.error err, w) => Return c (some ("failed to parse CA certificate: " ++ err)) w
        | (.ok ca, w) =>
          match GenerateKey env KEY_SIZE w with
          | (.error err, w) => Return c (some ("failed to generate server key: " ++ err)) w
          | (.ok key, w) =>
            match sans with
            | [] => .panic "sans[0]" w
            | san0 :: _ =>
              match Now env w with
              | (t1, w) =>
                match Now env w with
                | (t2, w) =>
                  let spec := serverTemplate env ca san0 sans t1 t2
                  match CreateCertificate env spec ca key.pub caKeyPair.PrivateKey w with
                  | (.error err, w) =>
                    Return c (some ("failed to create server certificate: " ++ err)) w
                  | (.ok cert, w) =>
                    match writePEM env (env.Join outPath SERVER_CERT_FILE)
                        ⟨"CERTIFICATE", cert⟩ CERT_FILE_MODE w with
                    | .exit code w => .exit code w
                    | .panic site w => .panic site w
                    | .ret (some err) w =>
                      Return c (some ("failed to write CA certificate: " ++ err)) w
                    | .ret none w =>
                      match writePEM env keyPath
                          ⟨"RSA PRIVATE KEY", env.MarshalPKCS1PrivateKey key⟩
                          KEY_FILE_MODE w with
                      | .exit code w => .exit code w
                      | .panic site w => .panic site w
                      | .ret (some err) w =>
                        Return c (some ("failed to write CA private key: " ++ err)) w
                      | .ret none w => Return c none w

/-- The function `main` of `main.go`, on the command line after the program name. -/
def main (env : Env) (args : List String) (w : World) : Outcome Unit :=
  let w := Println ("create-local-cert " ++ build_version ++ " (" ++ build_commit ++
    ") built on " ++ build_date) w
  let w := Println "" w
  let w := emit (.flagParse args) w
  match env.flagParse "./certs" true args with
  | .exit code => .exit code (emit (.exit code) w)
  | .parsed outPath isUsingNameConstraints sans =>
    if sans.length = 0 then Fatal "failed: at least one SAN must be provided" w
    else
      match Abs env outPath w with
      | (.error err, w) => Fatal ("failed to resolve outpath: " ++ err) w
      | (.ok outPath, w) =>
        let w := Println "Params:" w
        let w := Println ("  SANs: [" ++ " ".intercalate sans ++ "]") w
        let w := Println ("  outPath: " ++ outPath) w
        let w := Println ("  isUsingNameConstraints: " ++ toString isUsingNameConstraints) w
        let w := Println "" w
        match MkdirAll env outPath 0o755 w with
        | (some err, w) => Fatal ("failed to create output directory: " ++ err) w
        | (none, w) =>
          let w := Println "Creating CA..." w
          match createCA env outPath sans isUsingNameConstraints w with
          | .exit code w => .exit code w
          | .panic site w => .panic site w
          | .ret (some err) w => Fatal ("failed to create CA: " ++ err) w
          | .ret none w =>
            let w := Println "" w
            let w := Println "Creating server certificate..." w
            match createServerCert env outPath sans w with
            | .exit code w => .exit code w
            | .panic site w => .panic site w
            | .ret (some err) w => Fatal ("failed to create server certificate: " ++ err) w
            | .ret none w =>
              let w := Println "" w
              let w := Println "Done!" w
              .ret () w

/-! ## Observing a run -/

/-- The events an outcome added to the trace of the world it started from. -/
def newEvents {α : Type} (w : World) (o : Outcome α) : List Event :=
  o.world.trace.drop w.trace.length

/-- Whether an event is a call of `x509.CreateCertificate`. -/
def Event.isSign : Event → Bool
  | .createCertificate _ _ _ _ _ => true
  | _ => false

/-- Whether an event is a call of `rsa.GenerateKey`. -/
def Event.isGenerateKey : Event → Bool
  | .generateKey _ _ => true
  | _ => false

/-- Whether an event touches a file: `os.Create`, `os.Chmod`, a write, or `os.MkdirAll`. -/
def Event.isFileChange : Event → Bool
  | .create _ _ => true
  | .chmod _ _ _ => true
  | .write _ _ _ => true
  | .mkdirAll _ _ _ => true
  | _ => false

/-- Whether an event is a file step that failed: a create, a chmod or a write. -/
def Event.isFailedPersist : Event → Bool
  | .create _ false => true
  | .chmod _ _ false => true
  | .write _ _ false => true
  | _ => false

/-- The path of the file or directory an event creates or changes, if it is such an event. -/
def Event.target : Event → Option String
  | .create path _ => some path
  | .chmod path _ _ => some path
  | .write path _ _ => some path
  | .mkdirAll path _ _ => some path
  | _ => none

/-- Whether an event is a call of `writePEM`. -/
def Event.isWritePEM : Event → Bool
  | .enter (.writePEM _ _ _) => true
  | _ => false

/-- Whether an event is a call of `createCA` or of `createServerCert`. -/
def Event.isIssuerCall : Event → Bool
  | .enter (.createCA _ _ _) => true
  | .enter (.createServerCert _ _) => true
  | _ => false

/-- Whether an event is a call of `createServerCert`. -/
def Event.isServerCall : Event → Bool
  | .enter (.createServerCert _ _) => true
  | _ => false

/-- The SAN list an issuer call received (empty for any other event). -/
def Event.sansOf : Event → List String
  | .enter (.createCA _ sans _) => sans
  | .enter (.createServerCert _ sans) => sans
  | _ => []

/-- Whether an event is `createCA` returning nil. -/
def Event.isCAReturnNil : Event → Bool
  | .leave (.createCA _ _ _) none => true
  | _ => false

/-- Whether an event is one that `writePEM` can add, or a return: the steps that follow
signing in an issuer. -/
def Event.isPersistStep : Event → Bool
  | .enter (.writePEM _ _ _) => true
  | .leave _ _ => true
  | .log _ => true
  | .exit _ => true
  | .create _ _ => true
  | .chmod _ _ _ => true
  | .write _ _ _ => true
  | .close _ => true
  | _ => false

/-- The events of a `writePEM` call in which all three steps succeed. -/
def writePEMEvents (env : Env) (path : String) (block : Block) (mode : Nat) : List Event :=
  [.enter (.writePEM path block mode),
   .log ("Writing " ++ path ++ " with mode " ++ env.fileModeString mode),
   .create path true, .chmod path mode true, .write path (env.EncodeToMemory block) true,
   .close path, .leave (.writePEM path block mode) none]

/-- The events of a `writePEM` call that ends in `log.Fatalf`: the call, its log line, the
steps up to the one that failed, the fatal log line and the exit. -/
def FailedWrite (env : Env) (path : String) (block : Block) (mode : Nat) (t : List Event) :
    Prop :=
  ∃ mid msg,
    t = [.enter (.writePEM path block mode),
         .log ("Writing " ++ path ++ " with mode " ++ env.fileModeString mode)] ++ mid ++
        [.log msg, .exit 1] ∧
    (mid = [.create path false] ∨
     mid = [.create path true, .chmod path mode false] ∨
     ∃ data, mid = [.create path true, .chmod path mode true, .write path data false])

/-- The events of an issuer that has signed: after the prologue `pre`, the certificate
write fails; or it succeeds and the key write fails; or both succeed and the issuer
returns nil. -/
def PersistShape (env : Env) (pre : List Event) (certPath : String) (certBlock : Block)
    (keyPath : String) (keyBlock : Block) (c : Call) (t : List Event) : Prop :=
  (∃ t1, FailedWrite env certPath certBlock CERT_FILE_MODE t1 ∧ t = pre ++ t1) ∨
  (∃ t2, FailedWrite env keyPath keyBlock KEY_FILE_MODE t2 ∧
    t = pre ++ writePEMEvents env certPath certBlock CERT_FILE_MODE ++ t2) ∨
  t = pre ++ writePEMEvents env certPath certBlock CERT_FILE_MODE ++
    writePEMEvents env keyPath keyBlock KEY_FILE_MODE ++ [.leave c none]

/-- The events of `createCA` from its call up to its call of `x509.CreateCertificate`, when
`os.Stat` fails on `ca.key` and key generation returns `key`; `ok` tells whether signing
succeeds. -/
def caPrologue (env : Env) (outPath : String) (sans : List String)
    (isUsingNameConstraints : Bool) (w : World) (key : PrivateKey) (san0 : String)
    (ok : Bool) : List Event :=
  [.enter (.createCA outPath sans isUsingNameConstraints),
   .stat (env.Join outPath CA_KEY_FILE) false,
   .generateKey KEY_SIZE true,
   .now (env.now w.clock), .now (env.now (w.clock + 1)),
   .createCertificate
     (caTemplate env san0 sans isUsingNameConstraints (env.now w.clock) (env.now (w.clock + 1)))
     (caTemplate env san0 sans isUsingNameConstraints (env.now w.clock) (env.now (w.clock + 1)))
     key.pub key ok]

/-- The events of `createServerCert` from its call up to its call of
`x509.CreateCertificate`, when `os.Stat` fails on `server.key`, the CA pair `pair` loads, its first
certificate `der` parses to `ca`, and key generation returns `key`. -/
def serverPrologue (env : Env) (outPath : String) (sans : List String) (w : World)
    (pair : TLSCertificate) (der : Bytes) (ca : Certificate) (key : PrivateKey) (san0 : String)
    (ok : Bool) : List Event :=
  [.enter (.createServerCert outPath sans),
   .stat (env.Join outPath SERVER_KEY_FILE) false,
   .loadX509KeyPair (env.Join outPath CA_CERT_FILE) (env.Join outPath CA_KEY_FILE) true,
   .parseCertificate der true,
   .generateKey KEY_SIZE true,
   .now (env.now w.clock), .now (env.now (w.clock + 1)),
   .createCertificate
     (serverTemplate env ca san0 sans (env.now w.clock) (env.now (w.clock + 1)))
     ca key.pub pair.PrivateKey ok]

/-- The events of `main` from its start up to its call of `createCA`, when the flags parse,
the output path resolves and the output directory is made. -/
def mainPrologue (args : List String) (outFlag outPath : String) (isUsingNameConstraints : Bool)
    (sans : List String) : List Event :=
  [.log ("create-local-cert " ++ build_version ++ " (" ++ build_commit ++ ") built on " ++
      build_date),
   .log "", .flagParse args, .abs outFlag true, .log "Params:",
   .log ("  SANs: [" ++ " ".intercalate sans ++ "]"),
   .log ("  outPath: " ++ outPath),
   .log ("  isUsingNameConstraints: " ++ toString isUsingNameConstraints),
   .log "", .mkdirAll outPath 0o755 true, .log "Creating CA..."]

/-! ## A concrete environment

Small stand-ins for the library, to run the model on concrete inputs. -/

/-- Days from 1970-01-01 to a civil date of the proleptic Gregorian calendar. -/
def daysFromCivil (y m d : Int) : Int :=
  let y := if m ≤ 2 then y - 1 else y
  let era := y / 400
  let yoe := y - era * 400
  let mp := if m > 2 then m - 3 else m + 9
  let doy := (153 * mp + 2) / 5 + d - 1
  let doe := yoe * 365 + yoe / 4 - yoe / 100 + doy
  era * 146097 + doe - 719468

/-- The civil date that lies the given number of days after 1970-01-01. -/
def civilFromDays (z : Int) : Int × Int × Int :=
  let z := z + 719468
  let era := z / 146097
  let doe := z - era * 146097
  let yoe := (doe - doe / 1460 + doe / 36524 - doe / 146096) / 365
  let doy := doe - (365 * yoe + yoe / 4 - yoe / 100)
  let mp := (5 * doy + 2) / 153
  let d := doy - (153 * mp + 2) / 5 + 1
  let m := if mp < 10 then mp + 3 else mp - 9
  (if m ≤ 2 then yoe + era * 400 + 1 else yoe + era * 400, m, d)

/-- Calendar arithmetic in the manner of `Time.AddDate`: add to the year, month and day, then
normalise (October 32 becomes November 1); the time of day stays. -/
def civilAddDate (t : Time) (years months days : Int) : Time :=
  let mm := (t.year + years) * 12 + ((t.month : Int) - 1) + months
  let z := daysFromCivil (mm / 12) (mm % 12 + 1) 1 + ((t.day : Int) - 1) + days
  match civilFromDays z with
  | (y, m, d) => { t with year := y, month := m.toNat, day := d.toNat }

/-- A clock that advances one nanosecond between two readings. -/
def tickingClock (k : Nat) : Time := ⟨2024, 1, 1, 0, 0, 0, k⟩

/-- The certificate every DER string parses to in `demoEnv`. -/
def demoCA : Certificate :=
  { Certificate.zero with
    SerialNumber := 1, Subject := ⟨"demo CA", ["create-local-cert CA"]⟩ }

/-- An environment in which every system call succeeds. -/
def demoEnv : Env where
  Join := fun dir name => dir ++ "/" ++ name
  Abs := fun p => .ok (if p = "./certs" then "/work/certs" else p)
  flagParse := fun out nc args =>
    match args with
    | [] => .parsed out nc []
    | a :: rest => if a.data.head? = some '-' then .exit 2 else .parsed out nc (a :: rest)
  statErr := fun _ _ => none
  fileModeString := fun m => if m = 0o400 then "-r--------" else "-r--r--r--"
  mkdirAllErr := fun _ _ _ => none
  createErr := fun _ _ => none
  createMode := 0o644
  chmodErr := fun _ _ _ => none
  writeErr := fun _ _ _ => none
  shortWrite := fun _ _ _ => 0
  readErr := fun _ _ => none
  now := tickingClock
  AddDate := civilAddDate
  GenerateKey := fun r bits => .ok ⟨⟨bits + r, 65537⟩, r + 1⟩
  CreateCertificate := fun _ template _ pub priv => .ok [template.SerialNumber.toNat, pub.N, priv.D]
  MarshalPKCS1PrivateKey := fun k => [k.pub.N, k.pub.E, k.D]
  X509KeyPair := fun certPEM keyPEM =>
    match certPEM, keyPEM with
    | _ :: der, [_, n, e, d] => .ok ⟨[der], ⟨⟨n, e⟩, d⟩⟩
    | _, _ => .error "tls: failed to find any PEM data in certificate input"
  ParseCertificate := fun der =>
    match der with
    | [_, _, _] => .ok demoCA
    | _ => .error "x509: malformed certificate"
  EncodeToMemory := fun b => b.type.length :: b.bytes

/-- The world of a fresh process: no files, nothing done yet. -/
def emptyWorld : World := ⟨⟨[], []⟩, [], 0, 0⟩

/-- A world in which a CA has been issued in `/certs` (as `demoEnv` encodes it). -/
def caWorld : World :=
  ⟨⟨[("/certs/ca.crt", ⟨0o444, [11, 1, 4096, 1]⟩),
     ("/certs/ca.key", ⟨0o400, [15, 4096, 65537, 1]⟩)], []⟩, [], 2, 2⟩

/-- A world in which a CA and a server certificate have been issued in `/certs`. -/
def issuedWorld : World :=
  ⟨⟨[("/certs/ca.crt", ⟨0o444, [11, 1, 4096, 1]⟩),
     ("/certs/ca.key", ⟨0o400, [15, 4096, 65537, 1]⟩),
     ("/certs/server.crt", ⟨0o444, [11, 2, 4098, 1]⟩),
     ("/certs/server.key", ⟨0o400, [15, 4098, 65537, 3]⟩)], []⟩, [], 4, 4⟩

/-- A world in which both key paths of `/certs` are directories. -/
def dirWorld : World := ⟨⟨[], ["/certs/ca.key", "/certs/server.key"]⟩, [], 0, 0⟩

/-- An environment in which `os.Create` fails on every path. -/
def readOnlyEnv : Env :=
  { demoEnv with createErr := fun _ _ => some "permission denied" }

/-- An environment in which `rsa.GenerateKey` fails. -/
def noEntropyEnv : Env :=
  { demoEnv with GenerateKey := fun _ _ => .error "entropy exhausted" }

/-- An environment whose clock stands still. -/
def frozenEnv : Env :=
  { demoEnv with now := fun _ => ⟨2024, 1, 1, 0, 0, 0, 0⟩ }

/-! # Theorems -/

/-! ## The file table -/

theorem lookupFile_storeFile (l : List (String × File)) (p q : String) (f : File) :
    lookupFile (storeFile l p f) q = if p = q then some f else lookupFile l q := by
  induction l with
  | nil => simp [storeFile, lookupFile]
  | cons hd tl ih =>
    obtain ⟨r, g⟩ := hd
    simp only [storeFile]
    split_ifs with h1 h2 h2 <;> simp_all [lookupFile]

theorem storeFile_storeFile (l : List (String × File)) (p : String) (f g : File) :
    storeFile (storeFile l p f) p g = storeFile l p g := by
  induction l with
  | nil => simp [storeFile]
  | cons hd tl ih =>
    obtain ⟨r, h⟩ := hd
    by_cases hr : r = p <;> simp [storeFile, hr, ih]

theorem FS.get_set (fs : FS) (p q : String) (f : File) :
    (fs.set p f).get q = if p = q then some f else fs.get q := by
  simp [FS.get, FS.set, lookupFile_storeFile]

theorem FS.get_set_self (fs : FS) (p : String) (f : File) : (fs.set p f).get p = some f := by
  simp [FS.get_set]

theorem FS.get_set_ne (fs : FS) (p q : String) (f : File) (h : p ≠ q) :
    (fs.set p f).get q = fs.get q := by
  simp [FS.get_set, h]

theorem FS.set_set (fs : FS) (p : String) (f g : File) : (fs.set p f).set p g = fs.set p g := by
  simp [FS.set, storeFile_storeFile]

theorem createdFile_data (env : Env) (fs : FS) (p : String) :
    (createdFile env fs p).data = [] := by
  unfold createdFile
  cases fs.get p <;> rfl

theorem FS.append_set (fs : FS) (p : String) (f : File) (d : Bytes) :
    (fs.set p f).append p d = fs.set p ⟨f.mode, f.data ++ d⟩ := by
  simp [FS.append, FS.get_set_self, FS.set_set]

/-! ## Traces -/

theorem persistStep_inert (e : Event) (h : e.isPersistStep = true) :
    e.isSign = false ∧ e.isGenerateKey = false ∧ e.isIssuerCall = false ∧
      e.isServerCall = false := by
  cases e with
  | enter c => cases c <;> simp_all [Event.isPersistStep, Event.isSign, Event.isGenerateKey,
      Event.isIssuerCall, Event.isServerCall]
  | _ => simp_all [Event.isPersistStep, Event.isSign, Event.isGenerateKey,
      Event.isIssuerCall, Event.isServerCall]

/-! ## The four runs of `writePEM` -/

theorem writePEM_createErr (env : Env) (path : String) (block : Block) (mode : Nat) (w : World)
    (err : String) (hc : createFails env w.fs path = some err) :
    writePEM env path block mode w = .exit 1 ⟨w.fs,
      w.trace ++ [.enter (.writePEM path block mode),
        .log ("Writing " ++ path ++ " with mode " ++ env.fileModeString mode),
        .create path false, .log ("file creation failed: " ++ err), .exit 1],
      w.rand, w.clock⟩ := by
  simp [writePEM, Create, Println, emit, Fatal, hc]

theorem writePEM_chmodErr (env : Env) (path : String) (block : Block) (mode : Nat) (w : World)
    (err : String) (hc : createFails env w.fs path = none)
    (hm : env.chmodErr (w.fs.set path (createdFile env w.fs path)) path mode = some err) :
    writePEM env path block mode w = .exit 1 ⟨w.fs.set path (createdFile env w.fs path),
      w.trace ++ [.enter (.writePEM path block mode),
        .log ("Writing " ++ path ++ " with mode " ++ env.fileModeString mode),
        .create path true, .chmod path mode false,
        .log ("failed to set file permissions: " ++ err), .exit 1],
      w.rand, w.clock⟩ := by
  simp [writePEM, Create, Chmod, Println, emit, Fatal, hc, hm, FS.get_set_self]

theorem writePEM_writeErr (env : Env) (path : String) (block : Block) (mode : Nat) (w : World)
    (err : String) (hc : createFails env w.fs path = none)
    (hm : env.chmodErr (w.fs.set path (createdFile env w.fs path)) path mode = none)
    (hw : env.writeErr (w.fs.set path ⟨mode, []⟩) path (env.EncodeToMemory block) = some err) :
    writePEM env path block mode w = .exit 1
      ⟨w.fs.set path ⟨mode, (env.EncodeToMemory block).take
          (env.shortWrite (w.fs.set path ⟨mode, []⟩) path (env.EncodeToMemory block))⟩,
      w.trace ++ [.enter (.writePEM path block mode),
        .log ("Writing " ++ path ++ " with mode " ++ env.fileModeString mode),
        .create path true, .chmod path mode true,
        .write path ((env.EncodeToMemory block).take
          (env.shortWrite (w.fs.set path ⟨mode, []⟩) path (env.EncodeToMemory block))) false,
        .log ("failed to write PEM block: " ++ err), .exit 1],
      w.rand, w.clock⟩ := by
  simp [writePEM, Create, Chmod, Encode, Println, emit, Fatal, hc, hm, hw, FS.get_set_self,
    FS.set_set, createdFile_data, FS.append_set]

theorem writePEM_ok (env : Env) (path : String) (block : Block) (mode : Nat) (w : World)
    (hc : createFails env w.fs path = none)
    (hm : env.chmodErr (w.fs.set path (createdFile env w.fs path)) path mode = none)
    (hw : env.writeErr (w.fs.set path ⟨mode, []⟩) path (env.EncodeToMemory block) = none) :
    writePEM env path block mode w = .ret none
      ⟨w.fs.set path ⟨mode, env.EncodeToMemory block⟩,
      w.trace ++ writePEMEvents env path block mode, w.rand, w.clock⟩ := by
  simp [writePEM, Create, Chmod, Encode, Println, emit, Return, Close, hc, hm, hw,
    FS.get_set_self, FS.set_set, createdFile_data, FS.append_set, writePEMEvents]

/-- Every run of `writePEM` either exits with status 1 or returns nil after the three steps;
either way it adds only persistence steps to the trace, touches no file but `path`, and
leaves the randomness and the clock alone. -/
theorem writePEM_run (env : Env) (path : String) (block : Block) (mode : Nat) (w : World) :
    ((∃ w', writePEM env path block mode w = .exit 1 w' ∧
        ∀ e ∈ newEvents w (writePEM env path block mode w),
          e ≠ .leave (.writePEM path block mode) none) ∨
      writePEM env path block mode w = .ret none
        ⟨w.fs.set path ⟨mode, env.EncodeToMemory block⟩,
         w.trace ++ writePEMEvents env path block mode, w.rand, w.clock⟩) ∧
    (∃ t, (writePEM env path block mode w).world.trace = w.trace ++ t ∧
      ∀ e ∈ t, e.isPersistStep = true) ∧
    (∀ q, q ≠ path →
      (writePEM env path block mode w).world.fs.get q = w.fs.get q) ∧
    (writePEM env path block mode w).world.rand = w.rand ∧
    (writePEM env path block mode w).world.clock = w.clock := by
  cases hc : createFails env w.fs path with
  | some err =>
    rw [writePEM_createErr env path block mode w err hc]
    simp [Outcome.world, newEvents, Event.isPersistStep]
  | none =>
    cases hm : env.chmodErr (w.fs.set path (createdFile env w.fs path)) path mode with
    | some err =>
      rw [writePEM_chmodErr env path block mode w err hc hm]
      simp [Outcome.world, newEvents, Event.isPersistStep]
      intro q hq
      exact FS.get_set_ne _ _ _ _ (Ne.symm hq)
    | none =>
      cases hw : env.writeErr (w.fs.set path ⟨mode, []⟩) path (env.EncodeToMemory block) with
      | some err =>
        rw [writePEM_writeErr env path block mode w err hc hm hw]
        simp [Outcome.world, newEvents, Event.isPersistStep]
        intro q hq
        exact FS.get_set_ne _ _ _ _ (Ne.symm hq)
      | none =>
        rw [writePEM_ok env path block mode w hc hm hw]
        simp [Outcome.world, newEvents, Event.isPersistStep, writePEMEvents]
        intro q hq
        exact FS.get_set_ne _ _ _ _ (Ne.symm hq)

/-! ## The runs of `createCA` -/

theorem createCA_skip (env : Env) (outPath : String) (sans : List String) (nc : Bool) (w : World)
    (h : statOk env w.fs (env.Join outPath CA_KEY_FILE) = true) :
    createCA env outPath sans nc w = .ret none ⟨w.fs,
      w.trace ++ [.enter (.createCA outPath sans nc),
        .stat (env.Join outPath CA_KEY_FILE) true,
        .log (env.Join outPath CA_KEY_FILE ++ " already exists, skipping creation"),
        .leave (.createCA outPath sans nc) none],
      w.rand, w.clock⟩ := by
  simp [createCA, Stat, Println, emit, Return, h]

theorem createCA_genErr (env : Env) (outPath : String) (sans : List String) (nc : Bool)
    (w : World) (err : String)
    (h : statOk env w.fs (env.Join outPath CA_KEY_FILE) = false)
    (hg : env.GenerateKey w.rand KEY_SIZE = .error err) :
    createCA env outPath sans nc w = .ret (some ("failed to generate CA key: " ++ err)) ⟨w.fs,
      w.trace ++ [.enter (.createCA outPath sans nc),
        .stat (env.Join outPath CA_KEY_FILE) false,
        .generateKey KEY_SIZE false,
        .leave (.createCA outPath sans nc) (some ("failed to generate CA key: " ++ err))],
      w.rand + 1, w.clock⟩ := by
  simp [createCA, Stat, GenerateKey, Println, emit, Return, h, hg]

theorem createCA_panic (env : Env) (outPath : String) (nc : Bool)
    (w : World) (key : PrivateKey)
    (h : statOk env w.fs (env.Join outPath CA_KEY_FILE) = false)
    (hg : env.GenerateKey w.rand KEY_SIZE = .ok key) :
    createCA env outPath [] nc w = .panic "sans[0]" ⟨w.fs,
      w.trace ++ [.enter (.createCA outPath [] nc),
        .stat (env.Join outPath CA_KEY_FILE) false,
        .generateKey KEY_SIZE true],
      w.rand + 1, w.clock⟩ := by
  simp [createCA, Stat, GenerateKey, Println, emit, Return, h, hg]

theorem createCA_signErr (env : Env) (outPath : String) (san0 : String) (rest : List String)
    (nc : Bool) (w : World) (key : PrivateKey) (err : String)
    (h : statOk env w.fs (env.Join outPath CA_KEY_FILE) = false)
    (hg : env.GenerateKey w.rand KEY_SIZE = .ok key)
    (hs : env.CreateCertificate (w.rand + 1)
      (caTemplate env san0 (san0 :: rest) nc (env.now w.clock) (env.now (w.clock + 1)))
      (caTemplate env san0 (san0 :: rest) nc (env.now w.clock) (env.now (w.clock + 1)))
      key.pub key = .error err) :
    createCA env outPath (san0 :: rest) nc w =
      .ret (some ("failed to create CA certificate: " ++ err)) ⟨w.fs,
      w.trace ++ caPrologue env outPath (san0 :: rest) nc w key san0 false ++
        [.leave (.createCA outPath (san0 :: rest) nc)
          (some ("failed to create CA certificate: " ++ err))],
      w.rand + 2, w.clock + 2⟩ := by
  simp [createCA, Stat, GenerateKey, Now, CreateCertificate, Println, emit, Return, h, hg, hs,
    caPrologue, Nat.add_assoc]

/-- After a successful signing, `createCA` does what its two `writePEM` calls do: it exits
where one of them exits, and returns nil with both files written otherwise. -/
theorem createCA_persist (env : Env) (outPath : String) (san0 : String) (rest : List String)
    (nc : Bool) (w : World) (key : PrivateKey) (cert : Bytes)
    (h : statOk env w.fs (env.Join outPath CA_KEY_FILE) = false)
    (hg : env.GenerateKey w.rand KEY_SIZE = .ok key)
    (hs : env.CreateCertificate (w.rand + 1)
      (caTemplate env san0 (san0 :: rest) nc (env.now w.clock) (env.now (w.clock + 1)))
      (caTemplate env san0 (san0 :: rest) nc (env.now w.clock) (env.now (w.clock + 1)))
      key.pub key = .ok cert) :
    (∃ w', writePEM env (env.Join outPath CA_CERT_FILE) ⟨"CERTIFICATE", cert⟩ CERT_FILE_MODE
          ⟨w.fs, w.trace ++ caPrologue env outPath (san0 :: rest) nc w key san0 true,
            w.rand + 2, w.clock + 2⟩ = .exit 1 w' ∧
        createCA env outPath (san0 :: rest) nc w = .exit 1 w') ∨
    (writePEM env (env.Join outPath CA_CERT_FILE) ⟨"CERTIFICATE", cert⟩ CERT_FILE_MODE
          ⟨w.fs, w.trace ++ caPrologue env outPath (san0 :: rest) nc w key san0 true,
            w.rand + 2, w.clock + 2⟩ =
        .ret none ⟨w.fs.set (env.Join outPath CA_CERT_FILE)
            ⟨CERT_FILE_MODE, env.EncodeToMemory ⟨"CERTIFICATE", cert⟩⟩,
          (w.trace ++ caPrologue env outPath (san0 :: rest) nc w key san0 true) ++
            writePEMEvents env (env.Join outPath CA_CERT_FILE) ⟨"CERTIFICATE", cert⟩
              CERT_FILE_MODE,
          w.rand + 2, w.clock + 2⟩ ∧
      ((∃ w', writePEM env (env.Join outPath CA_KEY_FILE)
            ⟨"RSA PRIVATE KEY", env.MarshalPKCS1PrivateKey key⟩ KEY_FILE_MODE
            ⟨w.fs.set (env.Join outPath CA_CERT_FILE)
              ⟨CERT_FILE_MODE, env.EncodeToMemory ⟨"CERTIFICATE", cert⟩⟩,
            (w.trace ++ caPrologue env outPath (san0 :: rest) nc w key san0 true) ++
              writePEMEvents env (env.Join outPath CA_CERT_FILE) ⟨"CERTIFICATE", cert⟩
                CERT_FILE_MODE,
            w.rand + 2, w.clock + 2⟩ = .exit 1 w' ∧
          createCA env outPath (san0 :: rest) nc w = .exit 1 w') ∨
        createCA env outPath (san0 :: rest) nc w = .ret none
          ⟨(w.fs.set (env.Join outPath CA_CERT_FILE)
              ⟨CERT_FILE_MODE, env.EncodeToMemory ⟨"CERTIFICATE", cert⟩⟩).set
            (env.Join outPath CA_KEY_FILE)
              ⟨KEY_FILE_MODE,
                env.EncodeToMemory ⟨"RSA PRIVATE KEY", env.MarshalPKCS1PrivateKey key⟩⟩,
          w.trace ++ caPrologue env outPath (san0 :: rest) nc w key san0 true ++
            writePEMEvents env (env.Join outPath CA_CERT_FILE) ⟨"CERTIFICATE", cert⟩
              CERT_FILE_MODE ++
            writePEMEvents env (env.Join outPath CA_KEY_FILE)
              ⟨"RSA PRIVATE KEY", env.MarshalPKCS1PrivateKey key⟩ KEY_FILE_MODE ++
            [.leave (.createCA outPath (san0 :: rest) nc) none],
          w.rand + 2, w.clock + 2⟩)) := by
  have hc : createCA env outPath (san0 :: rest) nc w =
      match writePEM env (env.Join outPath CA_CERT_FILE) ⟨"CERTIFICATE", cert⟩ CERT_FILE_MODE
          ⟨w.fs, w.trace ++ caPrologue env outPath (san0 :: rest) nc w key san0 true,
            w.rand + 2, w.clock + 2⟩ with
      | .exit code w => .exit code w
      | .panic site w => .panic site w
      | .ret (some err) w =>
        Return (.createCA outPath (san0 :: rest) nc)
          (some ("failed to write CA certificate: " ++ err)) w
      | .ret none w =>
        match writePEM env (env.Join outPath CA_KEY_FILE)
            ⟨"RSA PRIVATE KEY", env.MarshalPKCS1PrivateKey key⟩ KEY_FILE_MODE w with
        | .exit code w => .exit code w
        | .panic site w => .panic site w
        | .ret (some err) w =>
          Return (.createCA outPath (san0 :: rest) nc)
            (some ("failed to write CA private key: " ++ err)) w
        | .ret none w => Return (.createCA outPath (san0 :: rest) nc) none w := by
    simp [createCA, Stat, GenerateKey, Now, CreateCertificate, emit, h, hg, hs, caPrologue,
      Nat.add_assoc]
  rw [hc]
  rcases (writePEM_run env (env.Join outPath CA_CERT_FILE) ⟨"CERTIFICATE", cert⟩ CERT_FILE_MODE
    ⟨w.fs, w.trace ++ caPrologue env outPath (san0 :: rest) nc w key san0 true,
      w.rand + 2, w.clock + 2⟩).1 with ⟨w1, h1, -⟩ | h1
  · left
    exact ⟨w1, h1, by rw [h1]⟩
  · right
    refine ⟨h1, ?_⟩
    rw [h1]
    simp only
    rcases (writePEM_run env (env.Join outPath CA_KEY_FILE)
      ⟨"RSA PRIVATE KEY", env.MarshalPKCS1PrivateKey key⟩ KEY_FILE_MODE
      ⟨w.fs.set (env.Join outPath CA_CERT_FILE)
          ⟨CERT_FILE_MODE, env.EncodeToMemory ⟨"CERTIFICATE", cert⟩⟩,
        (w.trace ++ caPrologue env outPath (san0 :: rest) nc w key san0 true) ++
          writePEMEvents env (env.Join outPath CA_CERT_FILE) ⟨"CERTIFICATE", cert⟩
            CERT_FILE_MODE,
        w.rand + 2, w.clock + 2⟩).1 with ⟨w2, h2, -⟩ | h2
    · left
      exact ⟨w2, h2, by rw [h2]⟩
    · right
      rw [h2]
      simp [Return, emit]

/-- The shape of every run of `createCA`: a head that is the skip, a failed key generation,
the panic on an empty SAN list, or the prologue up to signing; then persistence steps. -/
theorem createCA_trace (env : Env) (outPath : String) (sans : List String) (nc : Bool)
    (w : World) :
    ∃ hd tl, (createCA env outPath sans nc w).world.trace = w.trace ++ hd ++ tl ∧
      (∀ e ∈ tl, e.isPersistStep = true) ∧
      (hd = [.enter (.createCA outPath sans nc), .stat (env.Join outPath CA_KEY_FILE) true] ∨
       hd = [.enter (.createCA outPath sans nc), .stat (env.Join outPath CA_KEY_FILE) false,
          .generateKey KEY_SIZE false] ∨
       hd = [.enter (.createCA outPath sans nc), .stat (env.Join outPath CA_KEY_FILE) false,
          .generateKey KEY_SIZE true] ∨
       ∃ key san0 rest ok, sans = san0 :: rest ∧
          statOk env w.fs (env.Join outPath CA_KEY_FILE) = false ∧
          env.GenerateKey w.rand KEY_SIZE = .ok key ∧
          hd = caPrologue env outPath sans nc w key san0 ok) := by
  cases h : statOk env w.fs (env.Join outPath CA_KEY_FILE) with
  | true =>
    rw [createCA_skip env outPath sans nc w h]
    exact ⟨[.enter (.createCA outPath sans nc), .stat (env.Join outPath CA_KEY_FILE) true],
      [.log (env.Join outPath CA_KEY_FILE ++ " already exists, skipping creation"),
        .leave (.createCA outPath sans nc) none],
      by simp [Outcome.world], by simp [Event.isPersistStep], Or.inl rfl⟩
  | false =>
    cases hg : env.GenerateKey w.rand KEY_SIZE with
    | error err =>
      rw [createCA_genErr env outPath sans nc w err h hg]
      exact ⟨[.enter (.createCA outPath sans nc), .stat (env.Join outPath CA_KEY_FILE) false,
          .generateKey KEY_SIZE false],
        [.leave (.createCA outPath sans nc) (some ("failed to generate CA key: " ++ err))],
        by simp [Outcome.world], by simp [Event.isPersistStep], Or.inr (Or.inl rfl)⟩
    | ok key =>
      cases sans with
      | nil =>
        rw [createCA_panic env outPath nc w key h hg]
        exact ⟨[.enter (.createCA outPath [] nc), .stat (env.Join outPath CA_KEY_FILE) false,
            .generateKey KEY_SIZE true], [],
          by simp [Outcome.world], by simp, Or.inr (Or.inr (Or.inl rfl))⟩
      | cons san0 rest =>
        cases hs : env.CreateCertificate (w.rand + 1)
            (caTemplate env san0 (san0 :: rest) nc (env.now w.clock) (env.now (w.clock + 1)))
            (caTemplate env san0 (san0 :: rest) nc (env.now w.clock) (env.now (w.clock + 1)))
            key.pub key with
        | error err =>
          rw [createCA_signErr env outPath san0 rest nc w key err h hg hs]
          exact ⟨caPrologue env outPath (san0 :: rest) nc w key san0 false,
            [.leave (.createCA outPath (san0 :: rest) nc)
              (some ("failed to create CA certificate: " ++ err))],
            by simp [Outcome.world], by simp [Event.isPersistStep],
            Or.inr (Or.inr (Or.inr ⟨key, san0, rest, false, rfl, rfl, rfl, rfl⟩))⟩
        | ok cert =>
          refine ⟨caPrologue env outPath (san0 :: rest) nc w key san0 true, ?_⟩
          rcases createCA_persist env outPath san0 rest nc w key cert h hg hs with
            ⟨w1, h1, hc⟩ | ⟨h1, ⟨w2, h2, hc⟩ | hc⟩
          · obtain ⟨t, ht, hp⟩ := (writePEM_run env (env.Join outPath CA_CERT_FILE)
              ⟨"CERTIFICATE", cert⟩ CERT_FILE_MODE
              ⟨w.fs, w.trace ++ caPrologue env outPath (san0 :: rest) nc w key san0 true,
                w.rand + 2, w.clock + 2⟩).2.1
            rw [h1] at ht
            rw [hc]
            exact ⟨t, by simpa [Outcome.world] using ht, hp, Or.inr (Or.inr (Or.inr ⟨key, san0, rest, true, rfl, rfl, rfl, rfl⟩))⟩
          · obtain ⟨t, ht, hp⟩ := (writePEM_run env (env.Join outPath CA_KEY_FILE)
              ⟨"RSA PRIVATE KEY", env.MarshalPKCS1PrivateKey key⟩ KEY_FILE_MODE
              ⟨w.fs.set (env.Join outPath CA_CERT_FILE)
                  ⟨CERT_FILE_MODE, env.EncodeToMemory ⟨"CERTIFICATE", cert⟩⟩,
                (w.trace ++ caPrologue env outPath (san0 :: rest) nc w key san0 true) ++
                  writePEMEvents env (env.Join outPath CA_CERT_FILE) ⟨"CERTIFICATE", cert⟩
                    CERT_FILE_MODE,
                w.rand + 2, w.clock + 2⟩).2.1
            rw [h2] at ht
            rw [hc]
            refine ⟨writePEMEvents env (env.Join outPath CA_CERT_FILE) ⟨"CERTIFICATE", cert⟩
              CERT_FILE_MODE ++ t, by simpa [Outcome.world] using ht, ?_,
              Or.inr (Or.inr (Or.inr ⟨key, san0, rest, true, rfl, rfl, rfl, rfl⟩))⟩
            intro e he
            rcases List.mem_append.1 he with he | he
            · revert he
              simp only [writePEMEvents]
              intro he
              simp at he
              rcases he with rfl | rfl | rfl | rfl | rfl | rfl | rfl <;> rfl
            · exact hp e he
          · rw [hc]
            refine ⟨writePEMEvents env (env.Join outPath CA_CERT_FILE) ⟨"CERTIFICATE", cert⟩
                CERT_FILE_MODE ++
              writePEMEvents env (env.Join outPath CA_KEY_FILE)
                ⟨"RSA PRIVATE KEY", env.MarshalPKCS1PrivateKey key⟩ KEY_FILE_MODE ++
              [.leave (.createCA outPath (san0 :: rest) nc) none],
              by simp [Outcome.world], ?_, Or.inr (Or.inr (Or.inr ⟨key, san0, rest, true, rfl, rfl, rfl, rfl⟩))⟩
            intro e he
            simp [writePEMEvents] at he
            rcases he with rfl | rfl | rfl | rfl | rfl | rfl | rfl | rfl | rfl | rfl | rfl | rfl |
              rfl | rfl | rfl <;> rfl

/-! ## The runs of `createServerCert` -/

theorem createServerCert_skip (env : Env) (outPath : String) (sans : List String) (w : World)
    (h : statOk env w.fs (env.Join outPath SERVER_KEY_FILE) = true) :
    createServerCert env outPath sans w = .ret none ⟨w.fs,
      w.trace ++ [.enter (.createServerCert outPath sans),
        .stat (env.Join outPath SERVER_KEY_FILE) true,
        .log (env.Join outPath SERVER_KEY_FILE ++ " already exists, skipping creation"),
        .leave (.createServerCert outPath sans) none],
      w.rand, w.clock⟩ := by
  simp [createServerCert, Stat, Println, emit, Return, h]

theorem createServerCert_loadErr (env : Env) (outPath : String) (sans : List String) (w : World)
    (err : String)
    (h : statOk env w.fs (env.Join outPath SERVER_KEY_FILE) = false)
    (hl : loadX509KeyPair env w.fs (env.Join outPath CA_CERT_FILE)
      (env.Join outPath CA_KEY_FILE) = .error err) :
    createServerCert env outPath sans w =
      .ret (some ("failed to load CA keypair: " ++ err)) ⟨w.fs,
        w.trace ++ [.enter (.createServerCert outPath sans),
          .stat (env.Join outPath SERVER_KEY_FILE) false,
          .loadX509KeyPair (env.Join outPath CA_CERT_FILE) (env.Join outPath CA_KEY_FILE) false,
          .leave (.createServerCert outPath sans) (some ("failed to load CA keypair: " ++ err))],
        w.rand, w.clock⟩ := by
  simp [createServerCert, Stat, LoadX509KeyPair, emit, Return, h, hl]

theorem createServerCert_noCert (env : Env) (outPath : String) (sans : List String) (w : World)
    (pair : TLSCertificate)
    (h : statOk env w.fs (env.Join outPath SERVER_KEY_FILE) = false)
    (hl : loadX509KeyPair env w.fs (env.Join outPath CA_CERT_FILE)
      (env.Join outPath CA_KEY_FILE) = .ok pair)
    (hd : pair.Certificate = []) :
    createServerCert env outPath sans w =
      .panic "caKeyPair.Certificate[0]" ⟨w.fs,
        w.trace ++ [.enter (.createServerCert outPath sans),
          .stat (env.Join outPath SERVER_KEY_FILE) false,
          .loadX509KeyPair (env.Join outPath CA_CERT_FILE) (env.Join outPath CA_KEY_FILE) true],
        w.rand, w.clock⟩ := by
  simp [createServerCert, Stat, LoadX509KeyPair, emit, Return, h, hl, hd]

theorem createServerCert_parseErr (env : Env) (outPath : String) (sans : List String)
    (w : World) (pair : TLSCertificate) (der : Bytes) (ders : List Bytes) (err : String)
    (h : statOk env w.fs (env.Join outPath SERVER_KEY_FILE) = false)
    (hl : loadX509KeyPair env w.fs (env.Join outPath CA_CERT_FILE)
      (env.Join outPath CA_KEY_FILE) = .ok pair)
    (hd : pair.Certificate = der :: ders)
    (hp : env.ParseCertificate der = .error err) :
    createServerCert env outPath sans w =
      .ret (some ("failed to parse CA certificate: " ++ err)) ⟨w.fs,
        w.trace ++ [.enter (.createServerCert outPath sans),
          .stat (env.Join outPath SERVER_KEY_FILE) false,
          .loadX509KeyPair (env.Join outPath CA_CERT_FILE) (env.Join outPath CA_KEY_FILE) true,
          .parseCertificate der false,
          .leave (.createServerCert outPath sans)
            (some ("failed to parse CA certificate: " ++ err))],
        w.rand, w.clock⟩ := by
  simp [createServerCert, Stat, LoadX509KeyPair, ParseCertificate, emit, Return, h, hl, hd, hp]

theorem createServerCert_genErr (env : Env) (outPath : String) (sans : List String)
    (w : World) (pair : TLSCertificate) (der : Bytes) (ders : List Bytes) (ca : Certificate)
    (err : String)
    (h : statOk env w.fs (env.Join outPath SERVER_KEY_FILE) = false)
    (hl : loadX509KeyPair env w.fs (env.Join outPath CA_CERT_FILE)
      (env.Join outPath CA_KEY_FILE) = .ok pair)
    (hd : pair.Certificate = der :: ders)
    (hp : env.ParseCertificate der = .ok ca)
    (hg : env.GenerateKey w.rand KEY_SIZE = .error err) :
    createServerCert env outPath sans w =
      .ret (some ("failed to generate server key: " ++ err)) ⟨w.fs,
        w.trace ++ [.enter (.createServerCert outPath sans),
          .stat (env.Join outPath SERVER_KEY_FILE) false,
          .loadX509KeyPair (env.Join outPath CA_CERT_FILE) (env.Join outPath CA_KEY_FILE) true,
          .parseCertificate der true,
          .generateKey KEY_SIZE false,
          .leave (.createServerCert outPath sans)
            (some ("failed to generate server key: " ++ err))],
        w.rand + 1, w.clock⟩ := by
  simp [createServerCert, Stat, LoadX509KeyPair, ParseCertificate, GenerateKey, emit, Return,
    h, hl, hd, hp, hg]

theorem createServerCert_panic (env : Env) (outPath : String)
    (w : World) (pair : TLSCertificate) (der : Bytes) (ders : List Bytes) (ca : Certificate)
    (key : PrivateKey)
    (h : statOk env w.fs (env.Join outPath SERVER_KEY_FILE) = false)
    (hl : loadX509KeyPair env w.fs (env.Join outPath CA_CERT_FILE)
      (env.Join outPath CA_KEY_FILE) = .ok pair)
    (hd : pair.Certificate = der :: ders)
    (hp : env.ParseCertificate der = .ok ca)
    (hg : env.GenerateKey w.rand KEY_SIZE = .ok key) :
    createServerCert env outPath [] w =
      .panic "sans[0]" ⟨w.fs,
        w.trace ++ [.enter (.createServerCert outPath []),
          .stat (env.Join outPath SERVER_KEY_FILE) false,
          .loadX509KeyPair (env.Join outPath CA_CERT_FILE) (env.Join outPath CA_KEY_FILE) true,
          .parseCertificate der true,
          .generateKey KEY_SIZE true],
        w.rand + 1, w.clock⟩ := by
  simp [createServerCert, Stat, LoadX509KeyPair, ParseCertificate, GenerateKey, emit, Return,
    h, hl, hd, hp, hg]

theorem createServerCert_signErr (env : Env) (outPath : String) (san0 : String)
    (rest : List String)
    (w : World) (pair : TLSCertificate) (der : Bytes) (ders : List Bytes) (ca : Certificate)
    (key : PrivateKey) (err : String)
    (h : statOk env w.fs (env.Join outPath SERVER_KEY_FILE) = false)
    (hl : loadX509KeyPair env w.fs (env.Join outPath CA_CERT_FILE)
      (env.Join outPath CA_KEY_FILE) = .ok pair)
    (hd : pair.Certificate = der :: ders)
    (hp : env.ParseCertificate der = .ok ca)
    (hg : env.GenerateKey w.rand KEY_SIZE = .ok key)
    (hs : env.CreateCertificate (w.rand + 1)
      (serverTemplate env ca san0 (san0 :: rest) (env.now w.clock) (env.now (w.clock + 1)))
      ca key.pub pair.PrivateKey = .error err) :
    createServerCert env outPath (san0 :: rest) w =
      .ret (some ("failed to create server certificate: " ++ err)) ⟨w.fs,
        w.trace ++ serverPrologue env outPath (san0 :: rest) w pair der ca key san0 false ++
          [.leave (.createServerCert outPath (san0 :: rest))
            (some ("failed to create server certificate: " ++ err))],
        w.rand + 2, w.clock + 2⟩ := by
  simp [createServerCert, Stat, LoadX509KeyPair, ParseCertificate, GenerateKey, Now,
    CreateCertificate, emit, Return, h, hl, hd, hp, hg, hs, serverPrologue, Nat.add_assoc]

/-- After a successful signing, `createServerCert` does what its two `writePEM` calls do. -/
theorem createServerCert_persist (env : Env) (outPath : String) (san0 : String)
    (rest : List String)
    (w : World) (pair : TLSCertificate) (der : Bytes) (ders : List Bytes) (ca : Certificate)
    (key : PrivateKey) (cert : Bytes)
    (h : statOk env w.fs (env.Join outPath SERVER_KEY_FILE) = false)
    (hl : loadX509KeyPair env w.fs (env.Join outPath CA_CERT_FILE)
      (env.Join outPath CA_KEY_FILE) = .ok pair)
    (hd : pair.Certificate = der :: ders)
    (hp : env.ParseCertificate der = .ok ca)
    (hg : env.GenerateKey w.rand KEY_SIZE = .ok key)
    (hs : env.CreateCertificate (w.rand + 1)
      (serverTemplate env ca san0 (san0 :: rest) (env.now w.clock) (env.now (w.clock + 1)))
      ca key.pub pair.PrivateKey = .ok cert) :
    (∃ w', writePEM env (env.Join outPath SERVER_CERT_FILE) ⟨"CERTIFICATE", cert⟩ CERT_FILE_MODE
          ⟨w.fs, w.trace ++ serverPrologue env outPath (san0 :: rest) w pair der ca key san0 true,
            w.rand + 2, w.clock + 2⟩ = .exit 1 w' ∧
        createServerCert env outPath (san0 :: rest) w = .exit 1 w') ∨
    (writePEM env (env.Join outPath SERVER_CERT_FILE) ⟨"CERTIFICATE", cert⟩ CERT_FILE_MODE
          ⟨w.fs, w.trace ++ serverPrologue env outPath (san0 :: rest) w pair der ca key san0 true,
            w.rand + 2, w.clock + 2⟩ =
        .ret none ⟨w.fs.set (env.Join outPath SERVER_CERT_FILE)
            ⟨CERT_FILE_MODE, env.EncodeToMemory ⟨"CERTIFICATE", cert⟩⟩,
          (w.trace ++ serverPrologue env outPath (san0 :: rest) w pair der ca key san0 true) ++
            writePEMEvents env (env.Join outPath SERVER_CERT_FILE) ⟨"CERTIFICATE", cert⟩
              CERT_FILE_MODE,
          w.rand + 2, w.clock + 2⟩ ∧
      ((∃ w', writePEM env (env.Join outPath SERVER_KEY_FILE)
            ⟨"RSA PRIVATE KEY", env.MarshalPKCS1PrivateKey key⟩ KEY_FILE_MODE
            ⟨w.fs.set (env.Join outPath SERVER_CERT_FILE)
              ⟨CERT_FILE_MODE, env.EncodeToMemory ⟨"CERTIFICATE", cert⟩⟩,
            (w.trace ++ serverPrologue env outPath (san0 :: rest) w pair der ca key san0 true) ++
              writePEMEvents env (env.Join outPath SERVER_CERT_FILE) ⟨"CERTIFICATE", cert⟩
                CERT_FILE_MODE,
            w.rand + 2, w.clock + 2⟩ = .exit 1 w' ∧
          createServerCert env outPath (san0 :: rest) w = .exit 1 w') ∨
        createServerCert env outPath (san0 :: rest) w = .ret none
          ⟨(w.fs.set (env.Join outPath SERVER_CERT_FILE)
              ⟨CERT_FILE_MODE, env.EncodeToMemory ⟨"CERTIFICATE", cert⟩⟩).set
            (env.Join outPath SERVER_KEY_FILE)
              ⟨KEY_FILE_MODE,
                env.EncodeToMemory ⟨"RSA PRIVATE KEY", env.MarshalPKCS1PrivateKey key⟩⟩,
          w.trace ++ serverPrologue env outPath (san0 :: rest) w pair der ca key san0 true ++
            writePEMEvents env (env.Join outPath SERVER_CERT_FILE) ⟨"CERTIFICATE", cert⟩
              CERT_FILE_MODE ++
            writePEMEvents env (env.Join outPath SERVER_KEY_FILE)
              ⟨"RSA PRIVATE KEY", env.MarshalPKCS1PrivateKey key⟩ KEY_FILE_MODE ++
            [.leave (.createServerCert outPath (san0 :: rest)) none],
          w.rand + 2, w.clock + 2⟩)) := by
  have hc : createServerCert env outPath (san0 :: rest) w =
      match writePEM env (env.Join outPath SERVER_CERT_FILE) ⟨"CERTIFICATE", cert⟩
          CERT_FILE_MODE
          ⟨w.fs, w.trace ++ serverPrologue env outPath (san0 :: rest) w pair der ca key san0 true,
            w.rand + 2, w.clock + 2⟩ with
      | .exit code w => .exit code w
      | .panic site w => .panic site w
      | .ret (some err) w =>
        Return (.createServerCert outPath (san0 :: rest))
          (some ("failed to write CA certificate: " ++ err)) w
      | .ret none w =>
        match writePEM env (env.Join outPath SERVER_KEY_FILE)
            ⟨"RSA PRIVATE KEY", env.MarshalPKCS1PrivateKey key⟩ KEY_FILE_MODE w with
        | .exit code w => .exit code w
        | .panic site w => .panic site w
        | .ret (some err) w =>
          Return (.createServerCert outPath (san0 :: rest))
            (some ("failed to write CA private key: " ++ err)) w
        | .ret none w => Return (.createServerCert outPath (san0 :: rest)) none w := by
    simp [createServerCert, Stat, LoadX509KeyPair, ParseCertificate, GenerateKey, Now,
      CreateCertificate, emit, h, hl, hd, hp, hg, hs, serverPrologue, Nat.add_assoc]
  rw [hc]
  rcases (writePEM_run env (env.Join outPath SERVER_CERT_FILE) ⟨"CERTIFICATE", cert⟩
    CERT_FILE_MODE
    ⟨w.fs, w.trace ++ serverPrologue env outPath (san0 :: rest) w pair der ca key san0 true,
      w.rand + 2, w.clock + 2⟩).1 with ⟨w1, h1, -⟩ | h1
  · left
    exact ⟨w1, h1, by rw [h1]⟩
  · right
    refine ⟨h1, ?_⟩
    rw [h1]
    simp only
    rcases (writePEM_run env (env.Join outPath SERVER_KEY_FILE)
      ⟨"RSA PRIVATE KEY", env.MarshalPKCS1PrivateKey key⟩ KEY_FILE_MODE
      ⟨w.fs.set (env.Join outPath SERVER_CERT_FILE)
          ⟨CERT_FILE_MODE, env.EncodeToMemory ⟨"CERTIFICATE", cert⟩⟩,
        (w.trace ++ serverPrologue env outPath (san0 :: rest) w pair der ca key san0 true) ++
          writePEMEvents env (env.Join outPath SERVER_CERT_FILE) ⟨"CERTIFICATE", cert⟩
            CERT_FILE_MODE,
        w.rand + 2, w.clock + 2⟩).1 with ⟨w2, h2, -⟩ | h2
    · left
      exact ⟨w2, h2, by rw [h2]⟩
    · right
      rw [h2]
      simp [Return, emit]

theorem writePEMEvents_persist (env : Env) (path : String) (block : Block) (mode : Nat) :
    ∀ e ∈ writePEMEvents env path block mode, e.isPersistStep = true := by
  intro e he
  simp [writePEMEvents] at he
  rcases he with rfl | rfl | rfl | rfl | rfl | rfl | rfl <;> rfl

/-- The shape of every run of `createServerCert`: its call, then either steps that neither
sign nor call an issuer, or the rest of the prologue up to signing; then persistence steps. -/
theorem createServerCert_trace (env : Env) (outPath : String) (sans : List String)
    (w : World) :
    ∃ hd tl, (createServerCert env outPath sans w).world.trace = w.trace ++ hd ++ tl ∧
      (∀ e ∈ tl, e.isPersistStep = true) ∧
      ((∃ hd', hd = .enter (.createServerCert outPath sans) :: hd' ∧
          ∀ e ∈ hd', e.isSign = false ∧ e.isIssuerCall = false) ∨
       ∃ pair der ders ca key san0 rest ok, sans = san0 :: rest ∧
          statOk env w.fs (env.Join outPath SERVER_KEY_FILE) = false ∧
          loadX509KeyPair env w.fs (env.Join outPath CA_CERT_FILE)
            (env.Join outPath CA_KEY_FILE) = .ok pair ∧
          pair.Certificate = der :: ders ∧
          env.ParseCertificate der = .ok ca ∧
          env.GenerateKey w.rand KEY_SIZE = .ok key ∧
          hd = serverPrologue env outPath sans w pair der ca key san0 ok) := by
  cases h : statOk env w.fs (env.Join outPath SERVER_KEY_FILE) with
  | true =>
    rw [createServerCert_skip env outPath sans w h]
    exact ⟨[.enter (.createServerCert outPath sans),
        .stat (env.Join outPath SERVER_KEY_FILE) true],
      [.log (env.Join outPath SERVER_KEY_FILE ++ " already exists, skipping creation"),
        .leave (.createServerCert outPath sans) none],
      by simp [Outcome.world], by simp [Event.isPersistStep],
      Or.inl ⟨_, rfl, by simp [Event.isSign, Event.isIssuerCall]⟩⟩
  | false =>
    cases hl : loadX509KeyPair env w.fs (env.Join outPath CA_CERT_FILE)
        (env.Join outPath CA_KEY_FILE) with
    | error err =>
      rw [createServerCert_loadErr env outPath sans w err h hl]
      exact ⟨[.enter (.createServerCert outPath sans),
          .stat (env.Join outPath SERVER_KEY_FILE) false,
          .loadX509KeyPair (env.Join outPath CA_CERT_FILE) (env.Join outPath CA_KEY_FILE) false],
        [.leave (.createServerCert outPath sans) (some ("failed to load CA keypair: " ++ err))],
        by simp [Outcome.world], by simp [Event.isPersistStep],
        Or.inl ⟨_, rfl, by simp [Event.isSign, Event.isIssuerCall]⟩⟩
    | ok pair =>
      cases hd : pair.Certificate with
      | nil =>
        rw [createServerCert_noCert env outPath sans w pair h hl hd]
        exact ⟨[.enter (.createServerCert outPath sans),
            .stat (env.Join outPath SERVER_KEY_FILE) false,
            .loadX509KeyPair (env.Join outPath CA_CERT_FILE) (env.Join outPath CA_KEY_FILE)
              true], [],
          by simp [Outcome.world], by simp,
          Or.inl ⟨_, rfl, by simp [Event.isSign, Event.isIssuerCall]⟩⟩
      | cons der ders =>
        cases hp : env.ParseCertificate der with
        | error err =>
          rw [createServerCert_parseErr env outPath sans w pair der ders err h hl hd hp]
          exact ⟨[.enter (.createServerCert outPath sans),
              .stat (env.Join outPath SERVER_KEY_FILE) false,
              .loadX509KeyPair (env.Join outPath CA_CERT_FILE) (env.Join outPath CA_KEY_FILE)
                true, .parseCertificate der false],
            [.leave (.createServerCert outPath sans)
              (some ("failed to parse CA certificate: " ++ err))],
            by simp [Outcome.world], by simp [Event.isPersistStep],
            Or.inl ⟨_, rfl, by simp [Event.isSign, Event.isIssuerCall]⟩⟩
        | ok ca =>
          cases hg : env.GenerateKey w.rand KEY_SIZE with
          | error err =>
            rw [createServerCert_genErr env outPath sans w pair der ders ca err h hl hd hp hg]
            exact ⟨[.enter (.createServerCert outPath sans),
                .stat (env.Join outPath SERVER_KEY_FILE) false,
                .loadX509KeyPair (env.Join outPath CA_CERT_FILE) (env.Join outPath CA_KEY_FILE)
                  true, .parseCertificate der true, .generateKey KEY_SIZE false],
              [.leave (.createServerCert outPath sans)
                (some ("failed to generate server key: " ++ err))],
              by simp [Outcome.world], by simp [Event.isPersistStep],
              Or.inl ⟨_, rfl, by simp [Event.isSign, Event.isIssuerCall]⟩⟩
          | ok key =>
            cases sans with
            | nil =>
              rw [createServerCert_panic env outPath w pair der ders ca key h hl hd hp hg]
              exact ⟨[.enter (.createServerCert outPath []),
                  .stat (env.Join outPath SERVER_KEY_FILE) false,
                  .loadX509KeyPair (env.Join outPath CA_CERT_FILE)
                    (env.Join outPath CA_KEY_FILE) true,
                  .parseCertificate der true, .generateKey KEY_SIZE true], [],
                by simp [Outcome.world], by simp,
                Or.inl ⟨_, rfl, by simp [Event.isSign, Event.isIssuerCall]⟩⟩
            | cons san0 rest =>
              cases hs : env.CreateCertificate (w.rand + 1)
                  (serverTemplate env ca san0 (san0 :: rest) (env.now w.clock)
                    (env.now (w.clock + 1)))
                  ca key.pub pair.PrivateKey with
              | error err =>
                rw [createServerCert_signErr env outPath san0 rest w pair der ders ca key err
                  h hl hd hp hg hs]
                exact ⟨serverPrologue env outPath (san0 :: rest) w pair der ca key san0 false,
                  [.leave (.createServerCert outPath (san0 :: rest))
                    (some ("failed to create server certificate: " ++ err))],
                  by simp [Outcome.world], by simp [Event.isPersistStep],
                  Or.inr ⟨pair, der, ders, ca, key, san0, rest, false, rfl, rfl, rfl, hd, hp,
                    rfl, rfl⟩⟩
              | ok cert =>
                refine ⟨serverPrologue env outPath (san0 :: rest) w pair der ca key san0 true,
                  ?_⟩
                rcases createServerCert_persist env outPath san0 rest w pair der ders ca key
                  cert h hl hd hp hg hs with ⟨w1, h1, hc⟩ | ⟨h1, ⟨w2, h2, hc⟩ | hc⟩
                · obtain ⟨t, ht, hpt⟩ := (writePEM_run env (env.Join outPath SERVER_CERT_FILE)
                    ⟨"CERTIFICATE", cert⟩ CERT_FILE_MODE
                    ⟨w.fs, w.trace ++
                      serverPrologue env outPath (san0 :: rest) w pair der ca key san0 true,
                      w.rand + 2, w.clock + 2⟩).2.1
                  rw [h1] at ht
                  rw [hc]
                  exact ⟨t, by simpa [Outcome.world] using ht, hpt,
                    Or.inr ⟨pair, der, ders, ca, key, san0, rest, true, rfl, rfl, rfl, hd, hp,
                      rfl, rfl⟩⟩
                · obtain ⟨t, ht, hpt⟩ := (writePEM_run env (env.Join outPath SERVER_KEY_FILE)
                    ⟨"RSA PRIVATE KEY", env.MarshalPKCS1PrivateKey key⟩ KEY_FILE_MODE
                    ⟨w.fs.set (env.Join outPath SERVER_CERT_FILE)
                        ⟨CERT_FILE_MODE, env.EncodeToMemory ⟨"CERTIFICATE", cert⟩⟩,
                      (w.trace ++
                        serverPrologue env outPath (san0 :: rest) w pair der ca key san0 true) ++
                        writePEMEvents env (env.Join outPath SERVER_CERT_FILE)
                          ⟨"CERTIFICATE", cert⟩ CERT_FILE_MODE,
                      w.rand + 2, w.clock + 2⟩).2.1
                  rw [h2] at ht
                  rw [hc]
                  refine ⟨writePEMEvents env (env.Join outPath SERVER_CERT_FILE)
                    ⟨"CERTIFICATE", cert⟩ CERT_FILE_MODE ++ t,
                    by simpa [Outcome.world] using ht, ?_,
                    Or.inr ⟨pair, der, ders, ca, key, san0, rest, true, rfl, rfl, rfl, hd, hp,
                      rfl, rfl⟩⟩
                  intro e he
                  rcases List.mem_append.1 he with he | he
                  · exact writePEMEvents_persist _ _ _ _ e he
                  · exact hpt e he
                · rw [hc]
                  refine ⟨writePEMEvents env (env.Join outPath SERVER_CERT_FILE)
                      ⟨"CERTIFICATE", cert⟩ CERT_FILE_MODE ++
                    writePEMEvents env (env.Join outPath SERVER_KEY_FILE)
                      ⟨"RSA PRIVATE KEY", env.MarshalPKCS1PrivateKey key⟩ KEY_FILE_MODE ++
                    [.leave (.createServerCert outPath (san0 :: rest)) none],
                    by simp [Outcome.world], ?_,
                    Or.inr ⟨pair, der, ders, ca, key, san0, rest, true, rfl, rfl, rfl, hd, hp,
                      rfl, rfl⟩⟩
                  intro e he
                  rcases List.mem_append.1 he with he | he
                  · rcases List.mem_append.1 he with he | he
                    · exact writePEMEvents_persist _ _ _ _ e he
                    · exact writePEMEvents_persist _ _ _ _ e he
                  · simp at he
                    subst he
                    rfl

/-! ## What every run of an issuer adds to the trace -/

theorem createCA_extends (env : Env) (outPath : String) (sans : List String) (nc : Bool)
    (w : World) :
    (createCA env outPath sans nc w).world.trace =
      w.trace ++ newEvents w (createCA env outPath sans nc w) := by
  obtain ⟨hd, tl, ht, -, -⟩ := createCA_trace env outPath sans nc w
  simp [newEvents, ht]

theorem createServerCert_extends (env : Env) (outPath : String) (sans : List String)
    (w : World) :
    (createServerCert env outPath sans w).world.trace =
      w.trace ++ newEvents w (createServerCert env outPath sans w) := by
  obtain ⟨hd, tl, ht, -, -⟩ := createServerCert_trace env outPath sans w
  simp [newEvents, ht]

/-- The only issuer call in a run of `createCA` is its own, and every signing in it is the
self-signing of the CA template with the key just generated. -/
theorem createCA_events (env : Env) (outPath : String) (sans : List String) (nc : Bool)
    (w : World) (e : Event) (he : e ∈ newEvents w (createCA env outPath sans nc w)) :
    (e.isIssuerCall = true → e = .enter (.createCA outPath sans nc)) ∧
    (e.isSign = true → ∃ key san0 rest ok, sans = san0 :: rest ∧
      statOk env w.fs (env.Join outPath CA_KEY_FILE) = false ∧
      env.GenerateKey w.rand KEY_SIZE = .ok key ∧
      e = .createCertificate
        (caTemplate env san0 sans nc (env.now w.clock) (env.now (w.clock + 1)))
        (caTemplate env san0 sans nc (env.now w.clock) (env.now (w.clock + 1)))
        key.pub key ok) := by
  obtain ⟨hd, tl, ht, hp, hh⟩ := createCA_trace env outPath sans nc w
  have hn : newEvents w (createCA env outPath sans nc w) = hd ++ tl := by
    simp [newEvents, ht]
  rw [hn] at he
  rcases List.mem_append.1 he with he | he
  · rcases hh with rfl | rfl | rfl | ⟨key, san0, rest, ok, hs, hk, hg, rfl⟩
    · simp at he
      rcases he with rfl | rfl <;> simp [Event.isIssuerCall, Event.isSign]
    · simp at he
      rcases he with rfl | rfl | rfl <;> simp [Event.isIssuerCall, Event.isSign]
    · simp at he
      rcases he with rfl | rfl | rfl <;> simp [Event.isIssuerCall, Event.isSign]
    · simp [caPrologue] at he
      rcases he with rfl | rfl | rfl | rfl | rfl | rfl <;>
        refine ⟨by simp [Event.isIssuerCall], ?_⟩ <;>
        first
        | (intro h; simp [Event.isSign] at h; done)
        | exact fun _ => ⟨key, san0, rest, ok, hs, hk, hg, rfl⟩
  · have := persistStep_inert e (hp e he)
    simp [this.1, this.2.2.1]

/-- The only issuer call in a run of `createServerCert` is its own, and every signing in it
signs the server template with the loaded CA as parent and the CA key as signer. -/
theorem createServerCert_events (env : Env) (outPath : String) (sans : List String)
    (w : World) (e : Event) (he : e ∈ newEvents w (createServerCert env outPath sans w)) :
    (e.isIssuerCall = true → e = .enter (.createServerCert outPath sans)) ∧
    (e.isSign = true → ∃ pair der ders ca key san0 rest ok, sans = san0 :: rest ∧
      statOk env w.fs (env.Join outPath SERVER_KEY_FILE) = false ∧
      loadX509KeyPair env w.fs (env.Join outPath CA_CERT_FILE)
        (env.Join outPath CA_KEY_FILE) = .ok pair ∧
      pair.Certificate = der :: ders ∧
      env.ParseCertificate der = .ok ca ∧
      env.GenerateKey w.rand KEY_SIZE = .ok key ∧
      e = .createCertificate
        (serverTemplate env ca san0 sans (env.now w.clock) (env.now (w.clock + 1)))
        ca key.pub pair.PrivateKey ok) := by
  obtain ⟨hd, tl, ht, hp, hh⟩ := createServerCert_trace env outPath sans w
  have hn : newEvents w (createServerCert env outPath sans w) = hd ++ tl := by
    simp [newEvents, ht]
  rw [hn] at he
  rcases List.mem_append.1 he with he | he
  · rcases hh with ⟨hd', rfl, hq⟩ | ⟨pair, der, ders, ca, key, san0, rest, ok, hs, hk, hl, hc,
      hpc, hg, rfl⟩
    · rcases List.mem_cons.1 he with rfl | he
      · simp [Event.isIssuerCall, Event.isSign]
      · simp [(hq e he).1, (hq e he).2]
    · simp [serverPrologue] at he
      rcases he with rfl | rfl | rfl | rfl | rfl | rfl | rfl | rfl <;>
        refine ⟨by simp [Event.isIssuerCall], ?_⟩ <;>
        first
        | (intro h; simp [Event.isSign] at h; done)
        | exact fun _ => ⟨pair, der, ders, ca, key, san0, rest, ok, hs, hk, hl, hc, hpc, hg, rfl⟩
  · have := persistStep_inert e (hp e he)
    simp [this.1, this.2.2.1]

/-! ## The runs in which an issuer returns nil -/

/-- A run of `createCA` that returns nil either skipped, or generated, signed and wrote both
files. -/
theorem createCA_ret_none (env : Env) (outPath : String) (sans : List String) (nc : Bool)
    (w w1 : World) (hr : createCA env outPath sans nc w = .ret none w1) :
    (statOk env w.fs (env.Join outPath CA_KEY_FILE) = true ∧
      w1 = ⟨w.fs,
        w.trace ++ [.enter (.createCA outPath sans nc),
          .stat (env.Join outPath CA_KEY_FILE) true,
          .log (env.Join outPath CA_KEY_FILE ++ " already exists, skipping creation"),
          .leave (.createCA outPath sans nc) none],
        w.rand, w.clock⟩) ∨
    (∃ key san0 rest cert, sans = san0 :: rest ∧
      statOk env w.fs (env.Join outPath CA_KEY_FILE) = false ∧
      env.GenerateKey w.rand KEY_SIZE = .ok key ∧
      env.CreateCertificate (w.rand + 1)
        (caTemplate env san0 sans nc (env.now w.clock) (env.now (w.clock + 1)))
        (caTemplate env san0 sans nc (env.now w.clock) (env.now (w.clock + 1)))
        key.pub key = .ok cert ∧
      w1 = ⟨(w.fs.set (env.Join outPath CA_CERT_FILE)
              ⟨CERT_FILE_MODE, env.EncodeToMemory ⟨"CERTIFICATE", cert⟩⟩).set
            (env.Join outPath CA_KEY_FILE)
              ⟨KEY_FILE_MODE,
                env.EncodeToMemory ⟨"RSA PRIVATE KEY", env.MarshalPKCS1PrivateKey key⟩⟩,
          w.trace ++ caPrologue env outPath sans nc w key san0 true ++
            writePEMEvents env (env.Join outPath CA_CERT_FILE) ⟨"CERTIFICATE", cert⟩
              CERT_FILE_MODE ++
            writePEMEvents env (env.Join outPath CA_KEY_FILE)
              ⟨"RSA PRIVATE KEY", env.MarshalPKCS1PrivateKey key⟩ KEY_FILE_MODE ++
            [.leave (.createCA outPath sans nc) none],
          w.rand + 2, w.clock + 2⟩) := by
  cases h : statOk env w.fs (env.Join outPath CA_KEY_FILE) with
  | true =>
    rw [createCA_skip env outPath sans nc w h] at hr
    left
    simp only [Outcome.ret.injEq, true_and] at hr
    exact ⟨rfl, hr.symm⟩
  | false =>
    right
    cases hg : env.GenerateKey w.rand KEY_SIZE with
    | error err =>
      rw [createCA_genErr env outPath sans nc w err h hg] at hr
      simp at hr
    | ok key =>
      cases sans with
      | nil =>
        rw [createCA_panic env outPath nc w key h hg] at hr
        simp at hr
      | cons san0 rest =>
        cases hs : env.CreateCertificate (w.rand + 1)
            (caTemplate env san0 (san0 :: rest) nc (env.now w.clock) (env.now (w.clock + 1)))
            (caTemplate env san0 (san0 :: rest) nc (env.now w.clock) (env.now (w.clock + 1)))
            key.pub key with
        | error err =>
          rw [createCA_signErr env outPath san0 rest nc w key err h hg hs] at hr
          simp at hr
        | ok cert =>
          rcases createCA_persist env outPath san0 rest nc w key cert h hg hs with
            ⟨w1', -, hc⟩ | ⟨-, ⟨w2, -, hc⟩ | hc⟩
          · rw [hc] at hr
            simp at hr
          · rw [hc] at hr
            simp at hr
          · rw [hc] at hr
            simp only [Outcome.ret.injEq, true_and] at hr
            exact ⟨key, san0, rest, cert, rfl, rfl, rfl, hs, hr.symm⟩

/-- A run of `createServerCert` that returns nil either skipped, or loaded the CA,
generated, signed and wrote both files. -/
theorem createServerCert_ret_none (env : Env) (outPath : String) (sans : List String)
    (w w1 : World) (hr : createServerCert env outPath sans w = .ret none w1) :
    (statOk env w.fs (env.Join outPath SERVER_KEY_FILE) = true ∧
      w1 = ⟨w.fs,
        w.trace ++ [.enter (.createServerCert outPath sans),
          .stat (env.Join outPath SERVER_KEY_FILE) true,
          .log (env.Join outPath SERVER_KEY_FILE ++ " already exists, skipping creation"),
          .leave (.createServerCert outPath sans) none],
        w.rand, w.clock⟩) ∨
    (∃ pair der ders ca key san0 rest cert, sans = san0 :: rest ∧
      statOk env w.fs (env.Join outPath SERVER_KEY_FILE) = false ∧
      loadX509KeyPair env w.fs (env.Join outPath CA_CERT_FILE)
        (env.Join outPath CA_KEY_FILE) = .ok pair ∧
      pair.Certificate = der :: ders ∧
      env.ParseCertificate der = .ok ca ∧
      env.GenerateKey w.rand KEY_SIZE = .ok key ∧
      env.CreateCertificate (w.rand + 1)
        (serverTemplate env ca san0 sans (env.now w.clock) (env.now (w.clock + 1)))
        ca key.pub pair.PrivateKey = .ok cert ∧
      w1 = ⟨(w.fs.set (env.Join outPath SERVER_CERT_FILE)
              ⟨CERT_FILE_MODE, env.EncodeToMemory ⟨"CERTIFICATE", cert⟩⟩).set
            (env.Join outPath SERVER_KEY_FILE)
              ⟨KEY_FILE_MODE,
                env.EncodeToMemory ⟨"RSA PRIVATE KEY", env.MarshalPKCS1PrivateKey key⟩⟩,
          w.trace ++ serverPrologue env outPath sans w pair der ca key san0 true ++
            writePEMEvents env (env.Join outPath SERVER_CERT_FILE) ⟨"CERTIFICATE", cert⟩
              CERT_FILE_MODE ++
            writePEMEvents env (env.Join outPath SERVER_KEY_FILE)
              ⟨"RSA PRIVATE KEY", env.MarshalPKCS1PrivateKey key⟩ KEY_FILE_MODE ++
            [.leave (.createServerCert outPath sans) none],
          w.rand + 2, w.clock + 2⟩) := by
  cases h : statOk env w.fs (env.Join outPath SERVER_KEY_FILE) with
  | true =>
    rw [createServerCert_skip env outPath sans w h] at hr
    left
    simp only [Outcome.ret.injEq, true_and] at hr
    exact ⟨rfl, hr.symm⟩
  | false =>
    right
    cases hl : loadX509KeyPair env w.fs (env.Join outPath CA_CERT_FILE)
        (env.Join outPath CA_KEY_FILE) with
    | error err =>
      rw [createServerCert_loadErr env outPath sans w err h hl] at hr
      simp at hr
    | ok pair =>
      cases hd : pair.Certificate with
      | nil =>
        rw [createServerCert_noCert env outPath sans w pair h hl hd] at hr
        simp at hr
      | cons der ders =>
        cases hp : env.ParseCertificate der with
        | error err =>
          rw [createServerCert_parseErr env outPath sans w pair der ders err h hl hd hp] at hr
          simp at hr
        | ok ca =>
          cases hg : env.GenerateKey w.rand KEY_SIZE with
          | error err =>
            rw [createServerCert_genErr env outPath sans w pair der ders ca err h hl hd hp hg]
              at hr
            simp at hr
          | ok key =>
            cases sans with
            | nil =>
              rw [createServerCert_panic env outPath w pair der ders ca key h hl hd hp hg] at hr
              simp at hr
            | cons san0 rest =>
              cases hs : env.CreateCertificate (w.rand + 1)
                  (serverTemplate env ca san0 (san0 :: rest) (env.now w.clock)
                    (env.now (w.clock + 1)))
                  ca key.pub pair.PrivateKey with
              | error err =>
                rw [createServerCert_signErr env outPath san0 rest w pair der ders ca key err
                  h hl hd hp hg hs] at hr
                simp at hr
              | ok cert =>
                rcases createServerCert_persist env outPath san0 rest w pair der ders ca key
                  cert h hl hd hp hg hs with ⟨w1', -, hc⟩ | ⟨-, ⟨w2, -, hc⟩ | hc⟩
                · rw [hc] at hr
                  simp at hr
                · rw [hc] at hr
                  simp at hr
                · rw [hc] at hr
                  simp only [Outcome.ret.injEq, true_and] at hr
                  exact ⟨pair, der, ders, ca, key, san0, rest, cert, rfl, rfl, rfl, hd, hp, rfl,
                    hs, hr.symm⟩

/-- With a non-empty SAN list `createCA` does not panic. -/
theorem createCA_no_panic (env : Env) (outPath : String) (san0 : String) (rest : List String)
    (nc : Bool) (w w1 : World) (site : String) :
    createCA env outPath (san0 :: rest) nc w ≠ .panic site w1 := by
  intro hr
  cases h : statOk env w.fs (env.Join outPath CA_KEY_FILE) with
  | true =>
    rw [createCA_skip env outPath _ nc w h] at hr
    simp at hr
  | false =>
    cases hg : env.GenerateKey w.rand KEY_SIZE with
    | error err =>
      rw [createCA_genErr env outPath _ nc w err h hg] at hr
      simp at hr
    | ok key =>
      cases hs : env.CreateCertificate (w.rand + 1)
          (caTemplate env san0 (san0 :: rest) nc (env.now w.clock) (env.now (w.clock + 1)))
          (caTemplate env san0 (san0 :: rest) nc (env.now w.clock) (env.now (w.clock + 1)))
          key.pub key with
      | error err =>
        rw [createCA_signErr env outPath san0 rest nc w key err h hg hs] at hr
        simp at hr
      | ok cert =>
        rcases createCA_persist env outPath san0 rest nc w key cert h hg hs with
          ⟨w1', -, hc⟩ | ⟨-, ⟨w2, -, hc⟩ | hc⟩ <;>
        · rw [hc] at hr
          simp at hr

/-- With a non-empty SAN list `createServerCert` panics only on an empty certificate chain. -/
theorem createServerCert_panic_site (env : Env) (outPath : String) (san0 : String)
    (rest : List String) (w w1 : World) (site : String)
    (hr : createServerCert env outPath (san0 :: rest) w = .panic site w1) :
    site = "caKeyPair.Certificate[0]" := by
  cases h : statOk env w.fs (env.Join outPath SERVER_KEY_FILE) with
  | true =>
    rw [createServerCert_skip env outPath _ w h] at hr
    simp at hr
  | false =>
    cases hl : loadX509KeyPair env w.fs (env.Join outPath CA_CERT_FILE)
        (env.Join outPath CA_KEY_FILE) with
    | error err =>
      rw [createServerCert_loadErr env outPath _ w err h hl] at hr
      simp at hr
    | ok pair =>
      cases hd : pair.Certificate with
      | nil =>
        rw [createServerCert_noCert env outPath _ w pair h hl hd] at hr
        simp only [Outcome.panic.injEq] at hr
        exact hr.1.symm
      | cons der ders =>
        cases hp : env.ParseCertificate der with
        | error err =>
          rw [createServerCert_parseErr env outPath _ w pair der ders err h hl hd hp] at hr
          simp at hr
        | ok ca =>
          cases hg : env.GenerateKey w.rand KEY_SIZE with
          | error err =>
            rw [createServerCert_genErr env outPath _ w pair der ders ca err h hl hd hp hg]
              at hr
            simp at hr
          | ok key =>
            cases hs : env.CreateCertificate (w.rand + 1)
                (serverTemplate env ca san0 (san0 :: rest) (env.now w.clock)
                  (env.now (w.clock + 1)))
                ca key.pub pair.PrivateKey with
            | error err =>
              rw [createServerCert_signErr env outPath san0 rest w pair der ders ca key err
                h hl hd hp hg hs] at hr
              simp at hr
            | ok cert =>
              rcases createServerCert_persist env outPath san0 rest w pair der ders ca key
                cert h hl hd hp hg hs with ⟨w1', -, hc⟩ | ⟨-, ⟨w2, -, hc⟩ | hc⟩ <;>
              · rw [hc] at hr
                simp at hr

/-- An element that is not in `P` splits `P ++ Q` after `P`. -/
theorem split_after (P Q a b : List Event) (e : Event) (h : P ++ Q = a ++ e :: b)
    (he : e ∉ P) : ∃ a', a = P ++ a' := by
  rcases List.append_eq_append_iff.1 h with ⟨a', ha, hq⟩ | ⟨c', hp, hc⟩
  · exact ⟨a', ha⟩
  · cases c' with
    | nil => exact ⟨[], by simpa using hp.symm⟩
    | cons x xs =>
      simp at hc
      exact absurd (by rw [hp, hc.1]; simp) he

/-- The trace of a `writePEM` call: the three steps in order and the return, or a fatal
exit after the first step that failed. -/
theorem writePEM_shape (env : Env) (path : String) (block : Block) (mode : Nat) (w : World) :
    writePEM env path block mode w = .ret none
        ⟨w.fs.set path ⟨mode, env.EncodeToMemory block⟩,
         w.trace ++ writePEMEvents env path block mode, w.rand, w.clock⟩ ∨
    ∃ w' mid msg, writePEM env path block mode w = .exit 1 w' ∧
      w'.trace = w.trace ++ ([.enter (.writePEM path block mode),
        .log ("Writing " ++ path ++ " with mode " ++ env.fileModeString mode)] ++ mid ++
        [.log msg, .exit 1]) ∧
      ((∃ err, msg = "file creation failed: " ++ err ∧
          mid = [.create path false] ∧ w'.fs = w.fs) ∨
       (∃ err, msg = "failed to set file permissions: " ++ err ∧
          mid = [.create path true, .chmod path mode false] ∧
          w'.fs = w.fs.set path (createdFile env w.fs path)) ∨
       ∃ err data, msg = "failed to write PEM block: " ++ err ∧
          mid = [.create path true, .chmod path mode true, .write path data false] ∧
          w'.fs = w.fs.set path ⟨mode, data⟩) := by
  cases hc : createFails env w.fs path with
  | some err =>
    right
    rw [writePEM_createErr env path block mode w err hc]
    exact ⟨_, [.create path false], "file creation failed: " ++ err, rfl, by simp,
      Or.inl ⟨err, rfl, rfl, rfl⟩⟩
  | none =>
    cases hm : env.chmodErr (w.fs.set path (createdFile env w.fs path)) path mode with
    | some err =>
      right
      rw [writePEM_chmodErr env path block mode w err hc hm]
      exact ⟨_, [.create path true, .chmod path mode false],
        "failed to set file permissions: " ++ err, rfl, by simp,
        Or.inr (Or.inl ⟨err, rfl, rfl, rfl⟩)⟩
    | none =>
      cases hw : env.writeErr (w.fs.set path ⟨mode, []⟩) path (env.EncodeToMemory block) with
      | some err =>
        right
        rw [writePEM_writeErr env path block mode w err hc hm hw]
        exact ⟨_, [.create path true, .chmod path mode true, .write path
            ((env.EncodeToMemory block).take
              (env.shortWrite (w.fs.set path ⟨mode, []⟩) path (env.EncodeToMemory block))) false],
          "failed to write PEM block: " ++ err, rfl,
          by simp, Or.inr (Or.inr ⟨err, _, rfl, rfl, rfl⟩)⟩
      | none =>
        left
        exact writePEM_ok env path block mode w hc hm hw

/-- Where `os.Stat` succeeds something is at the path. -/
theorem has_of_statOk (env : Env) (fs : FS) (path : String) (h : statOk env fs path = true) :
    fs.has path = true := by
  simp only [statOk, Bool.and_eq_true] at h
  exact h.1

/-- Where nothing is at the path `os.Stat` fails. -/
theorem statOk_of_absent (env : Env) (fs : FS) (path : String) (h : fs.has path = false) :
    statOk env fs path = false := by
  simp [statOk, h]

/-- After a file is set at a path `os.Stat` succeeds there unless the call itself fails. -/
theorem statOk_set (env : Env) (fs : FS) (path : String) (f : File)
    (h : env.statErr (fs.set path f) path = none) : statOk env (fs.set path f) path = true := by
  simp [statOk, FS.has, FS.get_set_self, h]

/-- C1: when `os.Stat` succeeds on `ca.key` (a file or a directory is there and the call
does not fail), `createCA` returns nil and adds to the trace only its call, the stat, one
log line and its return; the file system, the randomness and the clock are as before, so no
key is generated, nothing is signed and no file is created, chmod-ed or written.  Hence
after a `createCA` that returned nil, `ca.key` is there, and a second `createCA` on the same
directory (with any SAN list and flag) whose `os.Stat` does not fail on it is such a no-op:
`ca.key` and `ca.crt` keep the content of the first call. -/
theorem createCA_idempotent (env : Env) (outPath : String) (sans : List String) (nc : Bool)
    (w : World) :
    (statOk env w.fs (env.Join outPath CA_KEY_FILE) = true →
      createCA env outPath sans nc w = .ret none ⟨w.fs,
        w.trace ++ [.enter (.createCA outPath sans nc),
          .stat (env.Join outPath CA_KEY_FILE) true,
          .log (env.Join outPath CA_KEY_FILE ++ " already exists, skipping creation"),
          .leave (.createCA outPath sans nc) none],
        w.rand, w.clock⟩) ∧
    (∀ w1, createCA env outPath sans nc w = .ret none w1 →
      w1.fs.has (env.Join outPath CA_KEY_FILE) = true ∧
      ∀ sans2 nc2, env.statErr w1.fs (env.Join outPath CA_KEY_FILE) = none →
        createCA env outPath sans2 nc2 w1 = .ret none ⟨w1.fs,
          w1.trace ++ [.enter (.createCA outPath sans2 nc2),
            .stat (env.Join outPath CA_KEY_FILE) true,
            .log (env.Join outPath CA_KEY_FILE ++ " already exists, skipping creation"),
            .leave (.createCA outPath sans2 nc2) none],
          w1.rand, w1.clock⟩) := by
  refine ⟨createCA_skip env outPath sans nc w, ?_⟩
  intro w1 hr
  rcases createCA_ret_none env outPath sans nc w w1 hr with ⟨h, rfl⟩ |
    ⟨key, san0, rest, cert, -, -, -, -, rfl⟩
  · exact ⟨has_of_statOk env _ _ h, fun sans2 nc2 _ => createCA_skip env outPath sans2 nc2 _ h⟩
  · refine ⟨by simp [FS.has, FS.get_set_self], fun sans2 nc2 hstat => ?_⟩
    exact createCA_skip env outPath sans2 nc2 _ (statOk_set env _ _ _ hstat)

/-- The skip of `createCA` where `ca.key` is a file and where it is a directory, and two
calls in a row on an empty directory. -/
theorem createCA_idempotent_witness :
    ((statOk demoEnv caWorld.fs (demoEnv.Join "/certs" CA_KEY_FILE) = true ∧
      createCA demoEnv "/certs" ["other.test"] false caWorld = .ret none ⟨caWorld.fs,
        caWorld.trace ++ [.enter (.createCA "/certs" ["other.test"] false),
          .stat (demoEnv.Join "/certs" CA_KEY_FILE) true,
          .log (demoEnv.Join "/certs" CA_KEY_FILE ++ " already exists, skipping creation"),
          .leave (.createCA "/certs" ["other.test"] false) none],
        caWorld.rand, caWorld.clock⟩) ∧
     (statOk demoEnv dirWorld.fs (demoEnv.Join "/certs" CA_KEY_FILE) = true ∧
      (createCA demoEnv "/certs" ["example.com"] true dirWorld).world.fs = dirWorld.fs)) ∧
    (createCA demoEnv "/certs" ["example.com"] true emptyWorld =
        .ret none (createCA demoEnv "/certs" ["example.com"] true emptyWorld).world ∧
      (createCA demoEnv "/certs" ["other.test"] false
        (createCA demoEnv "/certs" ["example.com"] true emptyWorld).world).world.fs =
        caWorld.fs) :=
  ⟨⟨⟨by decide,
      (createCA_idempotent demoEnv "/certs" ["other.test"] false caWorld).1 (by decide)⟩,
     by decide,
     by rw [(createCA_idempotent demoEnv "/certs" ["example.com"] true dirWorld).1
        (by decide)]; rfl⟩,
   rfl,
   by rw [((createCA_idempotent demoEnv "/certs" ["example.com"] true emptyWorld).2
        (createCA demoEnv "/certs" ["example.com"] true emptyWorld).world rfl).2
        ["other.test"] false rfl]; rfl⟩

/-- C2: when `os.Stat` succeeds on `server.key` (a file or a directory is there and the call
does not fail), `createServerCert` returns nil and adds to the trace only its call, the
stat, one log line and its return: the CA is not loaded, no key is generated, nothing is
signed and no file is touched.  Hence after a `createServerCert` that returned nil for the
SAN list `s1`, `server.key` is there, and a later call for any SAN list `s2` (a different
one, the empty one) whose `os.Stat` does not fail on it is such a no-op: `server.key` and
`server.crt` stay as the first call wrote them. -/
theorem createServerCert_idempotent (env : Env) (outPath : String) (s1 s2 : List String)
    (w : World) :
    (statOk env w.fs (env.Join outPath SERVER_KEY_FILE) = true →
      createServerCert env outPath s2 w = .ret none ⟨w.fs,
        w.trace ++ [.enter (.createServerCert outPath s2),
          .stat (env.Join outPath SERVER_KEY_FILE) true,
          .log (env.Join outPath SERVER_KEY_FILE ++ " already exists, skipping creation"),
          .leave (.createServerCert outPath s2) none],
        w.rand, w.clock⟩) ∧
    (∀ w1, createServerCert env outPath s1 w = .ret none w1 →
      w1.fs.has (env.Join outPath SERVER_KEY_FILE) = true ∧
      (env.statErr w1.fs (env.Join outPath SERVER_KEY_FILE) = none →
        createServerCert env outPath s2 w1 = .ret none ⟨w1.fs,
          w1.trace ++ [.enter (.createServerCert outPath s2),
            .stat (env.Join outPath SERVER_KEY_FILE) true,
            .log (env.Join outPath SERVER_KEY_FILE ++ " already exists, skipping creation"),
            .leave (.createServerCert outPath s2) none],
          w1.rand, w1.clock⟩)) := by
  refine ⟨createServerCert_skip env outPath s2 w, ?_⟩
  intro w1 hr
  rcases createServerCert_ret_none env outPath s1 w w1 hr with ⟨h, rfl⟩ |
    ⟨pair, der, ders, ca, key, san0, rest, cert, -, -, -, -, -, -, -, rfl⟩
  · exact ⟨has_of_statOk env _ _ h, fun _ => createServerCert_skip env outPath s2 _ h⟩
  · refine ⟨by simp [FS.has, FS.get_set_self], fun hstat => ?_⟩
    exact createServerCert_skip env outPath s2 _ (statOk_set env _ _ _ hstat)

/-- The skip of `createServerCert` where `server.key` is a file and where it is a directory,
and two calls in a row with different SAN lists. -/
theorem createServerCert_idempotent_witness :
    ((statOk demoEnv issuedWorld.fs (demoEnv.Join "/certs" SERVER_KEY_FILE) = true ∧
      createServerCert demoEnv "/certs" [] issuedWorld = .ret none ⟨issuedWorld.fs,
        issuedWorld.trace ++ [.enter (.createServerCert "/certs" []),
          .stat (demoEnv.Join "/certs" SERVER_KEY_FILE) true,
          .log (demoEnv.Join "/certs" SERVER_KEY_FILE ++ " already exists, skipping creation"),
          .leave (.createServerCert "/certs" []) none],
        issuedWorld.rand, issuedWorld.clock⟩) ∧
     (statOk demoEnv dirWorld.fs (demoEnv.Join "/certs" SERVER_KEY_FILE) = true ∧
      (createServerCert demoEnv "/certs" ["example.com"] dirWorld).world.fs = dirWorld.fs)) ∧
    (createServerCert demoEnv "/certs" ["example.com"] caWorld =
        .ret none (createServerCert demoEnv "/certs" ["example.com"] caWorld).world ∧
      (createServerCert demoEnv "/certs" ["other.test", "10.0.0.1"]
        (createServerCert demoEnv "/certs" ["example.com"] caWorld).world).world.fs =
        issuedWorld.fs) :=
  ⟨⟨⟨by decide,
      (createServerCert_idempotent demoEnv "/certs" [] [] issuedWorld).1 (by decide)⟩,
     by decide,
     by rw [(createServerCert_idempotent demoEnv "/certs" [] ["example.com"] dirWorld).1
        (by decide)]; rfl⟩,
   rfl,
   by rw [((createServerCert_idempotent demoEnv "/certs" ["example.com"]
        ["other.test", "10.0.0.1"] caWorld).2
        (createServerCert demoEnv "/certs" ["example.com"] caWorld).world rfl).2 rfl]; rfl⟩

/-- When `os.Stat` fails on `ca.key` and key generation succeeds, `createCA` reaches
signing. -/
theorem createCA_signs (env : Env) (outPath : String) (san0 : String) (rest : List String)
    (nc : Bool) (w : World) (key : PrivateKey)
    (h : statOk env w.fs (env.Join outPath CA_KEY_FILE) = false)
    (hg : env.GenerateKey w.rand KEY_SIZE = .ok key) :
    ∃ ok tl, (createCA env outPath (san0 :: rest) nc w).world.trace =
      w.trace ++ caPrologue env outPath (san0 :: rest) nc w key san0 ok ++ tl := by
  cases hs : env.CreateCertificate (w.rand + 1)
      (caTemplate env san0 (san0 :: rest) nc (env.now w.clock) (env.now (w.clock + 1)))
      (caTemplate env san0 (san0 :: rest) nc (env.now w.clock) (env.now (w.clock + 1)))
      key.pub key with
  | error err =>
    rw [createCA_signErr env outPath san0 rest nc w key err h hg hs]
    exact ⟨false, _, rfl⟩
  | ok cert =>
    rcases createCA_persist env outPath san0 rest nc w key cert h hg hs with
      ⟨w1, h1, hc⟩ | ⟨h1, ⟨w2, h2, hc⟩ | hc⟩
    · obtain ⟨t, ht, -⟩ := (writePEM_run env (env.Join outPath CA_CERT_FILE)
        ⟨"CERTIFICATE", cert⟩ CERT_FILE_MODE
        ⟨w.fs, w.trace ++ caPrologue env outPath (san0 :: rest) nc w key san0 true,
          w.rand + 2, w.clock + 2⟩).2.1
      rw [h1] at ht
      rw [hc]
      exact ⟨true, t, ht⟩
    · obtain ⟨t, ht, -⟩ := (writePEM_run env (env.Join outPath CA_KEY_FILE)
        ⟨"RSA PRIVATE KEY", env.MarshalPKCS1PrivateKey key⟩ KEY_FILE_MODE
        ⟨w.fs.set (env.Join outPath CA_CERT_FILE)
            ⟨CERT_FILE_MODE, env.EncodeToMemory ⟨"CERTIFICATE", cert⟩⟩,
          (w.trace ++ caPrologue env outPath (san0 :: rest) nc w key san0 true) ++
            writePEMEvents env (env.Join outPath CA_CERT_FILE) ⟨"CERTIFICATE", cert⟩
              CERT_FILE_MODE,
          w.rand + 2, w.clock + 2⟩).2.1
      rw [h2] at ht
      rw [hc]
      exact ⟨true, _ ++ t, by simpa [Outcome.world] using ht⟩
    · rw [hc]
      exact ⟨true, _, by simp only [Outcome.world, List.append_assoc]; rfl⟩

/-- When `os.Stat` fails on `server.key`, the CA loads and parses and key generation succeeds,
`createServerCert` reaches signing. -/
theorem createServerCert_signs (env : Env) (outPath : String) (san0 : String)
    (rest : List String)
    (w : World) (pair : TLSCertificate) (der : Bytes) (ders : List Bytes) (ca : Certificate)
    (key : PrivateKey)
    (h : statOk env w.fs (env.Join outPath SERVER_KEY_FILE) = false)
    (hl : loadX509KeyPair env w.fs (env.Join outPath CA_CERT_FILE)
      (env.Join outPath CA_KEY_FILE) = .ok pair)
    (hd : pair.Certificate = der :: ders)
    (hp : env.ParseCertificate der = .ok ca)
    (hg : env.GenerateKey w.rand KEY_SIZE = .ok key) :
    ∃ ok tl, (createServerCert env outPath (san0 :: rest) w).world.trace =
      w.trace ++ serverPrologue env outPath (san0 :: rest) w pair der ca key san0 ok ++ tl := by
  cases hs : env.CreateCertificate (w.rand + 1)
      (serverTemplate env ca san0 (san0 :: rest) (env.now w.clock) (env.now (w.clock + 1)))
      ca key.pub pair.PrivateKey with
  | error err =>
    rw [createServerCert_signErr env outPath san0 rest w pair der ders ca key err h hl hd hp
      hg hs]
    exact ⟨false, _, rfl⟩
  | ok cert =>
    rcases createServerCert_persist env outPath san0 rest w pair der ders ca key cert h hl hd
      hp hg hs with ⟨w1, h1, hc⟩ | ⟨h1, ⟨w2, h2, hc⟩ | hc⟩
    · obtain ⟨t, ht, -⟩ := (writePEM_run env (env.Join outPath SERVER_CERT_FILE)
        ⟨"CERTIFICATE", cert⟩ CERT_FILE_MODE
        ⟨w.fs, w.trace ++ serverPrologue env outPath (san0 :: rest) w pair der ca key san0 true,
          w.rand + 2, w.clock + 2⟩).2.1
      rw [h1] at ht
      rw [hc]
      exact ⟨true, t, ht⟩
    · obtain ⟨t, ht, -⟩ := (writePEM_run env (env.Join outPath SERVER_KEY_FILE)
        ⟨"RSA PRIVATE KEY", env.MarshalPKCS1PrivateKey key⟩ KEY_FILE_MODE
        ⟨w.fs.set (env.Join outPath SERVER_CERT_FILE)
            ⟨CERT_FILE_MODE, env.EncodeToMemory ⟨"CERTIFICATE", cert⟩⟩,
          (w.trace ++ serverPrologue env outPath (san0 :: rest) w pair der ca key san0 true) ++
            writePEMEvents env (env.Join outPath SERVER_CERT_FILE) ⟨"CERTIFICATE", cert⟩
              CERT_FILE_MODE,
          w.rand + 2, w.clock + 2⟩).2.1
      rw [h2] at ht
      rw [hc]
      exact ⟨true, _ ++ t, by simpa [Outcome.world] using ht⟩
    · rw [hc]
      exact ⟨true, _, by simp only [Outcome.world, List.append_assoc]; rfl⟩

/-- C3: with a non-empty SAN list, `server.key` absent (`os.Stat` fails on it, as it does
when no file and no directory is there) and a CA pair that loads and parses,
every call `createServerCert` makes of `x509.CreateCertificate` has the parsed CA
certificate as parent, the public key of the key just generated, the private key loaded
from `ca.key` as signer, and a template with serial number 2, the CA subject as issuer, the
first SAN as common name, organization `create-local-cert`, extended key usage server-auth
only, key usage digital-signature | key-encipherment, all the SANs in `DNSNames` in order,
no `IPAddresses`, and `IsCA` false; and it makes that call whenever key generation
succeeds. -/
theorem createServerCert_template (env : Env) (outPath : String) (san0 : String)
    (rest : List String)
    (w : World) (pair : TLSCertificate) (der : Bytes) (ders : List Bytes) (ca : Certificate)
    (h : statOk env w.fs (env.Join outPath SERVER_KEY_FILE) = false)
    (hl : loadX509KeyPair env w.fs (env.Join outPath CA_CERT_FILE)
      (env.Join outPath CA_KEY_FILE) = .ok pair)
    (hd : pair.Certificate = der :: ders)
    (hp : env.ParseCertificate der = .ok ca) :
    (∀ e ∈ newEvents w (createServerCert env outPath (san0 :: rest) w), e.isSign = true →
      ∃ template key ok,
        env.GenerateKey w.rand KEY_SIZE = .ok key ∧
        e = Event.createCertificate template ca key.pub pair.PrivateKey ok ∧
        template.SerialNumber = 2 ∧
        template.Issuer = ca.Subject ∧
        template.Subject.CommonName = san0 ∧
        template.Subject.Organization = ["create-local-cert"] ∧
        template.ExtKeyUsage = [ExtKeyUsageServerAuth] ∧
        template.KeyUsage = KeyUsageDigitalSignature ||| KeyUsageKeyEncipherment ∧
        template.DNSNames = san0 :: rest ∧
        template.IPAddresses = [] ∧
        template.IsCA = false) ∧
    (∀ key, env.GenerateKey w.rand KEY_SIZE = .ok key →
      ∃ e ∈ newEvents w (createServerCert env outPath (san0 :: rest) w), e.isSign = true) := by
  constructor
  · intro e he hs
    obtain ⟨pair2, der2, ders2, ca2, key2, san2, rest2, ok2, hs2, -, hl2, hd2, hp2, hg2, rfl⟩ :=
      (createServerCert_events env outPath (san0 :: rest) w e he).2 hs
    rw [hl] at hl2
    cases hl2
    rw [hd] at hd2
    cases hd2
    rw [hp] at hp2
    cases hp2
    cases hs2
    exact ⟨_, key2, ok2, hg2, rfl, rfl, rfl, rfl, rfl, rfl, rfl, rfl, rfl, rfl⟩
  · intro key hg
    obtain ⟨ok, tl, ht⟩ := createServerCert_signs env outPath san0 rest w pair der ders ca key
      h hl hd hp hg
    exact ⟨Event.createCertificate
      (serverTemplate env ca san0 (san0 :: rest) (env.now w.clock) (env.now (w.clock + 1)))
      ca key.pub pair.PrivateKey ok, by simp [newEvents, ht, serverPrologue], rfl⟩

/-- The signing of a server certificate for two SANs against the CA of `caWorld`. -/
theorem createServerCert_template_witness :
    (statOk demoEnv caWorld.fs (demoEnv.Join "/certs" SERVER_KEY_FILE) = false ∧
     loadX509KeyPair demoEnv caWorld.fs (demoEnv.Join "/certs" CA_CERT_FILE)
      (demoEnv.Join "/certs" CA_KEY_FILE) = .ok ⟨[[1, 4096, 1]], ⟨⟨4096, 65537⟩, 1⟩⟩ ∧
     demoEnv.ParseCertificate [1, 4096, 1] = .ok demoCA ∧
     demoEnv.GenerateKey caWorld.rand KEY_SIZE = .ok ⟨⟨4098, 65537⟩, 3⟩) ∧
    ∃ e ∈ newEvents caWorld
        (createServerCert demoEnv "/certs" ("example.com" :: ["127.0.0.1"]) caWorld),
      e.isSign = true :=
  ⟨⟨by decide, rfl, rfl, rfl⟩,
   (createServerCert_template demoEnv "/certs" "example.com" ["127.0.0.1"] caWorld
    ⟨[[1, 4096, 1]], ⟨⟨4096, 65537⟩, 1⟩⟩ [1, 4096, 1] [] demoCA
    (by decide) rfl rfl rfl).2 ⟨⟨4098, 65537⟩, 3⟩ rfl⟩

/-- C4: with a non-empty SAN list and `ca.key` absent (`os.Stat` fails on it, as it does
when no file and no directory is there), every call `createCA` makes of
`x509.CreateCertificate` passes one template as both template and parent, with the public
key of the key just generated and that key as signer.  The template has serial number 1,
common name `create-local-cert CA for ` followed by the first SAN, organization
`create-local-cert CA`, key usage cert-sign | CRL-sign, no extended key usage, `IsCA` and
`BasicConstraintsValid` true, and the SAN list as critical permitted DNS domains when
`isUsingNameConstraints` is set, no permitted domains and not critical otherwise; and
`createCA` makes that call whenever key generation succeeds. -/
theorem createCA_template (env : Env) (outPath : String) (san0 : String) (rest : List String)
    (isUsingNameConstraints : Bool) (w : World)
    (h : statOk env w.fs (env.Join outPath CA_KEY_FILE) = false) :
    (∀ e ∈ newEvents w (createCA env outPath (san0 :: rest) isUsingNameConstraints w),
      e.isSign = true →
      ∃ template key ok,
        env.GenerateKey w.rand KEY_SIZE = .ok key ∧
        e = Event.createCertificate template template key.pub key ok ∧
        template.SerialNumber = 1 ∧
        template.Subject.CommonName = "create-local-cert CA for " ++ san0 ∧
        template.Subject.Organization = ["create-local-cert CA"] ∧
        template.KeyUsage = KeyUsageCertSign ||| KeyUsageCRLSign ∧
        template.ExtKeyUsage = [] ∧
        template.IsCA = true ∧
        template.BasicConstraintsValid = true ∧
        (isUsingNameConstraints = true →
          template.PermittedDNSDomains = san0 :: rest ∧
          template.PermittedDNSDomainsCritical = true) ∧
        (isUsingNameConstraints = false →
          template.PermittedDNSDomains = [] ∧
          template.PermittedDNSDomainsCritical = false)) ∧
    (∀ key, env.GenerateKey w.rand KEY_SIZE = .ok key →
      ∃ e ∈ newEvents w (createCA env outPath (san0 :: rest) isUsingNameConstraints w),
        e.isSign = true) := by
  constructor
  · intro e he hs
    obtain ⟨key2, san2, rest2, ok2, hs2, -, hg2, rfl⟩ :=
      (createCA_events env outPath (san0 :: rest) isUsingNameConstraints w e he).2 hs
    cases hs2
    refine ⟨_, key2, ok2, hg2, rfl, ?_⟩
    cases isUsingNameConstraints <;> simp [caTemplate, Certificate.zero]
  · intro key hg
    obtain ⟨ok, tl, ht⟩ :=
      createCA_signs env outPath san0 rest isUsingNameConstraints w key h hg
    exact ⟨Event.createCertificate
      (caTemplate env san0 (san0 :: rest) isUsingNameConstraints (env.now w.clock)
        (env.now (w.clock + 1)))
      (caTemplate env san0 (san0 :: rest) isUsingNameConstraints (env.now w.clock)
        (env.now (w.clock + 1)))
      key.pub key ok, by simp [newEvents, ht, caPrologue], rfl⟩

/-- The signing of a CA for two SANs in an empty directory. -/
theorem createCA_template_witness :
    (statOk demoEnv emptyWorld.fs (demoEnv.Join "/certs" CA_KEY_FILE) = false ∧
     demoEnv.GenerateKey emptyWorld.rand KEY_SIZE = .ok ⟨⟨4096, 65537⟩, 1⟩) ∧
    ∃ e ∈ newEvents emptyWorld
        (createCA demoEnv "/certs" ("example.com" :: ["127.0.0.1"]) true emptyWorld),
      e.isSign = true :=
  ⟨⟨by decide, rfl⟩,
   (createCA_template demoEnv "/certs" "example.com" ["127.0.0.1"] true emptyWorld
    (by decide)).2 ⟨⟨4096, 65537⟩, 1⟩ rfl⟩

/-- C10, as the claim states it, fails: on a clock that moves between the two readings the
CA template has `NotBefore` 2024-01-01 00:00:00.000000000 and `NotAfter`
2034-01-01 00:00:00.000000001, one nanosecond later than `NotBefore.AddDate(10, 0, 0)`. -/
theorem validity_two_readings :
    ∃ template,
      Event.createCertificate template template ⟨4096, 65537⟩ ⟨⟨4096, 65537⟩, 1⟩ true ∈
        newEvents emptyWorld (createCA demoEnv "/certs" ["example.com"] true emptyWorld) ∧
      template.NotBefore = ⟨2024, 1, 1, 0, 0, 0, 0⟩ ∧
      template.NotAfter = ⟨2034, 1, 1, 0, 0, 0, 1⟩ ∧
      demoEnv.AddDate template.NotBefore 10 0 0 = ⟨2034, 1, 1, 0, 0, 0, 0⟩ ∧
      template.NotAfter ≠ demoEnv.AddDate template.NotBefore 10 0 0 :=
  ⟨caTemplate demoEnv "example.com" ["example.com"] true (tickingClock 0) (tickingClock 1),
    by decide, by decide, by decide, by decide, by decide⟩

/-- C10 amended: in every call of `x509.CreateCertificate` of either issuer, `NotBefore` is
the first reading of the clock and `NotAfter` is the second reading advanced by ten calendar
years; when the two readings are the same instant, `NotAfter` is
`NotBefore.AddDate(10, 0, 0)`. -/
theorem validity_window (env : Env) (outPath : String) (sans : List String) (nc : Bool)
    (w : World) :
    (∀ template parent pub priv ok,
      Event.createCertificate template parent pub priv ok ∈
        newEvents w (createCA env outPath sans nc w) →
      template.NotBefore = env.now w.clock ∧
      template.NotAfter = env.AddDate (env.now (w.clock + 1)) 10 0 0 ∧
      (env.now (w.clock + 1) = env.now w.clock →
        template.NotAfter = env.AddDate template.NotBefore 10 0 0)) ∧
    (∀ template parent pub priv ok,
      Event.createCertificate template parent pub priv ok ∈
        newEvents w (createServerCert env outPath sans w) →
      template.NotBefore = env.now w.clock ∧
      template.NotAfter = env.AddDate (env.now (w.clock + 1)) 10 0 0 ∧
      (env.now (w.clock + 1) = env.now w.clock →
        template.NotAfter = env.AddDate template.NotBefore 10 0 0)) := by
  constructor
  · intro template parent pub priv ok he
    obtain ⟨key, san0, rest, ok2, -, -, -, heq⟩ :=
      (createCA_events env outPath sans nc w _ he).2 rfl
    simp only [Event.createCertificate.injEq] at heq
    obtain ⟨rfl, -⟩ := heq
    have h1 : (caTemplate env san0 sans nc (env.now w.clock) (env.now (w.clock + 1))).NotBefore
        = env.now w.clock := by cases nc <;> rfl
    have h2 : (caTemplate env san0 sans nc (env.now w.clock) (env.now (w.clock + 1))).NotAfter
        = env.AddDate (env.now (w.clock + 1)) 10 0 0 := by cases nc <;> rfl
    exact ⟨h1, h2, fun hsame => by rw [h1, h2, hsame]⟩
  · intro template parent pub priv ok he
    obtain ⟨pair, der, ders, ca, key, san0, rest, ok2, -, -, -, -, -, -, heq⟩ :=
      (createServerCert_events env outPath sans w _ he).2 rfl
    simp only [Event.createCertificate.injEq] at heq
    obtain ⟨rfl, -⟩ := heq
    exact ⟨rfl, rfl, fun hsame => by
      show env.AddDate (env.now (w.clock + 1)) 10 0 0 = env.AddDate (env.now w.clock) 10 0 0
      rw [hsame]⟩

/-- On a clock that stands still the CA template runs from an instant to exactly ten years
later. -/
theorem validity_window_witness :
    Event.createCertificate
        (caTemplate frozenEnv "example.com" ["example.com"] true ⟨2024, 1, 1, 0, 0, 0, 0⟩
          ⟨2024, 1, 1, 0, 0, 0, 0⟩)
        (caTemplate frozenEnv "example.com" ["example.com"] true ⟨2024, 1, 1, 0, 0, 0, 0⟩
          ⟨2024, 1, 1, 0, 0, 0, 0⟩)
        ⟨4096, 65537⟩ ⟨⟨4096, 65537⟩, 1⟩ true ∈
      newEvents emptyWorld (createCA frozenEnv "/certs" ["example.com"] true emptyWorld) ∧
    frozenEnv.now (emptyWorld.clock + 1) = frozenEnv.now emptyWorld.clock ∧
    (caTemplate frozenEnv "example.com" ["example.com"] true ⟨2024, 1, 1, 0, 0, 0, 0⟩
        ⟨2024, 1, 1, 0, 0, 0, 0⟩).NotAfter =
      frozenEnv.AddDate
        (caTemplate frozenEnv "example.com" ["example.com"] true ⟨2024, 1, 1, 0, 0, 0, 0⟩
          ⟨2024, 1, 1, 0, 0, 0, 0⟩).NotBefore 10 0 0 :=
  ⟨by decide, rfl,
   ((validity_window frozenEnv "/certs" ["example.com"] true emptyWorld).1
      (caTemplate frozenEnv "example.com" ["example.com"] true ⟨2024, 1, 1, 0, 0, 0, 0⟩
        ⟨2024, 1, 1, 0, 0, 0, 0⟩)
      (caTemplate frozenEnv "example.com" ["example.com"] true ⟨2024, 1, 1, 0, 0, 0, 0⟩
        ⟨2024, 1, 1, 0, 0, 0, 0⟩)
      ⟨4096, 65537⟩ ⟨⟨4096, 65537⟩, 1⟩ true (by decide)).2.2 rfl⟩

/-- C6: the steps of `writePEM` come in the order create, chmod, write.  Whatever a run of
`writePEM` adds to the trace, a write in it is a write to `path` that directly follows a
successful `os.Create` of `path` and a successful `os.Chmod` of `path` to `mode`, nothing
after it touches a file, and the file then has exactly `mode` and exactly the bytes
written (what it held before is gone).  If the create or the chmod fails there is no
write: after a failed create the file system is as before, after a failed chmod the
file is empty.  When `writePEM` returns it returns nil and the file holds the encoded
block. -/
theorem writePEM_order (env : Env) (path : String) (block : Block) (mode : Nat) (w : World) :
    ∃ t, (writePEM env path block mode w).world.trace = w.trace ++ t ∧
      (∀ q data ok, Event.write q data ok ∈ t →
        q = path ∧
        (∃ b, t = [.enter (.writePEM path block mode),
            .log ("Writing " ++ path ++ " with mode " ++ env.fileModeString mode),
            .create path true, .chmod path mode true, .write path data ok] ++ b ∧
          ∀ e ∈ b, e.isFileChange = false) ∧
        (writePEM env path block mode w).world.fs.get path = some ⟨mode, data⟩) ∧
      (∀ m ok, Event.chmod path m ok ∈ t →
        m = mode ∧
        ∃ b, t = [.enter (.writePEM path block mode),
            .log ("Writing " ++ path ++ " with mode " ++ env.fileModeString mode),
            .create path true, .chmod path mode ok] ++ b) ∧
      (Event.create path false ∈ t →
        (∀ q data ok, Event.write q data ok ∉ t) ∧
        (writePEM env path block mode w).world.fs = w.fs) ∧
      (Event.chmod path mode false ∈ t →
        (∀ q data ok, Event.write q data ok ∉ t) ∧
        ∃ f, (writePEM env path block mode w).world.fs.get path = some f ∧ f.data = []) ∧
      (∀ err w', writePEM env path block mode w = .ret err w' →
        err = none ∧ Event.write path (env.EncodeToMemory block) true ∈ t ∧
        w'.fs.get path = some ⟨mode, env.EncodeToMemory block⟩) := by
  rcases writePEM_shape env path block mode w with h |
    ⟨w', mid, msg, h, ht, ⟨err, -, rfl, hfs⟩ | ⟨err, -, rfl, hfs⟩ | ⟨err, data, -, rfl, hfs⟩⟩
  · rw [h]
    refine ⟨writePEMEvents env path block mode, rfl, ?_, ?_, ?_, ?_, ?_⟩
    · intro q data ok hm
      simp [writePEMEvents] at hm
      obtain ⟨rfl, rfl, rfl⟩ := hm
      refine ⟨rfl, ⟨[.close q, .leave (.writePEM q block mode) none], by simp [writePEMEvents],
        by simp [Event.isFileChange]⟩, by simp [Outcome.world, FS.get_set_self]⟩
    · intro m ok hm
      simp [writePEMEvents] at hm
      obtain ⟨rfl, rfl⟩ := hm
      exact ⟨rfl, [.write path (env.EncodeToMemory block) true, .close path,
        .leave (.writePEM path block m) none], by simp [writePEMEvents]⟩
    · intro hm
      simp [writePEMEvents] at hm
    · intro hm
      simp [writePEMEvents] at hm
    · intro err w1 he
      simp only [Outcome.ret.injEq] at he
      obtain ⟨rfl, rfl⟩ := he
      exact ⟨rfl, by simp [writePEMEvents], by simp [FS.get_set_self]⟩
  · rw [h]
    refine ⟨_, ht, ?_, ?_, ?_, ?_, ?_⟩
    · intro q data ok hm
      simp at hm
    · intro m ok hm
      simp at hm
    · intro _
      exact ⟨by simp, hfs⟩
    · intro hm
      simp at hm
    · intro err w1 he
      simp at he
  · rw [h]
    refine ⟨_, ht, ?_, ?_, ?_, ?_, ?_⟩
    · intro q data ok hm
      simp at hm
    · intro m ok hm
      simp at hm
      obtain ⟨rfl, rfl⟩ := hm
      exact ⟨rfl, [.log msg, .exit 1], by simp⟩
    · intro hm
      simp at hm
    · intro _
      refine ⟨by simp, createdFile env w.fs path, ?_, createdFile_data env w.fs path⟩
      simp [Outcome.world, hfs, FS.get_set_self]
    · intro err w1 he
      simp at he
  · rw [h]
    refine ⟨_, ht, ?_, ?_, ?_, ?_, ?_⟩
    · intro q d ok hm
      simp at hm
      obtain ⟨rfl, rfl, rfl⟩ := hm
      refine ⟨rfl, ⟨[.log msg, .exit 1], by simp, by simp [Event.isFileChange]⟩,
        by simp [Outcome.world, hfs, FS.get_set_self]⟩
    · intro m ok hm
      simp at hm
      obtain ⟨rfl, rfl⟩ := hm
      exact ⟨rfl, [.write path data false, .log msg, .exit 1], by simp⟩
    · intro hm
      simp at hm
    · intro hm
      simp at hm
    · intro err w1 he
      simp at he

/-- A `writePEM` call that succeeds on an empty file system. -/
theorem writePEM_order_witness :
    Event.write "/certs/ca.crt" [11, 1, 4096, 1] true ∈
      newEvents emptyWorld
        (writePEM demoEnv "/certs/ca.crt" ⟨"CERTIFICATE", [1, 4096, 1]⟩ 0o444 emptyWorld) ∧
    ∃ t, (writePEM demoEnv "/certs/ca.crt" ⟨"CERTIFICATE", [1, 4096, 1]⟩ 0o444
          emptyWorld).world.trace = emptyWorld.trace ++ t ∧
      ∀ err w', writePEM demoEnv "/certs/ca.crt" ⟨"CERTIFICATE", [1, 4096, 1]⟩ 0o444
          emptyWorld = .ret err w' →
        err = none ∧
        Event.write "/certs/ca.crt"
          (demoEnv.EncodeToMemory ⟨"CERTIFICATE", [1, 4096, 1]⟩) true ∈ t ∧
        w'.fs.get "/certs/ca.crt" =
          some ⟨0o444, demoEnv.EncodeToMemory ⟨"CERTIFICATE", [1, 4096, 1]⟩⟩ :=
  ⟨by decide,
   (writePEM_order demoEnv "/certs/ca.crt" ⟨"CERTIFICATE", [1, 4096, 1]⟩ 0o444
      emptyWorld).elim fun t ht => ⟨t, ht.1, ht.2.2.2.2.2⟩⟩

/-! ## Failures -/

/-- A run of `createCA` ends in `os.Exit(1)` or has no failed file step. -/
theorem createCA_exit_or_clean (env : Env) (outPath : String) (sans : List String) (nc : Bool)
    (w : World) :
    (∃ w', createCA env outPath sans nc w = .exit 1 w') ∨
    (∀ e ∈ newEvents w (createCA env outPath sans nc w), e.isFailedPersist = false) := by
  cases h : statOk env w.fs (env.Join outPath CA_KEY_FILE) with
  | true =>
    right
    rw [createCA_skip env outPath sans nc w h]
    simp [newEvents, Outcome.world, Event.isFailedPersist]
  | false =>
    cases hg : env.GenerateKey w.rand KEY_SIZE with
    | error err =>
      right
      rw [createCA_genErr env outPath sans nc w err h hg]
      simp [newEvents, Outcome.world, Event.isFailedPersist]
    | ok key =>
      cases sans with
      | nil =>
        right
        rw [createCA_panic env outPath nc w key h hg]
        simp [newEvents, Outcome.world, Event.isFailedPersist]
      | cons san0 rest =>
        cases hs : env.CreateCertificate (w.rand + 1)
            (caTemplate env san0 (san0 :: rest) nc (env.now w.clock) (env.now (w.clock + 1)))
            (caTemplate env san0 (san0 :: rest) nc (env.now w.clock) (env.now (w.clock + 1)))
            key.pub key with
        | error err =>
          right
          rw [createCA_signErr env outPath san0 rest nc w key err h hg hs]
          simp [newEvents, Outcome.world, Event.isFailedPersist, caPrologue]
        | ok cert =>
          rcases createCA_persist env outPath san0 rest nc w key cert h hg hs with
            ⟨w1, -, hc⟩ | ⟨-, ⟨w2, -, hc⟩ | hc⟩
          · exact Or.inl ⟨w1, hc⟩
          · exact Or.inl ⟨w2, hc⟩
          · right
            rw [hc]
            simp [newEvents, Outcome.world, Event.isFailedPersist, caPrologue, writePEMEvents]

/-- A run of `createServerCert` ends in `os.Exit(1)` or has no failed file step. -/
theorem createServerCert_exit_or_clean (env : Env) (outPath : String) (sans : List String)
    (w : World) :
    (∃ w', createServerCert env outPath sans w = .exit 1 w') ∨
    (∀ e ∈ newEvents w (createServerCert env outPath sans w), e.isFailedPersist = false) := by
  cases h : statOk env w.fs (env.Join outPath SERVER_KEY_FILE) with
  | true =>
    right
    rw [createServerCert_skip env outPath sans w h]
    simp [newEvents, Outcome.world, Event.isFailedPersist]
  | false =>
    cases hl : loadX509KeyPair env w.fs (env.Join outPath CA_CERT_FILE)
        (env.Join outPath CA_KEY_FILE) with
    | error err =>
      right
      rw [createServerCert_loadErr env outPath sans w err h hl]
      simp [newEvents, Outcome.world, Event.isFailedPersist]
    | ok pair =>
      cases hd : pair.Certificate with
      | nil =>
        right
        rw [createServerCert_noCert env outPath sans w pair h hl hd]
        simp [newEvents, Outcome.world, Event.isFailedPersist]
      | cons der ders =>
        cases hp : env.ParseCertificate der with
        | error err =>
          right
          rw [createServerCert_parseErr env outPath sans w pair der ders err h hl hd hp]
          simp [newEvents, Outcome.world, Event.isFailedPersist]
        | ok ca =>
          cases hg : env.GenerateKey w.rand KEY_SIZE with
          | error err =>
            right
            rw [createServerCert_genErr env outPath sans w pair der ders ca err h hl hd hp hg]
            simp [newEvents, Outcome.world, Event.isFailedPersist]
          | ok key =>
            cases sans with
            | nil =>
              right
              rw [createServerCert_panic env outPath w pair der ders ca key h hl hd hp hg]
              simp [newEvents, Outcome.world, Event.isFailedPersist]
            | cons san0 rest =>
              cases hs : env.CreateCertificate (w.rand + 1)
                  (serverTemplate env ca san0 (san0 :: rest) (env.now w.clock)
                    (env.now (w.clock + 1)))
                  ca key.pub pair.PrivateKey with
              | error err =>
                right
                rw [createServerCert_signErr env outPath san0 rest w pair der ders ca key err
                  h hl hd hp hg hs]
                simp [newEvents, Outcome.world, Event.isFailedPersist, serverPrologue]
              | ok cert =>
                rcases createServerCert_persist env outPath san0 rest w pair der ders ca key
                  cert h hl hd hp hg hs with ⟨w1, -, hc⟩ | ⟨-, ⟨w2, -, hc⟩ | hc⟩
                · exact Or.inl ⟨w1, hc⟩
                · exact Or.inl ⟨w2, hc⟩
                · right
                  rw [hc]
                  simp [newEvents, Outcome.world, Event.isFailedPersist, serverPrologue,
                    writePEMEvents]

/-- The errors `createCA` returns are those of key generation and of signing. -/
theorem createCA_ret_err (env : Env) (outPath : String) (sans : List String) (nc : Bool)
    (w w1 : World) (err : String) (hr : createCA env outPath sans nc w = .ret (some err) w1) :
    (∃ e, env.GenerateKey w.rand KEY_SIZE = .error e ∧
      err = "failed to generate CA key: " ++ e) ∨
    (∃ e, err = "failed to create CA certificate: " ++ e) := by
  cases h : statOk env w.fs (env.Join outPath CA_KEY_FILE) with
  | true =>
    rw [createCA_skip env outPath sans nc w h] at hr
    simp at hr
  | false =>
    cases hg : env.GenerateKey w.rand KEY_SIZE with
    | error e =>
      rw [createCA_genErr env outPath sans nc w e h hg] at hr
      simp only [Outcome.ret.injEq, Option.some.injEq] at hr
      exact Or.inl ⟨e, rfl, hr.1.symm⟩
    | ok key =>
      cases sans with
      | nil =>
        rw [createCA_panic env outPath nc w key h hg] at hr
        simp at hr
      | cons san0 rest =>
        cases hs : env.CreateCertificate (w.rand + 1)
            (caTemplate env san0 (san0 :: rest) nc (env.now w.clock) (env.now (w.clock + 1)))
            (caTemplate env san0 (san0 :: rest) nc (env.now w.clock) (env.now (w.clock + 1)))
            key.pub key with
        | error e =>
          rw [createCA_signErr env outPath san0 rest nc w key e h hg hs] at hr
          simp only [Outcome.ret.injEq, Option.some.injEq] at hr
          exact Or.inr ⟨e, hr.1.symm⟩
        | ok cert =>
          rcases createCA_persist env outPath san0 rest nc w key cert h hg hs with
            ⟨w1', -, hc⟩ | ⟨-, ⟨w2, -, hc⟩ | hc⟩ <;>
          · rw [hc] at hr
            simp at hr

/-- The errors `createServerCert` returns are those of loading and parsing the CA, of key
generation and of signing. -/
theorem createServerCert_ret_err (env : Env) (outPath : String) (sans : List String)
    (w w1 : World) (err : String)
    (hr : createServerCert env outPath sans w = .ret (some err) w1) :
    (∃ e, err = "failed to load CA keypair: " ++ e) ∨
    (∃ e, err = "failed to parse CA certificate: " ++ e) ∨
    (∃ e, env.GenerateKey w.rand KEY_SIZE = .error e ∧
      err = "failed to generate server key: " ++ e) ∨
    (∃ e, err = "failed to create server certificate: " ++ e) := by
  cases h : statOk env w.fs (env.Join outPath SERVER_KEY_FILE) with
  | true =>
    rw [createServerCert_skip env outPath sans w h] at hr
    simp at hr
  | false =>
    cases hl : loadX509KeyPair env w.fs (env.Join outPath CA_CERT_FILE)
        (env.Join outPath CA_KEY_FILE) with
    | error e =>
      rw [createServerCert_loadErr env outPath sans w e h hl] at hr
      simp only [Outcome.ret.injEq, Option.some.injEq] at hr
      exact Or.inl ⟨e, hr.1.symm⟩
    | ok pair =>
      cases hd : pair.Certificate with
      | nil =>
        rw [createServerCert_noCert env outPath sans w pair h hl hd] at hr
        simp at hr
      | cons der ders =>
        cases hp : env.ParseCertificate der with
        | error e =>
          rw [createServerCert_parseErr env outPath sans w pair der ders e h hl hd hp] at hr
          simp only [Outcome.ret.injEq, Option.some.injEq] at hr
          exact Or.inr (Or.inl ⟨e, hr.1.symm⟩)
        | ok ca =>
          cases hg : env.GenerateKey w.rand KEY_SIZE with
          | error e =>
            rw [createServerCert_genErr env outPath sans w pair der ders ca e h hl hd hp hg]
              at hr
            simp only [Outcome.ret.injEq, Option.some.injEq] at hr
            exact Or.inr (Or.inr (Or.inl ⟨e, rfl, hr.1.symm⟩))
          | ok key =>
            cases sans with
            | nil =>
              rw [createServerCert_panic env outPath w pair der ders ca key h hl hd hp hg] at hr
              simp at hr
            | cons san0 rest =>
              cases hs : env.CreateCertificate (w.rand + 1)
                  (serverTemplate env ca san0 (san0 :: rest) (env.now w.clock)
                    (env.now (w.clock + 1)))
                  ca key.pub pair.PrivateKey with
              | error e =>
                rw [createServerCert_signErr env outPath san0 rest w pair der ders ca key e
                  h hl hd hp hg hs] at hr
                simp only [Outcome.ret.injEq, Option.some.injEq] at hr
                exact Or.inr (Or.inr (Or.inr ⟨e, hr.1.symm⟩))
              | ok cert =>
                rcases createServerCert_persist env outPath san0 rest w pair der ders ca key
                  cert h hl hd hp hg hs with ⟨w1', -, hc⟩ | ⟨-, ⟨w2, -, hc⟩ | hc⟩ <;>
                · rw [hc] at hr
                  simp at hr

/-- C7, as the claim states it, fails: with a CA in place and `os.Create` failing on
`server.crt`, `createServerCert` returns nothing to its caller.  The run ends inside
`writePEM` with the log line `file creation failed: permission denied` and `os.Exit(1)`. -/
theorem persist_failure_exits :
    readOnlyEnv.createErr caWorld.fs "/certs/server.crt" = some "permission denied" ∧
    newEvents caWorld (createServerCert readOnlyEnv "/certs" ["example.com"] caWorld) =
      serverPrologue readOnlyEnv "/certs" ["example.com"] caWorld
          ⟨[[1, 4096, 1]], ⟨⟨4096, 65537⟩, 1⟩⟩ [1, 4096, 1]
          demoCA
          ⟨⟨4098, 65537⟩, 3⟩ "example.com" true ++
        [.enter (.writePEM "/certs/server.crt" ⟨"CERTIFICATE", [2, 4098, 1]⟩ 0o444),
         .log "Writing /certs/server.crt with mode -r--r--r--",
         .create "/certs/server.crt" false,
         .log "file creation failed: permission denied",
         .exit 1] ∧
    (∃ w', createServerCert readOnlyEnv "/certs" ["example.com"] caWorld = .exit 1 w') ∧
    ¬ ∃ err w', createServerCert readOnlyEnv "/certs" ["example.com"] caWorld = .ret err w' := by
  have h : createServerCert readOnlyEnv "/certs" ["example.com"] caWorld =
      .exit 1 (createServerCert readOnlyEnv "/certs" ["example.com"] caWorld).world := rfl
  refine ⟨rfl, by decide, ⟨_, h⟩, ?_⟩
  rintro ⟨err, w', hr⟩
  rw [h] at hr
  cases hr

/-- C7 amended: in a run of an issuer that does not skip (`os.Stat` fails on its key file), a
failure of key generation or of signing makes the issuer return an error that names the
step.  A failure of persisting a file does not return: `writePEM` never returns an error, a
failing create, chmod or write ends it with a log line naming the step and `os.Exit(1)`;
so the errors an issuer returns are never write errors, and a run of an issuer in which a
file step fails ends in that exit. -/
theorem issuer_errors (env : Env) (outPath : String) (sans : List String) (nc : Bool)
    (w : World) :
    (∀ err, statOk env w.fs (env.Join outPath CA_KEY_FILE) = false →
      env.GenerateKey w.rand KEY_SIZE = .error err →
      ∃ w', createCA env outPath sans nc w =
        .ret (some ("failed to generate CA key: " ++ err)) w') ∧
    (∀ key san0 rest err, sans = san0 :: rest →
      statOk env w.fs (env.Join outPath CA_KEY_FILE) = false →
      env.GenerateKey w.rand KEY_SIZE = .ok key →
      env.CreateCertificate (w.rand + 1)
        (caTemplate env san0 sans nc (env.now w.clock) (env.now (w.clock + 1)))
        (caTemplate env san0 sans nc (env.now w.clock) (env.now (w.clock + 1)))
        key.pub key = .error err →
      ∃ w', createCA env outPath sans nc w =
        .ret (some ("failed to create CA certificate: " ++ err)) w') ∧
    (∀ pair der ders ca err, statOk env w.fs (env.Join outPath SERVER_KEY_FILE) = false →
      loadX509KeyPair env w.fs (env.Join outPath CA_CERT_FILE)
        (env.Join outPath CA_KEY_FILE) = .ok pair →
      pair.Certificate = der :: ders →
      env.ParseCertificate der = .ok ca →
      env.GenerateKey w.rand KEY_SIZE = .error err →
      ∃ w', createServerCert env outPath sans w =
        .ret (some ("failed to generate server key: " ++ err)) w') ∧
    (∀ pair der ders ca key san0 rest err, sans = san0 :: rest →
      statOk env w.fs (env.Join outPath SERVER_KEY_FILE) = false →
      loadX509KeyPair env w.fs (env.Join outPath CA_CERT_FILE)
        (env.Join outPath CA_KEY_FILE) = .ok pair →
      pair.Certificate = der :: ders →
      env.ParseCertificate der = .ok ca →
      env.GenerateKey w.rand KEY_SIZE = .ok key →
      env.CreateCertificate (w.rand + 1)
        (serverTemplate env ca san0 sans (env.now w.clock) (env.now (w.clock + 1)))
        ca key.pub pair.PrivateKey = .error err →
      ∃ w', createServerCert env outPath sans w =
        .ret (some ("failed to create server certificate: " ++ err)) w') ∧
    (∀ path block mode w0,
      (∀ err w', writePEM env path block mode w0 ≠ .ret (some err) w') ∧
      (∀ e ∈ newEvents w0 (writePEM env path block mode w0), e.isFailedPersist = true →
        ∃ w' msg t, writePEM env path block mode w0 = .exit 1 w' ∧
          w'.trace = w0.trace ++ t ++ [.log msg, .exit 1] ∧
          ((e = .create path false ∧ ∃ err, msg = "file creation failed: " ++ err) ∨
           (e = .chmod path mode false ∧
              ∃ err, msg = "failed to set file permissions: " ++ err) ∨
           (∃ data, e = .write path data false) ∧
              ∃ err, msg = "failed to write PEM block: " ++ err))) ∧
    (∀ err w', createCA env outPath sans nc w = .ret (some err) w' →
      (∃ e, err = "failed to generate CA key: " ++ e) ∨
      (∃ e, err = "failed to create CA certificate: " ++ e)) ∧
    (∀ err w', createServerCert env outPath sans w = .ret (some err) w' →
      (∃ e, err = "failed to load CA keypair: " ++ e) ∨
      (∃ e, err = "failed to parse CA certificate: " ++ e) ∨
      (∃ e, err = "failed to generate server key: " ++ e) ∨
      (∃ e, err = "failed to create server certificate: " ++ e)) ∧
    (∀ e ∈ newEvents w (createCA env outPath sans nc w), e.isFailedPersist = true →
      ∃ w', createCA env outPath sans nc w = .exit 1 w') ∧
    (∀ e ∈ newEvents w (createServerCert env outPath sans w), e.isFailedPersist = true →
      ∃ w', createServerCert env outPath sans w = .exit 1 w') := by
  refine ⟨?_, ?_, ?_, ?_, ?_, ?_, ?_, ?_, ?_⟩
  · intro err h hg
    exact ⟨_, createCA_genErr env outPath sans nc w err h hg⟩
  · intro key san0 rest err hs h hg hsign
    subst hs
    exact ⟨_, createCA_signErr env outPath san0 rest nc w key err h hg hsign⟩
  · intro pair der ders ca err h hl hd hp hg
    exact ⟨_, createServerCert_genErr env outPath sans w pair der ders ca err h hl hd hp hg⟩
  · intro pair der ders ca key san0 rest err hs h hl hd hp hg hsign
    subst hs
    exact ⟨_, createServerCert_signErr env outPath san0 rest w pair der ders ca key err h hl
      hd hp hg hsign⟩
  · intro path block mode w0
    rcases writePEM_shape env path block mode w0 with h |
      ⟨w', mid, msg, h, ht, hm⟩
    · rw [h]
      refine ⟨by simp, ?_⟩
      intro e he hf
      simp [newEvents, Outcome.world, writePEMEvents] at he
      rcases he with rfl | rfl | rfl | rfl | rfl | rfl | rfl <;>
        simp [Event.isFailedPersist] at hf
    · rw [h]
      refine ⟨by simp, ?_⟩
      intro e he hf
      refine ⟨w', msg, [.enter (.writePEM path block mode),
        .log ("Writing " ++ path ++ " with mode " ++ env.fileModeString mode)] ++ mid, rfl,
        by simp [ht], ?_⟩
      rcases hm with ⟨err, rfl, rfl, -⟩ | ⟨err, rfl, rfl, -⟩ | ⟨err, data, rfl, rfl, -⟩
      · simp [newEvents, Outcome.world, ht] at he
        rcases he with rfl | rfl | rfl | rfl | rfl <;>
          simp [Event.isFailedPersist] at hf ⊢
      · simp [newEvents, Outcome.world, ht] at he
        rcases he with rfl | rfl | rfl | rfl | rfl | rfl <;>
          simp [Event.isFailedPersist] at hf ⊢
      · simp [newEvents, Outcome.world, ht] at he
        rcases he with rfl | rfl | rfl | rfl | rfl | rfl | rfl <;>
          simp [Event.isFailedPersist] at hf ⊢
  · intro err w' hr
    rcases createCA_ret_err env outPath sans nc w w' err hr with ⟨e, -, he⟩ | he
    · exact Or.inl ⟨e, he⟩
    · exact Or.inr he
  · intro err w' hr
    rcases createServerCert_ret_err env outPath sans w w' err hr with
      he | he | ⟨e, -, he⟩ | he
    · exact Or.inl he
    · exact Or.inr (Or.inl he)
    · exact Or.inr (Or.inr (Or.inl ⟨e, he⟩))
    · exact Or.inr (Or.inr (Or.inr he))
  · intro e he hf
    rcases createCA_exit_or_clean env outPath sans nc w with hx | hc
    · exact hx
    · rw [hc e he] at hf
      cases hf
  · intro e he hf
    rcases createServerCert_exit_or_clean env outPath sans w with hx | hc
    · exact hx
    · rw [hc e he] at hf
      cases hf

/-- A failing key generation makes `createCA` return the error of that step. -/
theorem issuer_errors_witness :
    (statOk noEntropyEnv emptyWorld.fs (noEntropyEnv.Join "/certs" CA_KEY_FILE) = false ∧
      noEntropyEnv.GenerateKey emptyWorld.rand KEY_SIZE = .error "entropy exhausted") ∧
    ∃ w', createCA noEntropyEnv "/certs" ["example.com"] true emptyWorld =
      .ret (some ("failed to generate CA key: " ++ "entropy exhausted")) w' :=
  ⟨⟨by decide, rfl⟩,
   (issuer_errors noEntropyEnv "/certs" ["example.com"] true emptyWorld).1
     "entropy exhausted" (by decide) rfl⟩

/-- C8: when `server.key` is absent (`os.Stat` fails on it, as it does when no file and no
directory is there) and the CA pair does not load, or its first certificate
does not parse, `createServerCert` returns the error `failed to load CA keypair`
(`failed to parse CA certificate`) after the stat and the load (and the parse) alone: no
key is generated and the file system, the randomness and the clock are as before.  The
pair does not load when `ca.crt` or `ca.key` is missing or unreadable, or when
`tls.X509KeyPair` rejects their contents. -/
theorem createServerCert_needs_CA (env : Env) (outPath : String) (sans : List String)
    (w : World) (h : statOk env w.fs (env.Join outPath SERVER_KEY_FILE) = false) :
    (∀ err, loadX509KeyPair env w.fs (env.Join outPath CA_CERT_FILE)
        (env.Join outPath CA_KEY_FILE) = .error err →
      createServerCert env outPath sans w =
        .ret (some ("failed to load CA keypair: " ++ err)) ⟨w.fs,
          w.trace ++ [.enter (.createServerCert outPath sans),
            .stat (env.Join outPath SERVER_KEY_FILE) false,
            .loadX509KeyPair (env.Join outPath CA_CERT_FILE) (env.Join outPath CA_KEY_FILE)
              false,
            .leave (.createServerCert outPath sans)
              (some ("failed to load CA keypair: " ++ err))],
          w.rand, w.clock⟩) ∧
    (∀ pair der ders err, loadX509KeyPair env w.fs (env.Join outPath CA_CERT_FILE)
        (env.Join outPath CA_KEY_FILE) = .ok pair →
      pair.Certificate = der :: ders →
      env.ParseCertificate der = .error err →
      createServerCert env outPath sans w =
        .ret (some ("failed to parse CA certificate: " ++ err)) ⟨w.fs,
          w.trace ++ [.enter (.createServerCert outPath sans),
            .stat (env.Join outPath SERVER_KEY_FILE) false,
            .loadX509KeyPair (env.Join outPath CA_CERT_FILE) (env.Join outPath CA_KEY_FILE)
              true,
            .parseCertificate der false,
            .leave (.createServerCert outPath sans)
              (some ("failed to parse CA certificate: " ++ err))],
          w.rand, w.clock⟩) ∧
    ((w.fs.get (env.Join outPath CA_CERT_FILE) = none ∨
        w.fs.get (env.Join outPath CA_KEY_FILE) = none ∨
        (∃ err, env.readErr w.fs (env.Join outPath CA_CERT_FILE) = some err) ∨
        (∃ err, env.readErr w.fs (env.Join outPath CA_KEY_FILE) = some err) ∨
        (∃ crt key err, w.fs.get (env.Join outPath CA_CERT_FILE) = some crt ∧
          w.fs.get (env.Join outPath CA_KEY_FILE) = some key ∧
          env.X509KeyPair crt.data key.data = .error err)) →
      ∃ err, loadX509KeyPair env w.fs (env.Join outPath CA_CERT_FILE)
        (env.Join outPath CA_KEY_FILE) = .error err) := by
  refine ⟨?_, ?_, ?_⟩
  · intro err hl
    exact createServerCert_loadErr env outPath sans w err h hl
  · intro pair der ders err hl hd hp
    exact createServerCert_parseErr env outPath sans w pair der ders err h hl hd hp
  · intro hx
    unfold loadX509KeyPair ReadFile
    cases hc : w.fs.get (env.Join outPath CA_CERT_FILE) with
    | none => exact ⟨_, rfl⟩
    | some crt =>
      cases hrc : env.readErr w.fs (env.Join outPath CA_CERT_FILE) with
      | some e => exact ⟨_, rfl⟩
      | none =>
        cases hk : w.fs.get (env.Join outPath CA_KEY_FILE) with
        | none => exact ⟨_, rfl⟩
        | some key =>
          cases hrk : env.readErr w.fs (env.Join outPath CA_KEY_FILE) with
          | some e => exact ⟨_, rfl⟩
          | none =>
            rcases hx with hx | hx | ⟨e, hx⟩ | ⟨e, hx⟩ | ⟨crt2, key2, e, h1, h2, h3⟩
            · rw [hc] at hx; cases hx
            · rw [hk] at hx; cases hx
            · rw [hrc] at hx; cases hx
            · rw [hrk] at hx; cases hx
            · rw [hc] at h1
              rw [hk] at h2
              cases h1
              cases h2
              exact ⟨e, h3⟩

/-- In an empty directory `createServerCert` returns the error of the load, `ca.crt` being
missing. -/
theorem createServerCert_needs_CA_witness :
    statOk demoEnv emptyWorld.fs (demoEnv.Join "/certs" SERVER_KEY_FILE) = false ∧
    loadX509KeyPair demoEnv emptyWorld.fs (demoEnv.Join "/certs" CA_CERT_FILE)
      (demoEnv.Join "/certs" CA_KEY_FILE) =
        .error "open /certs/ca.crt: no such file or directory" ∧
    createServerCert demoEnv "/certs" ["example.com"] emptyWorld =
      .ret (some ("failed to load CA keypair: " ++
          "open /certs/ca.crt: no such file or directory")) ⟨emptyWorld.fs,
        emptyWorld.trace ++ [.enter (.createServerCert "/certs" ["example.com"]),
          .stat (demoEnv.Join "/certs" SERVER_KEY_FILE) false,
          .loadX509KeyPair (demoEnv.Join "/certs" CA_CERT_FILE)
            (demoEnv.Join "/certs" CA_KEY_FILE) false,
          .leave (.createServerCert "/certs" ["example.com"])
            (some ("failed to load CA keypair: " ++
              "open /certs/ca.crt: no such file or directory"))],
        emptyWorld.rand, emptyWorld.clock⟩ :=
  ⟨by decide, rfl,
   (createServerCert_needs_CA demoEnv "/certs" ["example.com"] emptyWorld (by decide)).1
     "open /certs/ca.crt: no such file or directory" rfl⟩

/-! ## The two writes of an issuer -/

theorem writePEM_exit_shape (env : Env) (path : String) (block : Block) (mode : Nat)
    (w w' : World) (h : writePEM env path block mode w = .exit 1 w') :
    ∃ t, w'.trace = w.trace ++ t ∧ FailedWrite env path block mode t := by
  rcases writePEM_shape env path block mode w with hr | ⟨w2, mid, msg, hx, ht, hm⟩
  · rw [hr] at h
    cases h
  · rw [hx] at h
    cases h
    refine ⟨_, ht, mid, msg, rfl, ?_⟩
    rcases hm with ⟨_, -, hm, -⟩ | ⟨_, -, hm, -⟩ | ⟨_, data, -, hm, -⟩
    · exact Or.inl hm
    · exact Or.inr (Or.inl hm)
    · exact Or.inr (Or.inr ⟨data, hm⟩)

theorem createCA_persist_shape (env : Env) (outPath : String) (san0 : String)
    (rest : List String) (nc : Bool) (w : World) (key : PrivateKey) (cert : Bytes)
    (h : statOk env w.fs (env.Join outPath CA_KEY_FILE) = false)
    (hg : env.GenerateKey w.rand KEY_SIZE = .ok key)
    (hs : env.CreateCertificate (w.rand + 1)
      (caTemplate env san0 (san0 :: rest) nc (env.now w.clock) (env.now (w.clock + 1)))
      (caTemplate env san0 (san0 :: rest) nc (env.now w.clock) (env.now (w.clock + 1)))
      key.pub key = .ok cert) :
    PersistShape env (caPrologue env outPath (san0 :: rest) nc w key san0 true)
      (env.Join outPath CA_CERT_FILE) ⟨"CERTIFICATE", cert⟩
      (env.Join outPath CA_KEY_FILE) ⟨"RSA PRIVATE KEY", env.MarshalPKCS1PrivateKey key⟩
      (.createCA outPath (san0 :: rest) nc)
      (newEvents w (createCA env outPath (san0 :: rest) nc w)) := by
  rcases createCA_persist env outPath san0 rest nc w key cert h hg hs with
    ⟨w1, h1, hc⟩ | ⟨-, ⟨w2, h2, hc⟩ | hc⟩
  · obtain ⟨t, ht, hf⟩ := writePEM_exit_shape _ _ _ _ _ _ h1
    left
    refine ⟨t, hf, ?_⟩
    rw [hc]
    simp [newEvents, Outcome.world, ht]
  · obtain ⟨t, ht, hf⟩ := writePEM_exit_shape _ _ _ _ _ _ h2
    right; left
    refine ⟨t, hf, ?_⟩
    rw [hc]
    simp [newEvents, Outcome.world, ht]
  · right; right
    rw [hc]
    simp [newEvents, Outcome.world]

theorem createServerCert_persist_shape (env : Env) (outPath : String) (san0 : String)
    (rest : List String)
    (w : World) (pair : TLSCertificate) (der : Bytes) (ders : List Bytes) (ca : Certificate)
    (key : PrivateKey) (cert : Bytes)
    (h : statOk env w.fs (env.Join outPath SERVER_KEY_FILE) = false)
    (hl : loadX509KeyPair env w.fs (env.Join outPath CA_CERT_FILE)
      (env.Join outPath CA_KEY_FILE) = .ok pair)
    (hd : pair.Certificate = der :: ders)
    (hp : env.ParseCertificate der = .ok ca)
    (hg : env.GenerateKey w.rand KEY_SIZE = .ok key)
    (hs : env.CreateCertificate (w.rand + 1)
      (serverTemplate env ca san0 (san0 :: rest) (env.now w.clock) (env.now (w.clock + 1)))
      ca key.pub pair.PrivateKey = .ok cert) :
    PersistShape env (serverPrologue env outPath (san0 :: rest) w pair der ca key san0 true)
      (env.Join outPath SERVER_CERT_FILE) ⟨"CERTIFICATE", cert⟩
      (env.Join outPath SERVER_KEY_FILE) ⟨"RSA PRIVATE KEY", env.MarshalPKCS1PrivateKey key⟩
      (.createServerCert outPath (san0 :: rest))
      (newEvents w (createServerCert env outPath (san0 :: rest) w)) := by
  rcases createServerCert_persist env outPath san0 rest w pair der ders ca key cert h hl hd hp
    hg hs with ⟨w1, h1, hc⟩ | ⟨-, ⟨w2, h2, hc⟩ | hc⟩
  · obtain ⟨t, ht, hf⟩ := writePEM_exit_shape _ _ _ _ _ _ h1
    left
    refine ⟨t, hf, ?_⟩
    rw [hc]
    simp [newEvents, Outcome.world, ht]
  · obtain ⟨t, ht, hf⟩ := writePEM_exit_shape _ _ _ _ _ _ h2
    right; left
    refine ⟨t, hf, ?_⟩
    rw [hc]
    simp [newEvents, Outcome.world, ht]
  · right; right
    rw [hc]
    simp [newEvents, Outcome.world]

theorem filter_writePEM_pre (pre : List Event) (hpre : ∀ e ∈ pre, e.isPersistStep = false) :
    pre.filter Event.isWritePEM = [] := by
  rw [List.filter_eq_nil_iff]
  intro e he hw
  have := hpre e he
  cases e with
  | enter c => cases c <;> simp_all [Event.isWritePEM, Event.isPersistStep]
  | _ => simp_all [Event.isWritePEM]

theorem FailedWrite.filter (env : Env) (path : String) (block : Block) (mode : Nat)
    (t : List Event) (h : FailedWrite env path block mode t) :
    t.filter Event.isWritePEM = [.enter (.writePEM path block mode)] ∧
    (∀ c err, Event.leave c err ∉ t) ∧
    (∀ q ok, Event.create q ok ∈ t → q = path) := by
  obtain ⟨mid, msg, rfl, rfl | rfl | ⟨data, rfl⟩⟩ := h <;>
    simp [Event.isWritePEM]

/-- What the shape of the persistence part gives: the calls of `writePEM` and their order,
and that the key file is created only after the certificate has been written. -/
theorem PersistShape.facts (env : Env) (pre : List Event) (certPath : String)
    (certBlock : Block) (keyPath : String) (keyBlock : Block) (c : Call) (t : List Event)
    (hpre : ∀ e ∈ pre, e.isPersistStep = false)
    (h : PersistShape env pre certPath certBlock keyPath keyBlock c t) :
    (Event.leave (.writePEM certPath certBlock CERT_FILE_MODE) none ∈ t →
      t.filter Event.isWritePEM = [.enter (.writePEM certPath certBlock CERT_FILE_MODE),
        .enter (.writePEM keyPath keyBlock KEY_FILE_MODE)]) ∧
    (Event.leave (.writePEM certPath certBlock CERT_FILE_MODE) none ∉ t →
      t.filter Event.isWritePEM = [.enter (.writePEM certPath certBlock CERT_FILE_MODE)] ∧
      Event.exit 1 ∈ t) ∧
    (certPath ≠ keyPath → ∀ a ok b, t = a ++ Event.create keyPath ok :: b →
      Event.write certPath (env.EncodeToMemory certBlock) true ∈ a) := by
  have hf := filter_writePEM_pre pre hpre
  have hleave : ∀ c err, Event.leave c err ∉ pre := fun c err hm => by
    have := hpre _ hm
    simp [Event.isPersistStep] at this
  have hcreate : ∀ q ok, Event.create q ok ∉ pre := fun q ok hm => by
    have := hpre _ hm
    simp [Event.isPersistStep] at this
  rcases h with ⟨t1, h1, rfl⟩ | ⟨t2, h2, rfl⟩ | rfl
  · obtain ⟨hf1, hl1, hc1⟩ := FailedWrite.filter _ _ _ _ _ h1
    refine ⟨?_, ?_, ?_⟩
    · intro hm
      rcases List.mem_append.1 hm with hm | hm
      · exact absurd hm (hleave _ _)
      · exact absurd hm (hl1 _ _)
    · intro _
      refine ⟨by simp [List.filter_append, hf, hf1], ?_⟩
      obtain ⟨mid, msg, rfl, -⟩ := h1
      simp
    · intro hne a ok b hsplit
      have hm : Event.create keyPath ok ∈ pre ++ t1 := by rw [hsplit]; simp
      rcases List.mem_append.1 hm with hm | hm
      · exact absurd hm (hcreate _ _)
      · exact absurd (hc1 _ _ hm).symm hne
  · obtain ⟨hf2, hl2, hc2⟩ := FailedWrite.filter _ _ _ _ _ h2
    refine ⟨?_, ?_, ?_⟩
    · intro _
      simp [List.filter_append, hf, hf2, writePEMEvents, Event.isWritePEM]
    · intro hn
      exact absurd (by simp [writePEMEvents]) hn
    · intro hne a ok b hsplit
      have hnot : Event.create keyPath ok ∉
          pre ++ writePEMEvents env certPath certBlock CERT_FILE_MODE := by
        intro hm
        rcases List.mem_append.1 hm with hm | hm
        · exact absurd hm (hcreate _ _)
        · simp [writePEMEvents] at hm
          exact hne hm.1.symm
      obtain ⟨a', rfl⟩ := split_after _ _ _ _ _ hsplit hnot
      simp [writePEMEvents]
  · refine ⟨?_, ?_, ?_⟩
    · intro _
      simp [List.filter_append, hf, writePEMEvents, Event.isWritePEM]
    · intro hn
      exact absurd (by simp [writePEMEvents]) hn
    · intro hne a ok b hsplit
      have hnot : Event.create keyPath ok ∉
          pre ++ writePEMEvents env certPath certBlock CERT_FILE_MODE := by
        intro hm
        rcases List.mem_append.1 hm with hm | hm
        · exact absurd hm (hcreate _ _)
        · simp [writePEMEvents] at hm
          exact hne hm.1.symm
      rw [List.append_assoc (pre ++ writePEMEvents env certPath certBlock CERT_FILE_MODE)]
        at hsplit
      obtain ⟨a', rfl⟩ := split_after _ _ _ _ _ hsplit hnot
      simp [writePEMEvents]

theorem caPrologue_not_persist (env : Env) (outPath : String) (sans : List String) (nc : Bool)
    (w : World) (key : PrivateKey) (san0 : String) (ok : Bool) :
    ∀ e ∈ caPrologue env outPath sans nc w key san0 ok, e.isPersistStep = false := by
  simp [caPrologue, Event.isPersistStep]

theorem serverPrologue_not_persist (env : Env) (outPath : String) (sans : List String)
    (w : World) (pair : TLSCertificate) (der : Bytes) (ca : Certificate) (key : PrivateKey)
    (san0 : String) (ok : Bool) :
    ∀ e ∈ serverPrologue env outPath sans w pair der ca key san0 ok,
      e.isPersistStep = false := by
  simp [serverPrologue, Event.isPersistStep]

theorem failedWrite_targets (env : Env) (path : String) (block : Block) (mode : Nat)
    (t : List Event) (h : FailedWrite env path block mode t) :
    ∀ e ∈ t, e.target = none ∨ e.target = some path := by
  obtain ⟨mid, msg, rfl, rfl | rfl | ⟨data, rfl⟩⟩ := h <;>
    simp [Event.target]

theorem writePEMEvents_targets (env : Env) (path : String) (block : Block) (mode : Nat) :
    ∀ e ∈ writePEMEvents env path block mode, e.target = none ∨ e.target = some path := by
  simp [writePEMEvents, Event.target]

/-- After signing, an issuer creates and changes nothing but its two files. -/
theorem persistShape_targets (env : Env) (pre : List Event) (certPath : String)
    (certBlock : Block) (keyPath : String) (keyBlock : Block) (c : Call) (t : List Event)
    (hpre : ∀ e ∈ pre, e.target = none)
    (h : PersistShape env pre certPath certBlock keyPath keyBlock c t) :
    ∀ e ∈ t, e.target = none ∨ e.target = some certPath ∨ e.target = some keyPath := by
  have hc := writePEMEvents_targets env certPath certBlock CERT_FILE_MODE
  have hk := writePEMEvents_targets env keyPath keyBlock KEY_FILE_MODE
  rcases h with ⟨t1, h1, rfl⟩ | ⟨t2, h2, rfl⟩ | rfl
  · intro e he
    rcases List.mem_append.1 he with he | he
    · exact Or.inl (hpre e he)
    · rcases failedWrite_targets _ _ _ _ _ h1 e he with h | h
      · exact Or.inl h
      · exact Or.inr (Or.inl h)
  · intro e he
    rcases List.mem_append.1 he with he | he
    · rcases List.mem_append.1 he with he | he
      · exact Or.inl (hpre e he)
      · rcases hc e he with h | h
        · exact Or.inl h
        · exact Or.inr (Or.inl h)
    · rcases failedWrite_targets _ _ _ _ _ h2 e he with h | h
      · exact Or.inl h
      · exact Or.inr (Or.inr h)
  · intro e he
    rcases List.mem_append.1 he with he | he
    · rcases List.mem_append.1 he with he | he
      · rcases List.mem_append.1 he with he | he
        · exact Or.inl (hpre e he)
        · rcases hc e he with h | h
          · exact Or.inl h
          · exact Or.inr (Or.inl h)
      · rcases hk e he with h | h
        · exact Or.inl h
        · exact Or.inr (Or.inr h)
    · simp at he
      subst he
      exact Or.inl rfl

theorem caPrologue_targets (env : Env) (outPath : String) (sans : List String) (nc : Bool)
    (w : World) (key : PrivateKey) (san0 : String) (ok : Bool) :
    ∀ e ∈ caPrologue env outPath sans nc w key san0 ok, e.target = none := by
  simp [caPrologue, Event.target]

theorem serverPrologue_targets (env : Env) (outPath : String) (sans : List String)
    (w : World) (pair : TLSCertificate) (der : Bytes) (ca : Certificate) (key : PrivateKey)
    (san0 : String) (ok : Bool) :
    ∀ e ∈ serverPrologue env outPath sans w pair der ca key san0 ok, e.target = none := by
  simp [serverPrologue, Event.target]

theorem FS.has_set (fs : FS) (p q : String) (f : File) :
    (fs.set p f).has q = (decide (p = q) || fs.has q) := by
  have hd : (fs.set p f).dirs = fs.dirs := rfl
  by_cases h : p = q <;> simp [FS.has, FS.get_set, h, hd]

/-- C5, as the claim states it, fails: nothing is at `ca.key`, key generation and signing
succeed, and `os.Create` fails on `ca.crt`.  The run makes one `writePEM` call, not two: the
process exits inside the call for the certificate and `ca.key` is never written. -/
theorem one_writePEM_call :
    newEvents emptyWorld (createCA readOnlyEnv "/certs" ["example.com"] true emptyWorld) =
      caPrologue readOnlyEnv "/certs" ["example.com"] true emptyWorld ⟨⟨4096, 65537⟩, 1⟩
          "example.com" true ++
        [.enter (.writePEM "/certs/ca.crt" ⟨"CERTIFICATE", [1, 4096, 1]⟩ 0o444),
         .log "Writing /certs/ca.crt with mode -r--r--r--",
         .create "/certs/ca.crt" false,
         .log "file creation failed: permission denied",
         .exit 1] ∧
    (newEvents emptyWorld
        (createCA readOnlyEnv "/certs" ["example.com"] true emptyWorld)).filter
      Event.isWritePEM =
      [.enter (.writePEM "/certs/ca.crt" ⟨"CERTIFICATE", [1, 4096, 1]⟩ 0o444)] ∧
    (createCA readOnlyEnv "/certs" ["example.com"] true emptyWorld).world.fs = emptyWorld.fs :=
  ⟨by decide, by decide, by decide⟩

/-- C5 amended: in a run of an issuer that does not skip (`os.Stat` fails on its key file)
and in which key generation, (for the server) loading the CA, and signing succeed, the first
`writePEM` call is for the certificate file (`CERTIFICATE`, mode 0444).  If that call
returns, a second call follows for the key file (`RSA PRIVATE KEY`, mode 0400) and there is
no third; if it does not return, it is the only call and the run ends in `os.Exit(1)`.
Both files are `filepath.Join(outPath, name)`, no step of the run creates or changes any
other path, and the key file is created only after the certificate has been written.
Hence when `createCA` and then `createServerCert` return nil on an empty directory, the
four files hold the four PEM blocks with modes 0444 and 0400, and they are all there is in
the directory. -/
theorem persist_order (env : Env) (outPath : String) (san0 : String) (rest : List String)
    (nc : Bool) (w : World) :
    (∀ key cert,
      statOk env w.fs (env.Join outPath CA_KEY_FILE) = false →
      env.GenerateKey w.rand KEY_SIZE = .ok key →
      env.CreateCertificate (w.rand + 1)
        (caTemplate env san0 (san0 :: rest) nc (env.now w.clock) (env.now (w.clock + 1)))
        (caTemplate env san0 (san0 :: rest) nc (env.now w.clock) (env.now (w.clock + 1)))
        key.pub key = .ok cert →
      (Event.leave (.writePEM (env.Join outPath CA_CERT_FILE) ⟨"CERTIFICATE", cert⟩
            CERT_FILE_MODE) none ∈ newEvents w (createCA env outPath (san0 :: rest) nc w) →
        (newEvents w (createCA env outPath (san0 :: rest) nc w)).filter Event.isWritePEM =
          [.enter (.writePEM (env.Join outPath CA_CERT_FILE) ⟨"CERTIFICATE", cert⟩
              CERT_FILE_MODE),
           .enter (.writePEM (env.Join outPath CA_KEY_FILE)
              ⟨"RSA PRIVATE KEY", env.MarshalPKCS1PrivateKey key⟩ KEY_FILE_MODE)]) ∧
      (Event.leave (.writePEM (env.Join outPath CA_CERT_FILE) ⟨"CERTIFICATE", cert⟩
            CERT_FILE_MODE) none ∉ newEvents w (createCA env outPath (san0 :: rest) nc w) →
        (newEvents w (createCA env outPath (san0 :: rest) nc w)).filter Event.isWritePEM =
          [.enter (.writePEM (env.Join outPath CA_CERT_FILE) ⟨"CERTIFICATE", cert⟩
              CERT_FILE_MODE)] ∧
        Event.exit 1 ∈ newEvents w (createCA env outPath (san0 :: rest) nc w)) ∧
      (env.Join outPath CA_CERT_FILE ≠ env.Join outPath CA_KEY_FILE →
        ∀ a ok b, newEvents w (createCA env outPath (san0 :: rest) nc w) =
            a ++ Event.create (env.Join outPath CA_KEY_FILE) ok :: b →
          Event.write (env.Join outPath CA_CERT_FILE)
            (env.EncodeToMemory ⟨"CERTIFICATE", cert⟩) true ∈ a) ∧
      (∀ e ∈ newEvents w (createCA env outPath (san0 :: rest) nc w),
        e.target = none ∨ e.target = some (env.Join outPath CA_CERT_FILE) ∨
          e.target = some (env.Join outPath CA_KEY_FILE))) ∧
    (∀ pair der ders ca key cert,
      statOk env w.fs (env.Join outPath SERVER_KEY_FILE) = false →
      loadX509KeyPair env w.fs (env.Join outPath CA_CERT_FILE)
        (env.Join outPath CA_KEY_FILE) = .ok pair →
      pair.Certificate = der :: ders →
      env.ParseCertificate der = .ok ca →
      env.GenerateKey w.rand KEY_SIZE = .ok key →
      env.CreateCertificate (w.rand + 1)
        (serverTemplate env ca san0 (san0 :: rest) (env.now w.clock) (env.now (w.clock + 1)))
        ca key.pub pair.PrivateKey = .ok cert →
      (Event.leave (.writePEM (env.Join outPath SERVER_CERT_FILE) ⟨"CERTIFICATE", cert⟩
            CERT_FILE_MODE) none ∈
          newEvents w (createServerCert env outPath (san0 :: rest) w) →
        (newEvents w (createServerCert env outPath (san0 :: rest) w)).filter
            Event.isWritePEM =
          [.enter (.writePEM (env.Join outPath SERVER_CERT_FILE) ⟨"CERTIFICATE", cert⟩
              CERT_FILE_MODE),
           .enter (.writePEM (env.Join outPath SERVER_KEY_FILE)
              ⟨"RSA PRIVATE KEY", env.MarshalPKCS1PrivateKey key⟩ KEY_FILE_MODE)]) ∧
      (Event.leave (.writePEM (env.Join outPath SERVER_CERT_FILE) ⟨"CERTIFICATE", cert⟩
            CERT_FILE_MODE) none ∉
          newEvents w (createServerCert env outPath (san0 :: rest) w) →
        (newEvents w (createServerCert env outPath (san0 :: rest) w)).filter
            Event.isWritePEM =
          [.enter (.writePEM (env.Join outPath SERVER_CERT_FILE) ⟨"CERTIFICATE", cert⟩
              CERT_FILE_MODE)] ∧
        Event.exit 1 ∈ newEvents w (createServerCert env outPath (san0 :: rest) w)) ∧
      (env.Join outPath SERVER_CERT_FILE ≠ env.Join outPath SERVER_KEY_FILE →
        ∀ a ok b, newEvents w (createServerCert env outPath (san0 :: rest) w) =
            a ++ Event.create (env.Join outPath SERVER_KEY_FILE) ok :: b →
          Event.write (env.Join outPath SERVER_CERT_FILE)
            (env.EncodeToMemory ⟨"CERTIFICATE", cert⟩) true ∈ a) ∧
      (∀ e ∈ newEvents w (createServerCert env outPath (san0 :: rest) w),
        e.target = none ∨ e.target = some (env.Join outPath SERVER_CERT_FILE) ∨
          e.target = some (env.Join outPath SERVER_KEY_FILE))) ∧
    (∀ w1 w2,
      env.Join outPath CA_CERT_FILE ≠ env.Join outPath CA_KEY_FILE →
      env.Join outPath CA_CERT_FILE ≠ env.Join outPath SERVER_CERT_FILE →
      env.Join outPath CA_CERT_FILE ≠ env.Join outPath SERVER_KEY_FILE →
      env.Join outPath CA_KEY_FILE ≠ env.Join outPath SERVER_CERT_FILE →
      env.Join outPath CA_KEY_FILE ≠ env.Join outPath SERVER_KEY_FILE →
      env.Join outPath SERVER_CERT_FILE ≠ env.Join outPath SERVER_KEY_FILE →
      (∀ name, w.fs.has (env.Join outPath name) = false) →
      createCA env outPath (san0 :: rest) nc w = .ret none w1 →
      createServerCert env outPath (san0 :: rest) w1 = .ret none w2 →
      (∃ caCert caKey serverCert serverKey,
        w2.fs.get (env.Join outPath CA_CERT_FILE) =
          some ⟨CERT_FILE_MODE, env.EncodeToMemory ⟨"CERTIFICATE", caCert⟩⟩ ∧
        w2.fs.get (env.Join outPath CA_KEY_FILE) =
          some ⟨KEY_FILE_MODE, env.EncodeToMemory ⟨"RSA PRIVATE KEY", caKey⟩⟩ ∧
        w2.fs.get (env.Join outPath SERVER_CERT_FILE) =
          some ⟨CERT_FILE_MODE, env.EncodeToMemory ⟨"CERTIFICATE", serverCert⟩⟩ ∧
        w2.fs.get (env.Join outPath SERVER_KEY_FILE) =
          some ⟨KEY_FILE_MODE, env.EncodeToMemory ⟨"RSA PRIVATE KEY", serverKey⟩⟩) ∧
      ∀ name, w2.fs.has (env.Join outPath name) = true ↔
        env.Join outPath name ∈
          [env.Join outPath CA_CERT_FILE, env.Join outPath CA_KEY_FILE,
           env.Join outPath SERVER_CERT_FILE, env.Join outPath SERVER_KEY_FILE]) := by
  refine ⟨?_, ?_, ?_⟩
  · intro key cert h hg hs
    have hshape := createCA_persist_shape env outPath san0 rest nc w key cert h hg hs
    obtain ⟨f1, f2, f3⟩ := PersistShape.facts env _ _ _ _ _ _ _
      (caPrologue_not_persist env outPath (san0 :: rest) nc w key san0 true) hshape
    exact ⟨f1, f2, f3, persistShape_targets env _ _ _ _ _ _ _
      (caPrologue_targets env outPath (san0 :: rest) nc w key san0 true) hshape⟩
  · intro pair der ders ca key cert h hl hd hp hg hs
    have hshape := createServerCert_persist_shape env outPath san0 rest w pair der ders ca key
      cert h hl hd hp hg hs
    obtain ⟨f1, f2, f3⟩ := PersistShape.facts env _ _ _ _ _ _ _
      (serverPrologue_not_persist env outPath (san0 :: rest) w pair der ca key san0 true) hshape
    exact ⟨f1, f2, f3, persistShape_targets env _ _ _ _ _ _ _
      (serverPrologue_targets env outPath (san0 :: rest) w pair der ca key san0 true) hshape⟩
  · intro w1 w2 d1 d2 d3 d4 d5 d6 hempty hca hsrv
    have hk := statOk_of_absent env w.fs _ (hempty CA_KEY_FILE)
    rcases createCA_ret_none env outPath _ nc w w1 hca with ⟨hsome, -⟩ |
      ⟨key, s0, r0, cert, -, -, -, -, rfl⟩
    · rw [hk] at hsome
      cases hsome
    · have hsk : statOk env
          ((w.fs.set (env.Join outPath CA_CERT_FILE)
              ⟨CERT_FILE_MODE, env.EncodeToMemory ⟨"CERTIFICATE", cert⟩⟩).set
            (env.Join outPath CA_KEY_FILE)
            ⟨KEY_FILE_MODE,
              env.EncodeToMemory ⟨"RSA PRIVATE KEY", env.MarshalPKCS1PrivateKey key⟩⟩)
          (env.Join outPath SERVER_KEY_FILE) = false := by
        apply statOk_of_absent
        simp [FS.has_set, d5, d3, hempty SERVER_KEY_FILE]
      rcases createServerCert_ret_none env outPath _ _ w2 hsrv with ⟨hsome, -⟩ |
        ⟨pair, der, ders, ca, skey, s1, r1, scert, -, -, -, -, -, -, -, rfl⟩
      · rw [hsk] at hsome
        cases hsome
      · refine ⟨⟨cert, env.MarshalPKCS1PrivateKey key, scert, env.MarshalPKCS1PrivateKey skey,
          ?_, ?_, ?_, ?_⟩, ?_⟩
        · simp only [FS.get_set_ne _ _ _ _ (Ne.symm d3), FS.get_set_ne _ _ _ _ (Ne.symm d2),
            FS.get_set_ne _ _ _ _ (Ne.symm d1), FS.get_set_self]
        · simp only [FS.get_set_ne _ _ _ _ (Ne.symm d5), FS.get_set_ne _ _ _ _ (Ne.symm d4),
            FS.get_set_self]
        · simp only [FS.get_set_ne _ _ _ _ (Ne.symm d6), FS.get_set_self]
        · simp only [FS.get_set_self]
        · intro name
          simp only [FS.has_set, hempty name, Bool.or_false, Bool.or_eq_true, decide_eq_true_eq,
            List.mem_cons, List.mem_singleton, List.not_mem_nil, or_false]
          constructor <;> rintro (h | h | h | h) <;> simp [h]

/-- The two issuers in a row on an empty directory leave exactly the four files. -/
theorem persist_order_witness :
    ((∀ name, emptyWorld.fs.has (demoEnv.Join "/certs" name) = false) ∧
      createCA demoEnv "/certs" ["example.com", "127.0.0.1"] true emptyWorld =
        .ret none (createCA demoEnv "/certs" ["example.com", "127.0.0.1"] true
          emptyWorld).world ∧
      createServerCert demoEnv "/certs" ["example.com", "127.0.0.1"]
          (createCA demoEnv "/certs" ["example.com", "127.0.0.1"] true emptyWorld).world =
        .ret none (createServerCert demoEnv "/certs" ["example.com", "127.0.0.1"]
          (createCA demoEnv "/certs" ["example.com", "127.0.0.1"] true
            emptyWorld).world).world) ∧
    (∃ caCert caKey serverCert serverKey,
      (createServerCert demoEnv "/certs" ["example.com", "127.0.0.1"]
          (createCA demoEnv "/certs" ["example.com", "127.0.0.1"] true
            emptyWorld).world).world.fs.get (demoEnv.Join "/certs" CA_CERT_FILE) =
        some ⟨CERT_FILE_MODE, demoEnv.EncodeToMemory ⟨"CERTIFICATE", caCert⟩⟩ ∧
      (createServerCert demoEnv "/certs" ["example.com", "127.0.0.1"]
          (createCA demoEnv "/certs" ["example.com", "127.0.0.1"] true
            emptyWorld).world).world.fs.get (demoEnv.Join "/certs" CA_KEY_FILE) =
        some ⟨KEY_FILE_MODE, demoEnv.EncodeToMemory ⟨"RSA PRIVATE KEY", caKey⟩⟩ ∧
      (createServerCert demoEnv "/certs" ["example.com", "127.0.0.1"]
          (createCA demoEnv "/certs" ["example.com", "127.0.0.1"] true
            emptyWorld).world).world.fs.get (demoEnv.Join "/certs" SERVER_CERT_FILE) =
        some ⟨CERT_FILE_MODE, demoEnv.EncodeToMemory ⟨"CERTIFICATE", serverCert⟩⟩ ∧
      (createServerCert demoEnv "/certs" ["example.com", "127.0.0.1"]
          (createCA demoEnv "/certs" ["example.com", "127.0.0.1"] true
            emptyWorld).world).world.fs.get (demoEnv.Join "/certs" SERVER_KEY_FILE) =
        some ⟨KEY_FILE_MODE, demoEnv.EncodeToMemory ⟨"RSA PRIVATE KEY", serverKey⟩⟩) ∧
    ∀ name,
      (createServerCert demoEnv "/certs" ["example.com", "127.0.0.1"]
          (createCA demoEnv "/certs" ["example.com", "127.0.0.1"] true
            emptyWorld).world).world.fs.has (demoEnv.Join "/certs" name) = true ↔
        demoEnv.Join "/certs" name ∈
          [demoEnv.Join "/certs" CA_CERT_FILE, demoEnv.Join "/certs" CA_KEY_FILE,
           demoEnv.Join "/certs" SERVER_CERT_FILE, demoEnv.Join "/certs" SERVER_KEY_FILE] :=
  ⟨⟨fun _ => rfl, rfl, rfl⟩,
   (persist_order demoEnv "/certs" "example.com" ["127.0.0.1"] true emptyWorld).2.2
     (createCA demoEnv "/certs" ["example.com", "127.0.0.1"] true emptyWorld).world
     (createServerCert demoEnv "/certs" ["example.com", "127.0.0.1"]
       (createCA demoEnv "/certs" ["example.com", "127.0.0.1"] true emptyWorld).world).world
     (by decide) (by decide) (by decide) (by decide) (by decide) (by decide)
     (fun _ => rfl) rfl rfl⟩

/-! ## The entry point -/

theorem main_noArgs (env : Env) (args : List String) (w : World) (outPath : String)
    (nc : Bool) (hp : env.flagParse "./certs" true args = .parsed outPath nc []) :
    main env args w = .exit 1 ⟨w.fs,
      w.trace ++ [.log ("create-local-cert " ++ build_version ++ " (" ++ build_commit ++
          ") built on " ++ build_date),
        .log "", .flagParse args,
        .log "failed: at least one SAN must be provided", .exit 1],
      w.rand, w.clock⟩ := by
  simp [main, Println, emit, Fatal, hp]

theorem main_parseExit (env : Env) (args : List String) (w : World) (code : Nat)
    (hp : env.flagParse "./certs" true args = .exit code) :
    main env args w = .exit code ⟨w.fs,
      w.trace ++ [.log ("create-local-cert " ++ build_version ++ " (" ++ build_commit ++
          ") built on " ++ build_date),
        .log "", .flagParse args, .exit code],
      w.rand, w.clock⟩ := by
  simp [main, Println, emit, Fatal, hp]

theorem main_absErr (env : Env) (args : List String) (w : World) (outFlag : String)
    (nc : Bool) (san0 : String) (rest : List String) (err : String)
    (hp : env.flagParse "./certs" true args = .parsed outFlag nc (san0 :: rest))
    (ha : env.Abs outFlag = .error err) :
    main env args w = .exit 1 ⟨w.fs,
      w.trace ++ [.log ("create-local-cert " ++ build_version ++ " (" ++ build_commit ++
          ") built on " ++ build_date),
        .log "", .flagParse args, .abs outFlag false,
        .log ("failed to resolve outpath: " ++ err), .exit 1],
      w.rand, w.clock⟩ := by
  simp [main, Println, emit, Fatal, hp, Abs, ha]

theorem main_mkdirErr (env : Env) (args : List String) (w : World) (outFlag outPath : String)
    (nc : Bool) (san0 : String) (rest : List String) (err : String)
    (hp : env.flagParse "./certs" true args = .parsed outFlag nc (san0 :: rest))
    (ha : env.Abs outFlag = .ok outPath)
    (hm : mkdirAllFails env w.fs outPath 0o755 = some err) :
    main env args w = .exit 1 ⟨w.fs,
      w.trace ++ [.log ("create-local-cert " ++ build_version ++ " (" ++ build_commit ++
          ") built on " ++ build_date),
        .log "", .flagParse args, .abs outFlag true, .log "Params:",
        .log ("  SANs: [" ++ " ".intercalate (san0 :: rest) ++ "]"),
        .log ("  outPath: " ++ outPath),
        .log ("  isUsingNameConstraints: " ++ toString nc),
        .log "", .mkdirAll outPath 0o755 false,
        .log ("failed to create output directory: " ++ err), .exit 1],
      w.rand, w.clock⟩ := by
  simp [main, Println, emit, Fatal, hp, Abs, ha, MkdirAll, hm]

/-- Once the flags are parsed, the path is resolved and the directory is made, `main` is
`createCA` followed, if it returned nil, by `createServerCert`. -/
theorem main_eq (env : Env) (args : List String) (w : World) (outFlag outPath : String)
    (nc : Bool) (san0 : String) (rest : List String)
    (hp : env.flagParse "./certs" true args = .parsed outFlag nc (san0 :: rest))
    (ha : env.Abs outFlag = .ok outPath)
    (hm : mkdirAllFails env w.fs outPath 0o755 = none) :
    main env args w =
      match createCA env outPath (san0 :: rest) nc
          ⟨{ w.fs with dirs := if outPath ∈ w.fs.dirs then w.fs.dirs
                                else w.fs.dirs ++ [outPath] },
            w.trace ++ mainPrologue args outFlag outPath nc (san0 :: rest),
            w.rand, w.clock⟩ with
      | .exit code w => .exit code w
      | .panic site w => .panic site w
      | .ret (some err) w =>
        .exit 1 ⟨w.fs, w.trace ++ [.log ("failed to create CA: " ++ err), .exit 1],
          w.rand, w.clock⟩
      | .ret none w =>
        match createServerCert env outPath (san0 :: rest)
            ⟨w.fs, w.trace ++ [.log "", .log "Creating server certificate..."],
              w.rand, w.clock⟩ with
        | .exit code w => .exit code w
        | .panic site w => .panic site w
        | .ret (some err) w =>
          .exit 1 ⟨w.fs,
            w.trace ++ [.log ("failed to create server certificate: " ++ err), .exit 1],
            w.rand, w.clock⟩
        | .ret none w =>
          .ret () ⟨w.fs, w.trace ++ [.log "", .log "Done!"], w.rand, w.clock⟩ := by
  simp [main, Println, emit, Fatal, hp, Abs, ha, MkdirAll, hm, mainPrologue]

theorem createCA_ret_none_leave (env : Env) (outPath : String) (sans : List String)
    (nc : Bool) (w w1 : World) (hr : createCA env outPath sans nc w = .ret none w1) :
    Event.leave (.createCA outPath sans nc) none ∈
      newEvents w (createCA env outPath sans nc w) := by
  rw [hr]
  rcases createCA_ret_none env outPath sans nc w w1 hr with ⟨-, rfl⟩ |
    ⟨key, san0, rest, cert, -, -, -, -, rfl⟩ <;>
    simp [newEvents, Outcome.world]

/-- Where no event is a call of `createServerCert`, the ordering condition holds vacuously. -/
theorem no_server_call (t : List Event) (h : ∀ e ∈ t, e.isServerCall = false)
    (a : List Event) (e : Event) (b : List Event) (hs : t = a ++ e :: b)
    (he : e.isServerCall = true) : False := by
  have := h e (by rw [hs]; simp)
  rw [this] at he
  cases he

/-- A call of `createServerCert` that comes after a part `P` without one has all of `P`
before it. -/
theorem server_call_after (P Q : List Event) (h : ∀ e ∈ P, e.isServerCall = false)
    (a : List Event) (e : Event) (b : List Event) (hs : P ++ Q = a ++ e :: b)
    (he : e.isServerCall = true) : ∀ x ∈ P, x ∈ a := by
  have hn : e ∉ P := fun hm => by
    rw [h e hm] at he
    cases he
  obtain ⟨a', rfl⟩ := split_after P Q a b e hs hn
  intro x hx
  exact List.mem_append_left _ hx

theorem mainPrologue_calls (args : List String) (outFlag outPath : String) (nc : Bool)
    (sans : List String) :
    ∀ e ∈ mainPrologue args outFlag outPath nc sans, e.isIssuerCall = false := by
  simp [mainPrologue, Event.isIssuerCall]

theorem serverCall_issuerCall (e : Event) (h : e.isIssuerCall = false) :
    e.isServerCall = false := by
  cases e with
  | enter c => cases c <;> simp_all [Event.isIssuerCall, Event.isServerCall]
  | _ => simp [Event.isServerCall]

theorem createCA_enter_mem (env : Env) (outPath : String) (sans : List String) (nc : Bool)
    (w : World) :
    Event.enter (.createCA outPath sans nc) ∈ newEvents w (createCA env outPath sans nc w) := by
  obtain ⟨hd, tl, ht, -, hh⟩ := createCA_trace env outPath sans nc w
  have hn : newEvents w (createCA env outPath sans nc w) = hd ++ tl := by
    simp [newEvents, ht]
  rw [hn]
  apply List.mem_append_left
  rcases hh with rfl | rfl | rfl | ⟨key, san0, rest, ok, -, -, -, rfl⟩ <;> simp [caPrologue]

/-- The two facts about the issuer calls of a trace: each received a non-empty SAN list, and
each call of `createServerCert` comes after a call of `createCA` and its return of nil. -/
theorem calls_of_ca_part (A tCA C : List Event) (outPath : String) (san0 : String)
    (rest : List String) (nc : Bool)
    (hA : ∀ e ∈ A, e.isIssuerCall = false) (hC : ∀ e ∈ C, e.isIssuerCall = false)
    (hCA : ∀ e ∈ tCA, e.isIssuerCall = true → e = .enter (.createCA outPath (san0 :: rest) nc)) :
    (∀ e ∈ A ++ tCA ++ C, e.isIssuerCall = true → e.sansOf ≠ []) ∧
    (∀ a e b, A ++ tCA ++ C = a ++ e :: b → e.isServerCall = true →
      (∃ x ∈ a, x.isIssuerCall = true ∧ x.isServerCall = false) ∧
      ∃ x ∈ a, x.isCAReturnNil = true) := by
  have hall : ∀ e ∈ A ++ tCA ++ C, e.isIssuerCall = true →
      e = .enter (.createCA outPath (san0 :: rest) nc) := by
    intro e he hi
    rcases List.mem_append.1 he with he | he
    · rcases List.mem_append.1 he with he | he
      · rw [hA e he] at hi
        cases hi
      · exact hCA e he hi
    · rw [hC e he] at hi
      cases hi
  constructor
  · intro e he hi
    rw [hall e he hi]
    simp [Event.sansOf]
  · intro a e b hs hsc
    exfalso
    refine no_server_call _ ?_ a e b hs hsc
    intro x hx
    cases hxi : x.isIssuerCall with
    | false => exact serverCall_issuerCall x hxi
    | true =>
      rw [hall x hx hxi]
      rfl

theorem calls_of_both_parts (A tCA B tSC C : List Event) (outPath : String) (san0 : String)
    (rest : List String) (nc : Bool)
    (hA : ∀ e ∈ A, e.isIssuerCall = false) (hB : ∀ e ∈ B, e.isIssuerCall = false)
    (hC : ∀ e ∈ C, e.isIssuerCall = false)
    (hCA : ∀ e ∈ tCA, e.isIssuerCall = true → e = .enter (.createCA outPath (san0 :: rest) nc))
    (hSC : ∀ e ∈ tSC, e.isIssuerCall = true →
      e = .enter (.createServerCert outPath (san0 :: rest)))
    (henter : Event.enter (.createCA outPath (san0 :: rest) nc) ∈ tCA)
    (hleave : Event.leave (.createCA outPath (san0 :: rest) nc) none ∈ tCA) :
    (∀ e ∈ A ++ tCA ++ B ++ tSC ++ C, e.isIssuerCall = true → e.sansOf ≠ []) ∧
    (∀ a e b, A ++ tCA ++ B ++ tSC ++ C = a ++ e :: b → e.isServerCall = true →
      (∃ x ∈ a, x.isIssuerCall = true ∧ x.isServerCall = false) ∧
      ∃ x ∈ a, x.isCAReturnNil = true) := by
  constructor
  · intro e he hi
    simp only [List.mem_append] at he
    rcases he with (((he | he) | he) | he) | he
    · rw [hA e he] at hi; cases hi
    · rw [hCA e he hi]; simp [Event.sansOf]
    · rw [hB e he] at hi; cases hi
    · rw [hSC e he hi]; simp [Event.sansOf]
    · rw [hC e he] at hi; cases hi
  · intro a e b hs hsc
    have hP : ∀ x ∈ A ++ tCA ++ B, x.isServerCall = false := by
      intro x hx
      cases hxi : x.isIssuerCall with
      | false => exact serverCall_issuerCall x hxi
      | true =>
        simp only [List.mem_append] at hx
        rcases hx with (hx | hx) | hx
        · rw [hA x hx] at hxi; cases hxi
        · rw [hCA x hx hxi]; rfl
        · rw [hB x hx] at hxi; cases hxi
    rw [List.append_assoc (A ++ tCA ++ B)] at hs
    have hmem := server_call_after (A ++ tCA ++ B) (tSC ++ C) hP a e b hs hsc
    refine ⟨⟨Event.enter (.createCA outPath (san0 :: rest) nc), hmem _ ?_, rfl, rfl⟩,
      ⟨Event.leave (.createCA outPath (san0 :: rest) nc) none, hmem _ ?_, rfl⟩⟩
    · simp only [List.mem_append]
      exact Or.inl (Or.inr henter)
    · simp only [List.mem_append]
      exact Or.inl (Or.inr hleave)

/-- C9: with no positional argument, `main` logs the failure and exits with status 1 right
after parsing the flags: the output path is not resolved, no directory is made, no issuer is
called and the file system is as before.  In every run of `main`, each call of `createCA`
and of `createServerCert` receives a non-empty SAN list, so `main` never ends in the panic
of `sans[0]`; and each call of `createServerCert` comes after a call of `createCA` and after
its return of nil. -/
theorem main_requires_san (env : Env) (args : List String) (w : World) :
    (∀ outPath nc, env.flagParse "./certs" true args = .parsed outPath nc [] →
      main env args w = .exit 1 ⟨w.fs,
        w.trace ++ [.log ("create-local-cert " ++ build_version ++ " (" ++ build_commit ++
            ") built on " ++ build_date),
          .log "", .flagParse args,
          .log "failed: at least one SAN must be provided", .exit 1],
        w.rand, w.clock⟩) ∧
    (∀ e ∈ newEvents w (main env args w), e.isIssuerCall = true → e.sansOf ≠ []) ∧
    (∀ w', main env args w ≠ .panic "sans[0]" w') ∧
    (∀ a e b, newEvents w (main env args w) = a ++ e :: b → e.isServerCall = true →
      (∃ x ∈ a, x.isIssuerCall = true ∧ x.isServerCall = false) ∧
      ∃ x ∈ a, x.isCAReturnNil = true) := by
  refine ⟨fun outPath nc hp => main_noArgs env args w outPath nc hp, ?_⟩
  -- the runs that stop before `createCA`
  have hshort : ∀ (code : Nat) (w1 : World) (t : List Event),
      main env args w = .exit code w1 → w1.trace = w.trace ++ t →
      (∀ e ∈ t, e.isIssuerCall = false) →
      (∀ e ∈ newEvents w (main env args w), e.isIssuerCall = true → e.sansOf ≠ []) ∧
      (∀ w', main env args w ≠ .panic "sans[0]" w') ∧
      (∀ a e b, newEvents w (main env args w) = a ++ e :: b → e.isServerCall = true →
        (∃ x ∈ a, x.isIssuerCall = true ∧ x.isServerCall = false) ∧
        ∃ x ∈ a, x.isCAReturnNil = true) := by
    intro code w1 t hm ht hcalls
    have hn : newEvents w (main env args w) = t := by
      rw [hm]
      simp [newEvents, Outcome.world, ht]
    rw [hn]
    refine ⟨?_, ?_, ?_⟩
    · intro e he hi
      rw [hcalls e he] at hi
      cases hi
    · intro w' hp
      rw [hm] at hp
      cases hp
    · intro a e b hs hsc
      exact (no_server_call t (fun x hx => serverCall_issuerCall x (hcalls x hx)) a e b hs
        hsc).elim
  cases hp : env.flagParse "./certs" true args with
  | exit code =>
    exact hshort code _ _ (main_parseExit env args w code hp) rfl
      (by simp [Event.isIssuerCall])
  | parsed outFlag nc sans =>
    cases sans with
    | nil =>
      exact hshort 1 _ _ (main_noArgs env args w outFlag nc hp) rfl
        (by simp [Event.isIssuerCall])
    | cons san0 rest =>
      cases ha : env.Abs outFlag with
      | error err =>
        exact hshort 1 _ _ (main_absErr env args w outFlag nc san0 rest err hp ha) rfl
          (by simp [Event.isIssuerCall])
      | ok outPath =>
        cases hm : mkdirAllFails env w.fs outPath 0o755 with
        | some err =>
          exact hshort 1 _ _
            (main_mkdirErr env args w outFlag outPath nc san0 rest err hp ha hm) rfl
            (by simp [Event.isIssuerCall])
        | none =>
          have hmain := main_eq env args w outFlag outPath nc san0 rest hp ha hm
          have hA := mainPrologue_calls args outFlag outPath nc (san0 :: rest)
          -- the run of `createCA`
          obtain ⟨tCA, htCA⟩ : ∃ t, t = newEvents
              ⟨{ w.fs with dirs := if outPath ∈ w.fs.dirs then w.fs.dirs
                                    else w.fs.dirs ++ [outPath] },
                w.trace ++ mainPrologue args outFlag outPath nc (san0 :: rest),
                w.rand, w.clock⟩
              (createCA env outPath (san0 :: rest) nc
                ⟨{ w.fs with dirs := if outPath ∈ w.fs.dirs then w.fs.dirs
                                      else w.fs.dirs ++ [outPath] },
                  w.trace ++ mainPrologue args outFlag outPath nc (san0 :: rest),
                  w.rand, w.clock⟩) := ⟨_, rfl⟩
          have hxCA := createCA_extends env outPath (san0 :: rest) nc
            ⟨{ w.fs with dirs := if outPath ∈ w.fs.dirs then w.fs.dirs
                                  else w.fs.dirs ++ [outPath] },
              w.trace ++ mainPrologue args outFlag outPath nc (san0 :: rest),
              w.rand, w.clock⟩
          have hCA : ∀ e ∈ tCA, e.isIssuerCall = true →
              e = .enter (.createCA outPath (san0 :: rest) nc) := by
            intro e he
            rw [htCA] at he
            exact (createCA_events env outPath (san0 :: rest) nc _ e he).1
          have henter : Event.enter (.createCA outPath (san0 :: rest) nc) ∈ tCA := by
            rw [htCA]
            exact createCA_enter_mem env outPath (san0 :: rest) nc _
          have hleave : ∀ w1, createCA env outPath (san0 :: rest) nc
              ⟨{ w.fs with dirs := if outPath ∈ w.fs.dirs then w.fs.dirs
                                    else w.fs.dirs ++ [outPath] },
                w.trace ++ mainPrologue args outFlag outPath nc (san0 :: rest),
                w.rand, w.clock⟩ = .ret none w1 →
              Event.leave (.createCA outPath (san0 :: rest) nc) none ∈ tCA := by
            intro w1 hr
            rw [htCA]
            exact createCA_ret_none_leave env outPath (san0 :: rest) nc _ w1 hr
          have hnp := createCA_no_panic env outPath san0 rest nc
            ⟨{ w.fs with dirs := if outPath ∈ w.fs.dirs then w.fs.dirs
                                  else w.fs.dirs ++ [outPath] },
              w.trace ++ mainPrologue args outFlag outPath nc (san0 :: rest),
              w.rand, w.clock⟩
          rw [← htCA] at hxCA
          clear htCA
          cases hca : createCA env outPath (san0 :: rest) nc
              ⟨{ w.fs with dirs := if outPath ∈ w.fs.dirs then w.fs.dirs
                                    else w.fs.dirs ++ [outPath] },
                w.trace ++ mainPrologue args outFlag outPath nc (san0 :: rest),
                w.rand, w.clock⟩ with
          | panic site w4 => exact absurd hca (hnp w4 site)
          | exit code w4 =>
            rw [hca] at hmain hxCA
            simp only [Outcome.world] at hmain hxCA
            have hn : newEvents w (main env args w) =
                mainPrologue args outFlag outPath nc (san0 :: rest) ++ tCA ++ [] := by
              rw [hmain]
              simp [newEvents, Outcome.world, hxCA]
            rw [hn]
            obtain ⟨q1, q2⟩ := calls_of_ca_part _ tCA [] outPath san0 rest nc hA (by simp) hCA
            refine ⟨q1, ?_, q2⟩
            intro w' hpn
            rw [hmain] at hpn
            cases hpn
          | ret err w4 =>
            cases err with
            | some msg =>
              rw [hca] at hmain hxCA
              simp only [Outcome.world] at hmain hxCA
              have hn : newEvents w (main env args w) =
                  mainPrologue args outFlag outPath nc (san0 :: rest) ++ tCA ++
                    [.log ("failed to create CA: " ++ msg), .exit 1] := by
                rw [hmain]
                simp [newEvents, Outcome.world, hxCA]
              rw [hn]
              obtain ⟨q1, q2⟩ := calls_of_ca_part _ tCA
                [.log ("failed to create CA: " ++ msg), .exit 1] outPath san0 rest nc hA
                (by simp [Event.isIssuerCall]) hCA
              refine ⟨q1, ?_, q2⟩
              intro w' hpn
              rw [hmain] at hpn
              cases hpn
            | none =>
              have hl := hleave w4 hca
              rw [hca] at hmain hxCA
              simp only [Outcome.world] at hmain hxCA
              -- the run of `createServerCert`
              obtain ⟨tSC, htSC⟩ : ∃ t, t = newEvents
                  ⟨w4.fs, w4.trace ++ [.log "", .log "Creating server certificate..."],
                    w4.rand, w4.clock⟩
                  (createServerCert env outPath (san0 :: rest)
                    ⟨w4.fs, w4.trace ++ [.log "", .log "Creating server certificate..."],
                      w4.rand, w4.clock⟩) := ⟨_, rfl⟩
              have hxSC := createServerCert_extends env outPath (san0 :: rest)
                ⟨w4.fs, w4.trace ++ [.log "", .log "Creating server certificate..."],
                  w4.rand, w4.clock⟩
              have hSC : ∀ e ∈ tSC, e.isIssuerCall = true →
                  e = .enter (.createServerCert outPath (san0 :: rest)) := by
                intro e he
                rw [htSC] at he
                exact (createServerCert_events env outPath (san0 :: rest) _ e he).1
              have hsite := createServerCert_panic_site env outPath san0 rest
                ⟨w4.fs, w4.trace ++ [.log "", .log "Creating server certificate..."],
                  w4.rand, w4.clock⟩
              rw [← htSC] at hxSC
              clear htSC
              have hB : ∀ e ∈ [Event.log "", Event.log "Creating server certificate..."],
                  e.isIssuerCall = false := by simp [Event.isIssuerCall]
              cases hsc : createServerCert env outPath (san0 :: rest)
                  ⟨w4.fs, w4.trace ++ [.log "", .log "Creating server certificate..."],
                    w4.rand, w4.clock⟩ with
              | panic site w6 =>
                rw [hsc] at hmain hxSC
                simp only [Outcome.world] at hmain hxSC
                have hn : newEvents w (main env args w) =
                    mainPrologue args outFlag outPath nc (san0 :: rest) ++ tCA ++
                      [.log "", .log "Creating server certificate..."] ++ tSC ++ [] := by
                  rw [hmain]
                  simp [newEvents, Outcome.world, hxSC, hxCA]
                rw [hn]
                obtain ⟨q1, q2⟩ := calls_of_both_parts _ tCA _ tSC [] outPath san0 rest nc hA
                  hB (by simp) hCA hSC henter hl
                refine ⟨q1, ?_, q2⟩
                intro w' hpn
                rw [hmain] at hpn
                have := hsite w6 site hsc
                simp only [Outcome.panic.injEq] at hpn
                rw [this] at hpn
                exact absurd hpn.1 (by decide)
              | exit code w6 =>
                rw [hsc] at hmain hxSC
                simp only [Outcome.world] at hmain hxSC
                have hn : newEvents w (main env args w) =
                    mainPrologue args outFlag outPath nc (san0 :: rest) ++ tCA ++
                      [.log "", .log "Creating server certificate..."] ++ tSC ++ [] := by
                  rw [hmain]
                  simp [newEvents, Outcome.world, hxSC, hxCA]
                rw [hn]
                obtain ⟨q1, q2⟩ := calls_of_both_parts _ tCA _ tSC [] outPath san0 rest nc hA
                  hB (by simp) hCA hSC henter hl
                refine ⟨q1, ?_, q2⟩
                intro w' hpn
                rw [hmain] at hpn
                cases hpn
              | ret err2 w6 =>
                cases err2 with
                | some msg =>
                  rw [hsc] at hmain hxSC
                  simp only [Outcome.world] at hmain hxSC
                  have hn : newEvents w (main env args w) =
                      mainPrologue args outFlag outPath nc (san0 :: rest) ++ tCA ++
                        [.log "", .log "Creating server certificate..."] ++ tSC ++
                        [.log ("failed to create server certificate: " ++ msg), .exit 1] := by
                    rw [hmain]
                    simp [newEvents, Outcome.world, hxSC, hxCA]
                  rw [hn]
                  obtain ⟨q1, q2⟩ := calls_of_both_parts _ tCA _ tSC
                    [.log ("failed to create server certificate: " ++ msg), .exit 1]
                    outPath san0 rest nc hA hB (by simp [Event.isIssuerCall]) hCA hSC henter hl
                  refine ⟨q1, ?_, q2⟩
                  intro w' hpn
                  rw [hmain] at hpn
                  cases hpn
                | none =>
                  rw [hsc] at hmain hxSC
                  simp only [Outcome.world] at hmain hxSC
                  have hn : newEvents w (main env args w) =
                      mainPrologue args outFlag outPath nc (san0 :: rest) ++ tCA ++
                        [.log "", .log "Creating server certificate..."] ++ tSC ++
                        [.log "", .log "Done!"] := by
                    rw [hmain]
                    simp [newEvents, Outcome.world, hxSC, hxCA]
                  rw [hn]
                  obtain ⟨q1, q2⟩ := calls_of_both_parts _ tCA _ tSC
                    [.log "", .log "Done!"]
                    outPath san0 rest nc hA hB (by simp [Event.isIssuerCall]) hCA hSC henter hl
                  refine ⟨q1, ?_, q2⟩
                  intro w' hpn
                  rw [hmain] at hpn
                  cases hpn

/-- The run of `main` on an empty command line. -/
theorem main_requires_san_witness :
    demoEnv.flagParse "./certs" true [] = .parsed "./certs" true [] ∧
    main demoEnv [] emptyWorld = .exit 1 ⟨emptyWorld.fs,
      emptyWorld.trace ++ [.log ("create-local-cert " ++ build_version ++ " (" ++
          build_commit ++ ") built on " ++ build_date),
        .log "", .flagParse [],
        .log "failed: at least one SAN must be provided", .exit 1],
      emptyWorld.rand, emptyWorld.clock⟩ :=
  ⟨rfl, (main_requires_san demoEnv [] emptyWorld).1 "./certs" true rfl⟩

end CreateLocalCert
